import Mathlib

/-!
# DataMailbox: typed messages, wire codecs and buffer ownership

A shallow embedding of `src/include/DataMailbox.hpp` and `src/src/DataMailbox.cpp`.

Data model of the embedding
* `char` is one 8-bit storage unit (`Byte`); `(int)` of a `char` enum reads it as a signed
  8-bit value.
* `int` is 32-bit two's complement and `size_t` is 32-bit unsigned (ILP32); every conversion
  and every `size_t` subtraction is reduced explicitly.
* `std::string` is a byte sequence of at most `String_max_size` bytes.
* `m_serialized` is a pointer into an explicit heap of blocks; cells of a block returned by
  `new char[n]` are indeterminate until written; reading outside a block, through a null or
  stray pointer, or from a freed block is a fault.
* `Kernel::Fatal_Error` ends the run: the operation returns a `Fault.fatal`.
* The namespace `LP64` holds the `Deserialize` bodies of `KeypadMessage_wPassword`,
  `KeypadMessage_wCommand` and `RFIDMessage` once more for a target whose `size_t` is 64 bits
  wide and whose `int` is 32 bits wide, with `std::string::max_size()` as a parameter.
-/

namespace DataMailboxLib

/-! ## Machine values -/

/-- One `char` of storage. -/
abbrev Byte := Fin 256

/-- Values of `size_t` (32-bit unsigned). -/
abbrev size_t := Fin 4294967296

/-- Reduction of a natural number into `size_t` (unsigned arithmetic wraps). -/
def size_t.wrap (n : Nat) : size_t := ⟨n % 4294967296, Nat.mod_lt _ (by decide)⟩

/-- Sum of two `size_t` values. -/
def size_t.add (a b : size_t) : size_t := size_t.wrap (a.val + b.val)

/-- Difference of two `size_t` values: a smaller minuend wraps around. -/
def size_t.sub (a b : size_t) : size_t :=
  if b.val ≤ a.val then size_t.wrap (a.val - b.val)
  else size_t.wrap (4294967296 - (b.val - a.val))

/-- Conversion of an unsigned value to `int` (32-bit two's complement). -/
def toInt (n : Nat) : Int :=
  if n % 4294967296 < 2147483648 then ((n % 4294967296 : Nat) : Int)
  else ((n % 4294967296 : Nat) : Int) - 4294967296

/-- Conversion of an `int` to `size_t`. -/
def ofInt (i : Int) : size_t := ⟨(i % 4294967296).toNat, by omega⟩

/-- Reading of a `char` as `int`: `(int)c` for a signed 8-bit `char`. -/
def charToInt (b : Byte) : Int := if b.val < 128 then (b.val : Int) else (b.val : Int) - 256

/-- Largest length of a `std::string` in the 32-bit embedding: a bound chosen for the embedding
(no object of the 32-bit target is longer), not a constant of the code; the decoders in `LP64`
take `std::string::max_size()` as a parameter instead. -/
abbrev String_max_size : Nat := 2147483647

/-- A `std::string`: its bytes, no more than `String_max_size` of them. -/
structure CppString where
  bytes : List Byte
  bounded : bytes.length ≤ String_max_size
deriving DecidableEq

/-- The `length()` of a `std::string`. -/
def CppString.length (s : CppString) : Nat := s.bytes.length

/-- The array `c_str()` points to: the bytes followed by a terminating zero. -/
def CppString.c_str (s : CppString) : List Byte := s.bytes ++ [0]

/-- The empty string `""`. -/
def CppString.empty : CppString := ⟨[], by decide⟩

/-- A string literal of 8-bit characters as a `std::string`. -/
def CppString.lit (s : String) (h : (s.data.map fun c => (⟨c.toNat % 256, Nat.mod_lt _ (by decide)⟩ : Byte)).length
    ≤ String_max_size) : CppString :=
  ⟨s.data.map fun c => ⟨c.toNat % 256, Nat.mod_lt _ (by decide)⟩, h⟩

/-! ## Faults and the heap -/

/-- Ways an operation ends without returning. -/
inductive Fault
  | fatal (msg : String)
  | nullDereference
  | strayPointer
  | useAfterFree
  | outOfBounds
  | indeterminateValue
  | lengthError
  | invalidFree
  | outOfRange
deriving DecidableEq, Repr

instance instDecidableEqExcept {ε α : Type} [DecidableEq ε] [DecidableEq α] :
    DecidableEq (Except ε α) := fun a b =>
  match a, b with
  | .ok x, .ok y => if h : x = y then isTrue (by rw [h]) else isFalse (fun e => h (by cases e; rfl))
  | .error x, .error y =>
    if h : x = y then isTrue (by rw [h]) else isFalse (fun e => h (by cases e; rfl))
  | .ok _, .error _ => isFalse (fun e => by cases e)
  | .error _, .ok _ => isFalse (fun e => by cases e)

/-- Modelled from the spec: `Kernel::Fatal_Error` (declared in `Kernel.hpp`, not part of the
sources) is fatal and process-terminating, so the calling operation never continues. -/
def Fatal_Error {α : Type} (msg : String) : Except Fault α := .error (Fault.fatal msg)

/-- A value of type `char*`. `clobbered b` is what a pointer variable holds after the first byte
of the variable itself (not of the block it pointed to) was overwritten with `b`: a bit pattern
that is not known to be the address of any block. -/
inductive Ptr
  | null
  | block (id : Nat)
  | clobbered (b : Byte)
deriving DecidableEq, Repr

/-- The test `p == nullptr`. -/
def Ptr.isNull : Ptr → Bool
  | .null => true
  | _ => false

/-- One `new char[n]` allocation: its cells (`none` while indeterminate) and whether it has not
been `delete[]`d yet. -/
structure Block where
  cells : List (Option Byte)
  live : Bool
deriving DecidableEq, Repr

/-- The free store: blocks in order of allocation, addressed by position. -/
abbrev Heap := List Block

/-- The effect of `new char[n]`: a fresh block of `n` indeterminate cells. -/
def Heap.new (h : Heap) (n : Nat) : Ptr × Heap :=
  (Ptr.block h.length, h ++ [⟨List.replicate n none, true⟩])

/-- The effect of `new char[1]{c}`: a fresh one-cell block holding `c`. -/
def Heap.new1 (h : Heap) (c : Byte) : Ptr × Heap :=
  (Ptr.block h.length, h ++ [⟨[some c], true⟩])

/-- The live block a pointer designates. -/
def Heap.deref (h : Heap) (p : Ptr) : Except Fault (Nat × Block) :=
  match p with
  | .null => .error .nullDereference
  | .clobbered _ => .error .strayPointer
  | .block id =>
    match h[id]? with
    | none => .error .strayPointer
    | some b => if b.live then .ok (id, b) else .error .useAfterFree

/-- The effect of `delete[] p` for a non-null `p`. -/
def Heap.delete (h : Heap) (p : Ptr) : Except Fault Heap :=
  match p with
  | .block id =>
    match h[id]? with
    | some b => if b.live then .ok (h.set id ⟨b.cells, false⟩) else .error .invalidFree
    | none => .error .invalidFree
  | _ => .error .invalidFree

/-- All cells of a run, when every one of them has been written. -/
def allWritten : List (Option Byte) → Option (List Byte)
  | [] => some []
  | none :: _ => none
  | some b :: rest =>
    match allWritten rest with
    | some bs => some (b :: bs)
    | none => none

/-- Reads `n` bytes at `p + off`: the source side of `memcpy` and of `std::string(p + off, n)`. -/
def Heap.load (h : Heap) (p : Ptr) (off : Int) (n : Nat) : Except Fault (List Byte) :=
  match h.deref p with
  | .error e => .error e
  | .ok (_, b) =>
    if off < 0 ∨ b.cells.length < off.toNat + n then .error .outOfBounds
    else
      match allWritten ((b.cells.drop off.toNat).take n) with
      | some bs => .ok bs
      | none => .error .indeterminateValue

/-- The call `memcpy(dst + off, src, n)` where `src` is the whole source object. -/
def memcpy (h : Heap) (dst : Ptr) (off : Int) (src : List Byte) (n : Nat) : Except Fault Heap :=
  match h.deref dst with
  | .error e => .error e
  | .ok (id, b) =>
    if off < 0 ∨ src.length < n ∨ b.cells.length < off.toNat + n then .error .outOfBounds
    else
      let written := b.cells.take off.toNat ++ (src.take n).map some ++ b.cells.drop (off.toNat + n)
      .ok (h.set id ⟨written, b.live⟩)

/-- The call `memcpy(&p, src, n)` whose destination is a pointer variable `p` itself: one byte
of `src` replaces the first byte of the variable; more than `src` holds cannot be read. -/
def memcpy_into_pointer (p : Ptr) (src : List Byte) (n : Nat) : Except Fault Ptr :=
  if src.length < n ∨ 4 < n then .error .outOfBounds
  else
    match src.take n with
    | [] => .ok p
    | [b] => .ok (Ptr.clobbered b)
    | _ => .error .outOfBounds

/-- The constructor `std::string(p + off, n)`. -/
def string_from (h : Heap) (p : Ptr) (off : Int) (n : Nat) : Except Fault CppString :=
  if n > String_max_size then .error .lengthError
  else
    match h.load p off n with
    | .error e => .error e
    | .ok bs => if hb : bs.length ≤ String_max_size then .ok ⟨bs, hb⟩ else .error .lengthError

/-- The call `memcpy(&x, p + off, 1)` for a one-byte object `x`. -/
def Heap.loadByte (h : Heap) (p : Ptr) (off : Int) : Except Fault Byte :=
  match h.load p off 1 with
  | .error e => .error e
  | .ok (b :: _) => .ok b
  | .ok [] => .error .outOfBounds

/-! ## Wire tags and the base message -/

/-- The `enum class MessageDataType : char`: a tag is the `char` that stores it. -/
abbrev MessageDataType := Byte

def MessageDataType.NONE : MessageDataType := 0
def MessageDataType.EmptyQueue : MessageDataType := 1
def MessageDataType.TimedOut : MessageDataType := 2
def MessageDataType.KeypadMessage_wPassword : MessageDataType := 3
def MessageDataType.KeypadMessage_wCommand : MessageDataType := 4
def MessageDataType.RFIDMessage : MessageDataType := 5
def MessageDataType.StringMessage : MessageDataType := 6
def MessageDataType.WatchdogMessage : MessageDataType := 7
def MessageDataType.COUNT : MessageDataType := 8

/-- The value of `sizeof(MessageDataType)`. -/
abbrev sizeof_MessageDataType : size_t := 1

/-- Modelled from the spec: `MailboxReference` (declared in `SimplifiedMailbox.hpp`, not part of
the sources) is a peer identity, a name that may be empty. -/
structure MailboxReference where
  m_name : String
deriving DecidableEq, Repr

/-- Modelled from the spec: the default-constructed `MailboxReference{}` carries the empty name. -/
def MailboxReference.unspecified : MailboxReference := ⟨""⟩

/-- The data members of `class DataMailboxMessage`. -/
structure DataMailboxMessage where
  m_dataType : MessageDataType
  m_serialized : Ptr
  m_sizeOfSerializedData : size_t
  m_source : MailboxReference
deriving DecidableEq

namespace DataMailboxMessage

/-- The constructor `DataMailboxMessage(MessageDataType dataType)`. -/
def ofType (dataType : MessageDataType) : DataMailboxMessage :=
  ⟨dataType, Ptr.null, 0, MailboxReference.unspecified⟩

/-- The constructor `DataMailboxMessage()`. -/
def create : DataMailboxMessage :=
  ⟨MessageDataType.NONE, Ptr.null, 0, MailboxReference.unspecified⟩

def getDataType (m : DataMailboxMessage) : MessageDataType := m.m_dataType

def getSource (m : DataMailboxMessage) : MailboxReference := m.m_source

def setSerializedData (m : DataMailboxMessage) (rawData : Ptr) (dataSize : size_t) :
    DataMailboxMessage :=
  { m with m_serialized := rawData, m_sizeOfSerializedData := dataSize }

/-- The body of `decodeMessageDataType`; the diagnostic dump written before the fatal error leaves
the message and the heap as they are. -/
def decodeMessageDataType (m : DataMailboxMessage) (h : Heap) : Except Fault DataMailboxMessage :=
  if m.m_serialized.isNull then
    Fatal_Error "Cannot decode message datatype from null pointer!"
  else
    match h.loadByte m.m_serialized 0 with
    | .error e => .error e
    | .ok b =>
      if charToInt b < 0 ∨ charToInt b ≥ charToInt MessageDataType.COUNT then
        Fatal_Error ("Message has invalid datatype: " ++ toString (charToInt b))
      else .ok { m with m_dataType := b }

def checkSerializedData (m : DataMailboxMessage) : Except Fault Unit :=
  if m.m_serialized.isNull then Fatal_Error "Cannot deserialize data from nullptr!"
  else .ok ()

def deleteSerializedData (m : DataMailboxMessage) (h : Heap) :
    Except Fault (DataMailboxMessage × Heap) :=
  if !m.m_serialized.isNull then
    match h.delete m.m_serialized with
    | .error e => .error e
    | .ok h1 => .ok ({ m with m_serialized := Ptr.null, m_sizeOfSerializedData := 0 }, h1)
  else .ok ({ m with m_sizeOfSerializedData := 0 }, h)

def deleteAndReallocateSerializedData (m : DataMailboxMessage) (size : size_t) (h : Heap) :
    Except Fault (DataMailboxMessage × Heap) :=
  match m.deleteSerializedData h with
  | .error e => .error e
  | .ok (m1, h1) =>
    let m2 := { m1 with m_sizeOfSerializedData := size }
    let (p, h2) := h1.new m2.m_sizeOfSerializedData.val
    .ok ({ m2 with m_serialized := p }, h2)

/-- The frame a message holds: the `m_sizeOfSerializedData` bytes at `m_serialized`. -/
def frame (m : DataMailboxMessage) (h : Heap) : Except Fault (List Byte) :=
  h.load m.m_serialized 0 m.m_sizeOfSerializedData.val

end DataMailboxMessage

/-! ## The envelope -/

/-- The class `BasicDataMailboxMessage`: a frame as received, not yet decoded. -/
structure BasicDataMailboxMessage extends DataMailboxMessage
deriving DecidableEq

namespace BasicDataMailboxMessage

def setSource (m : BasicDataMailboxMessage) (source : MailboxReference) :
    BasicDataMailboxMessage :=
  { m with m_source := source }

/-- The constructor `BasicDataMailboxMessage()`. -/
def create : BasicDataMailboxMessage :=
  setSource ⟨DataMailboxMessage.create⟩ MailboxReference.unspecified

/-- The constructor `BasicDataMailboxMessage(MessageDataType, const MailboxReference&)`. -/
def createWith (dataType : MessageDataType) (source : MailboxReference) :
    BasicDataMailboxMessage :=
  setSource ⟨DataMailboxMessage.ofType dataType⟩ source

/-- The body of `Serialize`: the `memcpy` names `&m_serialized`, so its `m_sizeOfSerializedData`
(one) bytes land in the pointer variable and the freshly allocated block stays unwritten. -/
def Serialize (m : BasicDataMailboxMessage) (h : Heap) :
    Except Fault (BasicDataMailboxMessage × Heap) :=
  match m.toDataMailboxMessage.deleteAndReallocateSerializedData sizeof_MessageDataType h with
  | .error e => .error e
  | .ok (b, h1) =>
    match memcpy_into_pointer b.m_serialized [b.m_dataType] b.m_sizeOfSerializedData.val with
    | .error e => .error e
    | .ok p => .ok (⟨{ b with m_serialized := p }⟩, h1)

def Deserialize (m : BasicDataMailboxMessage) (h : Heap) : Except Fault BasicDataMailboxMessage :=
  match m.toDataMailboxMessage.checkSerializedData with
  | .error e => .error e
  | .ok _ =>
    match m.toDataMailboxMessage.decodeMessageDataType h with
    | .error e => .error e
    | .ok b => .ok ⟨b⟩

def getRawDataPointer (m : BasicDataMailboxMessage) : Ptr := m.m_serialized

/-- The accessor `getRawDataSize`, whose result type is `int`. -/
def getRawDataSize (m : BasicDataMailboxMessage) : Int := toInt m.m_sizeOfSerializedData.val

def releaseRawDataOwnership (m : BasicDataMailboxMessage) : BasicDataMailboxMessage :=
  { m with m_serialized := Ptr.null, m_sizeOfSerializedData := 0 }

end BasicDataMailboxMessage

/-! ## Keypad messages -/

/-- The class `KeypadMessage_wPassword`. -/
structure KeypadMessage_wPassword extends DataMailboxMessage where
  m_password : CppString
deriving DecidableEq

namespace KeypadMessage_wPassword

/-- The constructor `KeypadMessage_wPassword()`. -/
def create : KeypadMessage_wPassword :=
  ⟨DataMailboxMessage.ofType MessageDataType.KeypadMessage_wPassword, CppString.empty⟩

/-- The constructor `KeypadMessage_wPassword(const std::string&)`. -/
def createWith (password : CppString) : KeypadMessage_wPassword :=
  ⟨DataMailboxMessage.ofType MessageDataType.KeypadMessage_wPassword, password⟩

def getPassword (m : KeypadMessage_wPassword) : CppString := m.m_password

def Serialize (m : KeypadMessage_wPassword) (h : Heap) :
    Except Fault (KeypadMessage_wPassword × Heap) := do
  let passwordLength : size_t := size_t.wrap m.m_password.length
  let passwordOffset : size_t := sizeof_MessageDataType
  let sizeOfSerializedData : size_t := size_t.add sizeof_MessageDataType passwordLength
  let (b, h1) ← m.toDataMailboxMessage.deleteAndReallocateSerializedData sizeOfSerializedData h
  let h2 ← memcpy h1 b.m_serialized 0 [b.m_dataType] sizeof_MessageDataType.val
  let h3 ← memcpy h2 b.m_serialized passwordOffset.val m.m_password.c_str passwordLength.val
  pure ({ m with toDataMailboxMessage := b }, h3)

def Deserialize (m : KeypadMessage_wPassword) (h : Heap) : Except Fault KeypadMessage_wPassword := do
  m.toDataMailboxMessage.checkSerializedData
  let passwordOffset : size_t := sizeof_MessageDataType
  let passwordLength : size_t := size_t.sub m.m_sizeOfSerializedData passwordOffset
  let dataType ← h.loadByte m.m_serialized 0
  let password ← string_from h m.m_serialized passwordOffset.val passwordLength.val
  pure { m with m_dataType := dataType, m_password := password }

end KeypadMessage_wPassword

/-- The `enum KeypadCommand : char` of `KeypadMessage_wCommand`. -/
abbrev KeypadCommand := Byte

def KeypadCommand.NONE : KeypadCommand := 0
def KeypadCommand.ADD_USER : KeypadCommand := 1
def KeypadCommand.REMOVE_USER : KeypadCommand := 2

/-- The value of `sizeof(KeypadCommand)`. -/
abbrev sizeof_KeypadCommand : size_t := 1

/-- The class `KeypadMessage_wCommand`. -/
structure KeypadMessage_wCommand extends DataMailboxMessage where
  m_command : KeypadCommand
  m_parameters : CppString
deriving DecidableEq

namespace KeypadMessage_wCommand

/-- The constructor `KeypadMessage_wCommand()`. -/
def create : KeypadMessage_wCommand :=
  ⟨DataMailboxMessage.ofType MessageDataType.KeypadMessage_wCommand, KeypadCommand.NONE,
    CppString.empty⟩

/-- The constructor `KeypadMessage_wCommand(KeypadCommand, const std::string&)`. -/
def createWith (commandId : KeypadCommand) (parameters : CppString) : KeypadMessage_wCommand :=
  ⟨DataMailboxMessage.ofType MessageDataType.KeypadMessage_wCommand, commandId, parameters⟩

def getCommandId (m : KeypadMessage_wCommand) : KeypadCommand := m.m_command

def getParameters (m : KeypadMessage_wCommand) : CppString := m.m_parameters

def Serialize (m : KeypadMessage_wCommand) (h : Heap) :
    Except Fault (KeypadMessage_wCommand × Heap) := do
  let sizeOfSerializedData : size_t :=
    size_t.add (size_t.add sizeof_MessageDataType sizeof_KeypadCommand)
      (size_t.wrap m.m_parameters.length)
  let commandIdOffset : Int := toInt sizeof_MessageDataType.val
  let parametersOffset : Int := toInt (size_t.add sizeof_KeypadCommand (ofInt commandIdOffset)).val
  let parametersLength : Int := toInt m.m_parameters.length
  let (b, h1) ← m.toDataMailboxMessage.deleteAndReallocateSerializedData sizeOfSerializedData h
  let h2 ← memcpy h1 b.m_serialized 0 [b.m_dataType] sizeof_MessageDataType.val
  let h3 ← memcpy h2 b.m_serialized commandIdOffset [m.m_command] sizeof_KeypadCommand.val
  let h4 ← memcpy h3 b.m_serialized parametersOffset m.m_parameters.c_str (ofInt parametersLength).val
  pure ({ m with toDataMailboxMessage := b }, h4)

def Deserialize (m : KeypadMessage_wCommand) (h : Heap) : Except Fault KeypadMessage_wCommand := do
  m.toDataMailboxMessage.checkSerializedData
  let commandIdOffset : Int := toInt sizeof_MessageDataType.val
  let parametersOffset : Int := toInt (size_t.add sizeof_KeypadCommand (ofInt commandIdOffset)).val
  let parametersLength : Int :=
    toInt (size_t.sub m.m_sizeOfSerializedData (ofInt parametersOffset)).val
  let command ← h.loadByte m.m_serialized commandIdOffset
  let parameters ← string_from h m.m_serialized parametersOffset (ofInt parametersLength).val
  pure { m with m_command := command, m_parameters := parameters }

end KeypadMessage_wCommand

/-! ## RFID and string messages -/

/-- The class `RFIDMessage`. -/
structure RFIDMessage extends DataMailboxMessage where
  m_uuid : CppString
deriving DecidableEq

namespace RFIDMessage

/-- The constructor `RFIDMessage()`. -/
def create : RFIDMessage := ⟨DataMailboxMessage.ofType MessageDataType.RFIDMessage, CppString.empty⟩

/-- The constructor `RFIDMessage(const std::string&)`. -/
def createWith (uuid : CppString) : RFIDMessage :=
  ⟨DataMailboxMessage.ofType MessageDataType.RFIDMessage, uuid⟩

def getUUID (m : RFIDMessage) : CppString := m.m_uuid

def Serialize (m : RFIDMessage) (h : Heap) : Except Fault (RFIDMessage × Heap) := do
  let sizeOfSerializedData : size_t := size_t.add (size_t.wrap m.m_uuid.length) sizeof_MessageDataType
  let uuidLength : Int := toInt m.m_uuid.length
  let uuidOffset : Int := toInt sizeof_MessageDataType.val
  let (b, h1) ← m.toDataMailboxMessage.deleteAndReallocateSerializedData sizeOfSerializedData h
  let h2 ← memcpy h1 b.m_serialized 0 [b.m_dataType] sizeof_MessageDataType.val
  let h3 ← memcpy h2 b.m_serialized uuidOffset m.m_uuid.c_str (ofInt uuidLength).val
  pure ({ m with toDataMailboxMessage := b }, h3)

def Deserialize (m : RFIDMessage) (h : Heap) : Except Fault RFIDMessage := do
  m.toDataMailboxMessage.checkSerializedData
  let uuidOffset : Int := toInt sizeof_MessageDataType.val
  let uuidLength : Int := toInt (size_t.sub m.m_sizeOfSerializedData (ofInt uuidOffset)).val
  let uuid ← string_from h m.m_serialized uuidOffset (ofInt uuidLength).val
  pure { m with m_uuid := uuid }

end RFIDMessage

/-- The class `StringMessage`. -/
structure StringMessage extends DataMailboxMessage where
  m_message : CppString
deriving DecidableEq

namespace StringMessage

/-- The constructor `StringMessage()`. -/
def create : StringMessage :=
  ⟨DataMailboxMessage.ofType MessageDataType.StringMessage, CppString.empty⟩

/-- The constructor `StringMessage(const std::string&)`. -/
def createWith (message : CppString) : StringMessage :=
  ⟨DataMailboxMessage.ofType MessageDataType.StringMessage, message⟩

def getMessage (m : StringMessage) : CppString := m.m_message

def Serialize (m : StringMessage) (h : Heap) : Except Fault (StringMessage × Heap) := do
  let sizeOfSerializedData : size_t :=
    size_t.add sizeof_MessageDataType (size_t.wrap m.m_message.length)
  let messageLength : Int := toInt m.m_message.length
  let messageOffset : Int := toInt sizeof_MessageDataType.val
  let (b, h1) ← m.toDataMailboxMessage.deleteAndReallocateSerializedData sizeOfSerializedData h
  let h2 ← memcpy h1 b.m_serialized 0 [b.m_dataType] sizeof_MessageDataType.val
  let h3 ← memcpy h2 b.m_serialized messageOffset m.m_message.c_str (ofInt messageLength).val
  pure ({ m with toDataMailboxMessage := b }, h3)

/-- The body of `Deserialize`: the string is built from `m_serialized` itself, over all
`m_sizeOfSerializedData` bytes. -/
def Deserialize (m : StringMessage) (h : Heap) : Except Fault StringMessage := do
  m.toDataMailboxMessage.checkSerializedData
  let message ← string_from h m.m_serialized 0 m.m_sizeOfSerializedData.val
  pure { m with m_message := message }

end StringMessage

/-! ## Watchdog messages -/

/-- Values of `unsigned int` (32 bits). -/
abbrev unsigned_int := Fin 4294967296

/-- The four bytes of an `unsigned int` in memory, lowest-order byte first. -/
def unsigned_int.bytes (v : unsigned_int) : List Byte :=
  [⟨v.val % 256, Nat.mod_lt _ (by decide)⟩, ⟨v.val / 256 % 256, Nat.mod_lt _ (by decide)⟩,
   ⟨v.val / 65536 % 256, Nat.mod_lt _ (by decide)⟩, ⟨v.val / 16777216 % 256, Nat.mod_lt _ (by decide)⟩]

/-- The `unsigned int` whose memory holds the given four bytes. -/
def unsigned_int.ofBytes (bs : List Byte) : unsigned_int :=
  ⟨((bs.getD 0 0).val + 256 * (bs.getD 1 0).val + 65536 * (bs.getD 2 0).val
      + 16777216 * (bs.getD 3 0).val) % 4294967296, Nat.mod_lt _ (by decide)⟩

/-- Modelled from the spec: `SlotSettings` (declared in `WatchdogSettings.hpp`, not part of the
sources) is a fixed-size struct of a base time-to-live and a timeout in milliseconds; the two
members `m_BaseTTL` and `m_timeout_ms` are taken to be `unsigned int`. -/
structure SlotSettings where
  m_BaseTTL : unsigned_int
  m_timeout_ms : unsigned_int
deriving DecidableEq

/-- The value-initialised `SlotSettings()`. -/
def SlotSettings.zero : SlotSettings := ⟨0, 0⟩

/-- The bytes of a `SlotSettings` object in memory. -/
def SlotSettings.bytes (s : SlotSettings) : List Byte := s.m_BaseTTL.bytes ++ s.m_timeout_ms.bytes

/-- The `SlotSettings` object whose memory holds the given eight bytes. -/
def SlotSettings.ofBytes (bs : List Byte) : SlotSettings :=
  ⟨unsigned_int.ofBytes (bs.take 4), unsigned_int.ofBytes (bs.drop 4)⟩

/-- The value of `sizeof(SlotSettings)`. -/
abbrev sizeof_SlotSettings : size_t := 8

/-- The value of `sizeof(unsigned int)`. -/
abbrev sizeof_unsigned_int : size_t := 4

/-- Modelled from the spec: `enuActionOnFailure` (declared in `WatchdogSettings.hpp`, not part of
the sources) is a 1-byte enum of `RESET_ONLY` and `KILL_ALL`, in the order `getInfo` names them. -/
abbrev enuActionOnFailure := Byte

def enuActionOnFailure.RESET_ONLY : enuActionOnFailure := 0
def enuActionOnFailure.KILL_ALL : enuActionOnFailure := 1

/-- The value of `sizeof(enuActionOnFailure)`. -/
abbrev sizeof_enuActionOnFailure : size_t := 1

/-- The `enum MessageClass : char` of `WatchdogMessage`. -/
abbrev MessageClass := Byte

def MessageClass.REGISTER_REQUEST : MessageClass := 0
def MessageClass.REGISTER_REPLY : MessageClass := 1
def MessageClass.UNREGISTER_REQUEST : MessageClass := 2
def MessageClass.UNREGISTER_REPLY : MessageClass := 3
def MessageClass.UPDATE_SETTINGS : MessageClass := 4
def MessageClass.KICK : MessageClass := 5
def MessageClass.START : MessageClass := 6
def MessageClass.STOP : MessageClass := 7
def MessageClass.SYNC_REQUEST : MessageClass := 8
def MessageClass.SYNC_BROADCAST : MessageClass := 9
def MessageClass.TERMINATE_REQUEST : MessageClass := 10
def MessageClass.TERMINATE_BROADCAST : MessageClass := 11
def MessageClass.ANY : MessageClass := 12
def MessageClass.NONE : MessageClass := 13

/-- The value of `sizeof(MessageClass)`. -/
abbrev sizeof_MessageClass : size_t := 1

/-- The class `WatchdogMessage`. -/
structure WatchdogMessage extends DataMailboxMessage where
  m_onFailure : enuActionOnFailure
  m_name : CppString
  m_messageClass : MessageClass
  m_settings : SlotSettings
  m_PID : unsigned_int
deriving DecidableEq

namespace WatchdogMessage

/-- The constructor `WatchdogMessage()`. -/
def create : WatchdogMessage :=
  { toDataMailboxMessage := DataMailboxMessage.ofType MessageDataType.WatchdogMessage,
    m_name := CppString.empty, m_messageClass := MessageClass.NONE, m_settings := SlotSettings.zero,
    m_PID := 0, m_onFailure := enuActionOnFailure.RESET_ONLY }

/-- The constructor `WatchdogMessage(name, settings, PID, onFailure, type)`. -/
def createFull (name : CppString) (settings : SlotSettings) (PID : unsigned_int)
    (onFailure : enuActionOnFailure) (type : MessageClass) : WatchdogMessage :=
  { toDataMailboxMessage := DataMailboxMessage.ofType MessageDataType.WatchdogMessage,
    m_name := name, m_settings := settings, m_messageClass := type, m_PID := PID,
    m_onFailure := onFailure }

/-- The constructor `WatchdogMessage(name, type)`. -/
def createNamed (name : CppString) (type : MessageClass) : WatchdogMessage :=
  { toDataMailboxMessage := DataMailboxMessage.ofType MessageDataType.WatchdogMessage,
    m_name := name, m_messageClass := type, m_settings := SlotSettings.zero, m_PID := 0,
    m_onFailure := enuActionOnFailure.RESET_ONLY }

/-- The constructor `WatchdogMessage(MessageClass type)`, whose initialiser list names
`MessageClass::NONE` for `m_messageClass`. -/
def createOfClass (_type : MessageClass) : WatchdogMessage :=
  { toDataMailboxMessage := DataMailboxMessage.ofType MessageDataType.WatchdogMessage,
    m_name := CppString.empty, m_messageClass := MessageClass.NONE,
    m_settings := SlotSettings.zero, m_PID := 0, m_onFailure := enuActionOnFailure.RESET_ONLY }

def getName (m : WatchdogMessage) : CppString := m.m_name

def getMessageClass (m : WatchdogMessage) : MessageClass := m.m_messageClass

def getSettings (m : WatchdogMessage) : SlotSettings := m.m_settings

/-- The accessor `getPID`, whose result type is `int`. -/
def getPID (m : WatchdogMessage) : Int := toInt m.m_PID.val

def getActionOnFailure (m : WatchdogMessage) : enuActionOnFailure := m.m_onFailure

def Serialize (m : WatchdogMessage) (h : Heap) : Except Fault (WatchdogMessage × Heap) := do
  let messageClassOffset : size_t := sizeof_MessageDataType
  let settingsOffset : size_t := size_t.add messageClassOffset sizeof_MessageClass
  let PID_Offset : size_t := size_t.add settingsOffset sizeof_SlotSettings
  let actionOnFailureOffset : size_t := size_t.add PID_Offset sizeof_unsigned_int
  let nameOffset : size_t := size_t.add actionOnFailureOffset sizeof_enuActionOnFailure
  let sizeOfSerializedData : size_t := size_t.add nameOffset (size_t.wrap m.m_name.length)
  let (b, h1) ← m.toDataMailboxMessage.deleteAndReallocateSerializedData sizeOfSerializedData h
  let h2 ← memcpy h1 b.m_serialized 0 [b.m_dataType] sizeof_MessageDataType.val
  let h3 ← memcpy h2 b.m_serialized messageClassOffset.val [m.m_messageClass] sizeof_MessageClass.val
  let h4 ← memcpy h3 b.m_serialized settingsOffset.val m.m_settings.bytes sizeof_SlotSettings.val
  let h5 ← memcpy h4 b.m_serialized PID_Offset.val m.m_PID.bytes sizeof_unsigned_int.val
  let h6 ← memcpy h5 b.m_serialized actionOnFailureOffset.val [m.m_onFailure]
    sizeof_enuActionOnFailure.val
  let h7 ← memcpy h6 b.m_serialized nameOffset.val m.m_name.c_str (size_t.wrap m.m_name.length).val
  pure ({ m with toDataMailboxMessage := b }, h7)

def Deserialize (m : WatchdogMessage) (h : Heap) : Except Fault WatchdogMessage := do
  m.toDataMailboxMessage.checkSerializedData
  let messageClassOffset : size_t := sizeof_MessageDataType
  let settingsOffset : size_t := size_t.add messageClassOffset sizeof_MessageClass
  let PID_Offset : size_t := size_t.add settingsOffset sizeof_SlotSettings
  let actionOnFailureOffset : size_t := size_t.add PID_Offset sizeof_unsigned_int
  let nameOffset : size_t := size_t.add actionOnFailureOffset sizeof_enuActionOnFailure
  let dataType ← h.loadByte m.m_serialized 0
  let messageClass ← h.loadByte m.m_serialized messageClassOffset.val
  let settings ← h.load m.m_serialized settingsOffset.val sizeof_SlotSettings.val
  let PID ← h.load m.m_serialized PID_Offset.val sizeof_unsigned_int.val
  let onFailure ← h.loadByte m.m_serialized actionOnFailureOffset.val
  let name ← string_from h m.m_serialized nameOffset.val
    (size_t.sub m.m_sizeOfSerializedData nameOffset).val
  pure { m with m_dataType := dataType, m_messageClass := messageClass,
                m_settings := SlotSettings.ofBytes settings, m_PID := unsigned_int.ofBytes PID,
                m_onFailure := onFailure, m_name := name }

end WatchdogMessage

/-! ## Typed messages and `Unpack` -/

/-- An object of a concrete class derived from `ExtendedDataMailboxMessage`: the constructor is
its dynamic type. -/
inductive ExtendedDataMailboxMessage
  | keypadPassword (m : KeypadMessage_wPassword)
  | keypadCommand (m : KeypadMessage_wCommand)
  | rfid (m : RFIDMessage)
  | text (m : StringMessage)
  | watchdog (m : WatchdogMessage)
deriving DecidableEq

namespace ExtendedDataMailboxMessage

/-- The `DataMailboxMessage` subobject. -/
def base : ExtendedDataMailboxMessage → DataMailboxMessage
  | keypadPassword m => m.toDataMailboxMessage
  | keypadCommand m => m.toDataMailboxMessage
  | rfid m => m.toDataMailboxMessage
  | text m => m.toDataMailboxMessage
  | watchdog m => m.toDataMailboxMessage

/-- The same object with its `DataMailboxMessage` members replaced. -/
def withBase : ExtendedDataMailboxMessage → DataMailboxMessage → ExtendedDataMailboxMessage
  | keypadPassword m, b => keypadPassword { m with toDataMailboxMessage := b }
  | keypadCommand m, b => keypadCommand { m with toDataMailboxMessage := b }
  | rfid m, b => rfid { m with toDataMailboxMessage := b }
  | text m, b => text { m with toDataMailboxMessage := b }
  | watchdog m, b => watchdog { m with toDataMailboxMessage := b }

/-- The virtual call `Serialize()`. -/
def Serialize (t : ExtendedDataMailboxMessage) (h : Heap) :
    Except Fault (ExtendedDataMailboxMessage × Heap) :=
  match t with
  | keypadPassword m => (m.Serialize h).map fun r => (keypadPassword r.1, r.2)
  | keypadCommand m => (m.Serialize h).map fun r => (keypadCommand r.1, r.2)
  | rfid m => (m.Serialize h).map fun r => (rfid r.1, r.2)
  | text m => (m.Serialize h).map fun r => (text r.1, r.2)
  | watchdog m => (m.Serialize h).map fun r => (watchdog r.1, r.2)

/-- The virtual call `Deserialize()`. -/
def Deserialize (t : ExtendedDataMailboxMessage) (h : Heap) :
    Except Fault ExtendedDataMailboxMessage :=
  match t with
  | keypadPassword m => (m.Deserialize h).map keypadPassword
  | keypadCommand m => (m.Deserialize h).map keypadCommand
  | rfid m => (m.Deserialize h).map rfid
  | text m => (m.Deserialize h).map text
  | watchdog m => (m.Deserialize h).map watchdog

/-- The body of `Unpack(BasicDataMailboxMessage& message)`; the result carries the typed message,
the envelope as the call leaves it, and the heap. -/
def Unpack (t : ExtendedDataMailboxMessage) (message : BasicDataMailboxMessage) (h : Heap) :
    Except Fault (ExtendedDataMailboxMessage × BasicDataMailboxMessage × Heap) := do
  let t1 := t.withBase { t.base with m_sizeOfSerializedData := ofInt message.getRawDataSize }
  let t2 := t1.withBase { t1.base with m_serialized := message.getRawDataPointer }
  let message1 := message.releaseRawDataOwnership
  let t3 ← t2.Deserialize h
  let t4 := t3.withBase { t3.base with m_source := message1.getSource }
  let (b, h1) ← t4.base.deleteSerializedData h
  pure (t4.withBase b, message1, h1)

end ExtendedDataMailboxMessage

/-- A constructor call of one of the five concrete typed classes, with its arguments. -/
inductive ConstructorCall
  | KeypadMessage_wPassword0
  | KeypadMessage_wPassword1 (password : CppString)
  | KeypadMessage_wCommand0
  | KeypadMessage_wCommand2 (commandId : KeypadCommand) (parameters : CppString)
  | RFIDMessage0
  | RFIDMessage1 (uuid : CppString)
  | StringMessage0
  | StringMessage1 (message : CppString)
  | WatchdogMessage0
  | WatchdogMessage5 (name : CppString) (settings : SlotSettings) (PID : unsigned_int)
      (onFailure : enuActionOnFailure) (type : MessageClass)
  | WatchdogMessage2 (name : CppString) (type : MessageClass)
  | WatchdogMessage1 (type : MessageClass)

/-- The object a constructor call creates. -/
def ConstructorCall.object : ConstructorCall → ExtendedDataMailboxMessage
  | KeypadMessage_wPassword0 => .keypadPassword KeypadMessage_wPassword.create
  | KeypadMessage_wPassword1 password => .keypadPassword (KeypadMessage_wPassword.createWith password)
  | KeypadMessage_wCommand0 => .keypadCommand KeypadMessage_wCommand.create
  | KeypadMessage_wCommand2 commandId parameters =>
    .keypadCommand (KeypadMessage_wCommand.createWith commandId parameters)
  | RFIDMessage0 => .rfid RFIDMessage.create
  | RFIDMessage1 uuid => .rfid (RFIDMessage.createWith uuid)
  | StringMessage0 => .text StringMessage.create
  | StringMessage1 message => .text (StringMessage.createWith message)
  | WatchdogMessage0 => .watchdog WatchdogMessage.create
  | WatchdogMessage5 name settings PID onFailure type =>
    .watchdog (WatchdogMessage.createFull name settings PID onFailure type)
  | WatchdogMessage2 name type => .watchdog (WatchdogMessage.createNamed name type)
  | WatchdogMessage1 type => .watchdog (WatchdogMessage.createOfClass type)

/-! ## Names and log summaries -/

/-- The text of a string literal as the bytes of a `std::string`. -/
def asciiBytes (s : String) : List Byte :=
  s.data.map fun c => ⟨c.toNat % 256, Nat.mod_lt _ (by decide)⟩

/-- The call `a.at(pos)` on a `std::array` of strings, `pos` being an `int` converted to the
unsigned `size_type`: an index outside the array throws `std::out_of_range`. -/
def array_at (a : List String) (pos : Int) : Except Fault String :=
  match a[(ofInt pos).val]? with
  | some s => .ok s
  | none => .error .outOfRange

/-- The function `getDataTypeName`. Its array of eight strings has seven initialisers: there is
no comma between `"NONE"` and `"TimedOut"`, so the two literals are one string, and the eighth
element is the empty string. -/
def getDataTypeName (dataType : MessageDataType) : Except Fault String :=
  let names : List String :=
    ["NONE" ++ "TimedOut", "EmptyQueue", "KeypadMessage_wPassword", "KeypadMessage_wCommand",
      "RFIDMessage", "StringMessage", "WatchdogMessage", ""]
  array_at names (charToInt dataType)

/-- The static function `WatchdogMessage::getMessageClassName`. -/
def WatchdogMessage.getMessageClassName (messageClass : MessageClass) : Except Fault String :=
  let m_messageClassNames : List String :=
    ["REGISTER_REQUEST", "REGISTER_REPLY", "UNREGISTER_REQUEST", "UNREGISTER_REPLY",
      "UPDATE_SETTINGS", "KICK", "START", "STOP", "SYNC_REQUEST", "SYNC_BROADCAST",
      "TERMINATE_REQUEST", "TERMINATE_BROADCAST", "ANY", "NONE"]
  array_at m_messageClassNames (charToInt messageClass)

def BasicDataMailboxMessage.getInfo (m : BasicDataMailboxMessage) : Except Fault (List Byte) :=
  .ok (asciiBytes "BasicDataMailboxMessage - MessageDataType: "
    ++ asciiBytes (toString (charToInt m.m_dataType)) ++ asciiBytes " from: "
    ++ asciiBytes m.m_source.m_name)

def KeypadMessage_wPassword.getInfo (m : KeypadMessage_wPassword) : Except Fault (List Byte) :=
  .ok (asciiBytes "KeypadMessage_wPassword - Password: " ++ m.m_password.bytes)

def KeypadMessage_wCommand.getInfo (m : KeypadMessage_wCommand) : Except Fault (List Byte) :=
  .ok (asciiBytes "KeypadMessage_wCommand - CommandId: "
    ++ asciiBytes (toString (charToInt m.m_command)))

def RFIDMessage.getInfo (m : RFIDMessage) : Except Fault (List Byte) :=
  .ok (asciiBytes "RFIDMessage - UUID: " ++ m.m_uuid.bytes)

def StringMessage.getInfo (m : StringMessage) : Except Fault (List Byte) :=
  .ok (asciiBytes "StringMessage - message: " ++ m.m_message.bytes)

/-- The body of `WatchdogMessage::getInfo`: both name lookups go through `at`. -/
def WatchdogMessage.getInfo (m : WatchdogMessage) : Except Fault (List Byte) := do
  let onFailureActionNamesList : List String := ["RESET_ONLY", "KILL_ALL"]
  let className ← WatchdogMessage.getMessageClassName m.m_messageClass
  let onFailureName ← array_at onFailureActionNamesList (charToInt m.m_onFailure)
  pure (asciiBytes "\n"
    ++ asciiBytes "WatchdogSlotRequestMessage - from: " ++ m.m_name.bytes ++ asciiBytes "\n"
    ++ asciiBytes "\tPID:" ++ asciiBytes (toString m.m_PID.val) ++ asciiBytes "\n"
    ++ asciiBytes "\tType: " ++ asciiBytes className ++ asciiBytes "\n"
    ++ asciiBytes "\tOn faliure: " ++ asciiBytes onFailureName ++ asciiBytes "\n"
    ++ asciiBytes "\tSettings:" ++ asciiBytes "\n"
    ++ asciiBytes "\t\tBaseTTL: " ++ asciiBytes (toString m.m_settings.m_BaseTTL.val)
    ++ asciiBytes "\n"
    ++ asciiBytes "\t\tTimeout: " ++ asciiBytes (toString m.m_settings.m_timeout_ms.val)
    ++ asciiBytes " ms" ++ asciiBytes "\n")

/-- The virtual call `getInfo()` on a typed message. -/
def ExtendedDataMailboxMessage.getInfo : ExtendedDataMailboxMessage → Except Fault (List Byte)
  | .keypadPassword m => m.getInfo
  | .keypadCommand m => m.getInfo
  | .rfid m => m.getInfo
  | .text m => m.getInfo
  | .watchdog m => m.getInfo

/-- Whether the buffer of a message is absent or a block of the heap not yet freed: the state in
which a message owns what `m_serialized` points to. -/
def DataMailboxMessage.ownsBufferOrNone (m : DataMailboxMessage) (h : Heap) : Bool :=
  match m.m_serialized with
  | .null => true
  | .block id =>
    match h[id]? with
    | some b => b.live
    | none => false
  | .clobbered _ => false

/-- What a `DataMailboxMessage*` points to: an envelope or a typed message. -/
inductive AnyDataMailboxMessage
  | basic (e : BasicDataMailboxMessage)
  | extended (t : ExtendedDataMailboxMessage)
deriving DecidableEq

namespace AnyDataMailboxMessage

/-- The `DataMailboxMessage` subobject. -/
def base : AnyDataMailboxMessage → DataMailboxMessage
  | basic e => e.toDataMailboxMessage
  | extended t => t.base

/-- The same object with its `DataMailboxMessage` members replaced. -/
def withBase : AnyDataMailboxMessage → DataMailboxMessage → AnyDataMailboxMessage
  | basic _, b => basic ⟨b⟩
  | extended t, b => extended (t.withBase b)

/-- The virtual call `getInfo()`. -/
def getInfo : AnyDataMailboxMessage → Except Fault (List Byte)
  | basic e => e.getInfo
  | extended t => t.getInfo

/-- The virtual call `Serialize()`. -/
def Serialize (m : AnyDataMailboxMessage) (h : Heap) : Except Fault (AnyDataMailboxMessage × Heap) :=
  match m with
  | basic e => (e.Serialize h).map fun r => (basic r.1, r.2)
  | extended t => (t.Serialize h).map fun r => (extended r.1, r.2)

end AnyDataMailboxMessage

/-! ## The layout table of the specification -/

namespace ExtendedDataMailboxMessage

/-- The frame the layout table of the specification prescribes for a typed message: the tag
byte, the fixed-size fields in the order of the table, then the bytes of the one trailing field,
with no padding and no length in front. -/
def wireLayout : ExtendedDataMailboxMessage → List Byte
  | keypadPassword m => [m.m_dataType] ++ m.m_password.bytes
  | keypadCommand m => [m.m_dataType, m.m_command] ++ m.m_parameters.bytes
  | rfid m => [m.m_dataType] ++ m.m_uuid.bytes
  | text m => [m.m_dataType] ++ m.m_message.bytes
  | watchdog m =>
    [m.m_dataType, m.m_messageClass] ++ m.m_settings.bytes ++ m.m_PID.bytes ++ [m.m_onFailure]
      ++ m.m_name.bytes

/-- The size of the fixed header of a class: the tag byte and the fixed-size fields. -/
def headerSize : ExtendedDataMailboxMessage → Nat
  | keypadPassword _ => 1
  | keypadCommand _ => 2
  | rfid _ => 1
  | text _ => 1
  | watchdog _ => 15

/-- The one variable-length field of a class, the last of its layout. -/
def trailingField : ExtendedDataMailboxMessage → CppString
  | keypadPassword m => m.m_password
  | keypadCommand m => m.m_parameters
  | rfid m => m.m_uuid
  | text m => m.m_message
  | watchdog m => m.m_name

end ExtendedDataMailboxMessage

/-! ## The mailbox over its transport -/

/-- Modelled from the spec: `enuMessageType` (declared in `SimplifiedMailbox.hpp`, not part of
the sources) is what the transport reports with a received message; `TIMED_OUT` and `EMPTY` are
the two conditions the mailbox looks for, any other code comes with a frame. -/
inductive enuMessageType
  | TIMED_OUT
  | EMPTY
  | other (code : Nat)
deriving DecidableEq

/-- Modelled from the spec: the header of a raw transport message, its type and payload size. -/
structure MessageHeader where
  m_type : enuMessageType
  m_payloadSize : size_t
deriving DecidableEq

/-- Modelled from the spec: `SimpleMailboxMessage` (declared in `SimplifiedMailbox.hpp`, not part
of the sources), the raw byte frame the transport hands over together with the sender identity it
reports; the record does not free `m_pData` when it goes out of scope. -/
structure SimpleMailboxMessage where
  m_header : MessageHeader
  m_pData : Ptr
  m_sourceName : String
deriving DecidableEq

/-- The `struct timespec`. -/
structure timespec where
  tv_sec : Int
  tv_nsec : Int
deriving DecidableEq

/-- Modelled from the spec: `SimplifiedMailbox` (declared in `SimplifiedMailbox.hpp`, not part of
the sources), the transport, as far as the mailbox reads and writes it: its name and the request
timeout it holds. -/
structure SimplifiedMailbox where
  m_name : String
  timeout_settings : timespec
deriving DecidableEq

namespace SimplifiedMailbox

/-- Modelled from the spec: the transport reads back the request timeout it holds. -/
def getTimeout_settings (m : SimplifiedMailbox) : timespec := m.timeout_settings

/-- Modelled from the spec: the transport stores the request timeout it is given. -/
def setTimeout_settings (m : SimplifiedMailbox) (t : timespec) : SimplifiedMailbox :=
  { m with timeout_settings := t }

/-- Modelled from the spec: `setRTO_s` and `setRTO_ns` configure the request timeout from a
number of seconds or nanoseconds; `rto` is the timeout the transport derives from the one it holds
and that number. -/
def setRTO (rto : timespec → Int → timespec) (m : SimplifiedMailbox) (n : Int) :
    SimplifiedMailbox :=
  { m with timeout_settings := rto m.timeout_settings n }

end SimplifiedMailbox

/-- The class `DataMailbox`: the transport it wraps. The logger is left out: every line written
to it is text built from values the operations below also compute, and a logger that drops the
lines is a valid one. -/
structure DataMailbox where
  m_mailbox : SimplifiedMailbox
deriving DecidableEq

namespace DataMailbox

/-- The body of `send`. `transport_send destination data size heap` is what the transport does
with the call `m_mailbox.send(destination, data, size)`: it returns or it fails. -/
def send (transport_send : MailboxReference → Ptr → size_t → Heap → Except Fault Unit)
    (destination : MailboxReference) (message : AnyDataMailboxMessage) (h : Heap) :
    Except Fault (AnyDataMailboxMessage × Heap) := do
  let _info ← message.getInfo
  let (m1, h1) ← message.Serialize h
  transport_send destination m1.base.m_serialized m1.base.m_sizeOfSerializedData h1
  let (b, h2) ← m1.base.deleteSerializedData h1
  pure (m1.withBase b, h2)

/-- The body of `sendConnectionless`, over the transport's `sendConnectionless`. -/
def sendConnectionless
    (transport_sendConnectionless : MailboxReference → Ptr → size_t → Heap → Except Fault Unit)
    (destination : MailboxReference) (message : AnyDataMailboxMessage) (h : Heap) :
    Except Fault (AnyDataMailboxMessage × Heap) := do
  let _info ← message.getInfo
  let (m1, h1) ← message.Serialize h
  transport_sendConnectionless destination m1.base.m_serialized m1.base.m_sizeOfSerializedData h1
  let (b, h2) ← m1.base.deleteSerializedData h1
  pure (m1.withBase b, h2)

def getTimeout_settings (d : DataMailbox) : timespec := d.m_mailbox.getTimeout_settings

def setTimeout_settings (d : DataMailbox) (_timeout_settings : timespec) : DataMailbox :=
  { d with m_mailbox := d.m_mailbox.setTimeout_settings _timeout_settings }

/-- The body of `setRTO_s`: the timeout read before the transport's `setRTO_s` is returned. -/
def setRTO_s (rto_s : timespec → Int → timespec) (d : DataMailbox) (RTOs : Int) :
    timespec × DataMailbox :=
  let oldSettings := d.getTimeout_settings
  (oldSettings, { d with m_mailbox := d.m_mailbox.setRTO rto_s RTOs })

/-- The body of `setRTO_ns`: the timeout read before the transport's `setRTO_ns` is returned. -/
def setRTO_ns (rto_ns : timespec → Int → timespec) (d : DataMailbox) (RTOns : Int) :
    timespec × DataMailbox :=
  let oldSettings := d.getTimeout_settings
  (oldSettings, { d with m_mailbox := d.m_mailbox.setRTO rto_ns RTOns })

/-- The body of `receive`, given the raw message `m_mailbox.receive(options)` returned.
`NONBLOCKING` is the value of `enuReceiveOptions::NONBLOCKING` (declared in
`SimplifiedMailbox.hpp`, not part of the sources) and `options` the option bits passed. The
object returned is the local `receivedMessage` itself: the class declares no copy constructor and
the copy on `return` of a named local is elided, so no destructor runs on the buffer. -/
def receive (NONBLOCKING : Nat) (rawMessage : SimpleMailboxMessage) (options : Nat) (h : Heap) :
    Except Fault (BasicDataMailboxMessage × Heap) := do
  let receivedMessage := BasicDataMailboxMessage.create
  let (receivedMessage, h) :=
    if rawMessage.m_header.m_type = enuMessageType.TIMED_OUT then
      let (pData, h1) := h.new1 MessageDataType.TimedOut
      (({ receivedMessage with
          toDataMailboxMessage := receivedMessage.setSerializedData pData 1 } :
          BasicDataMailboxMessage), h1)
    else if rawMessage.m_header.m_type = enuMessageType.EMPTY
        ∧ Nat.land options NONBLOCKING ≠ 0 then
      let (pData, h1) := h.new1 MessageDataType.EmptyQueue
      (({ receivedMessage with
          toDataMailboxMessage := receivedMessage.setSerializedData pData 1 } :
          BasicDataMailboxMessage), h1)
    else
      let received : BasicDataMailboxMessage :=
        { receivedMessage with
          toDataMailboxMessage := receivedMessage.setSerializedData rawMessage.m_pData
            rawMessage.m_header.m_payloadSize }
      (received.setSource ⟨rawMessage.m_sourceName⟩, h)
  let decoded ← receivedMessage.decodeMessageDataType h
  let receivedMessage : BasicDataMailboxMessage := ⟨decoded⟩
  let _info ← receivedMessage.getInfo
  pure (receivedMessage, h)

end DataMailbox

/-! ## The decoders of the trailing field on an LP64 target -/

namespace LP64

/-- Values of `size_t` where it is 64 bits wide; `int` is 32 bits wide there as well. -/
abbrev size_t := Fin 18446744073709551616

/-- Reduction of a natural number into the 64-bit `size_t`. -/
def size_t.wrap (n : Nat) : size_t := ⟨n % 18446744073709551616, Nat.mod_lt _ (by decide)⟩

/-- Sum of two `size_t` values. -/
def size_t.add (a b : size_t) : size_t := size_t.wrap (a.val + b.val)

/-- Difference of two `size_t` values: a smaller minuend wraps around. -/
def size_t.sub (a b : size_t) : size_t :=
  if b.val ≤ a.val then size_t.wrap (a.val - b.val)
  else size_t.wrap (18446744073709551616 - (b.val - a.val))

/-- Conversion of an `int` to the 64-bit `size_t`: a negative value is sign-extended. The
conversion of a `size_t` to `int` is `toInt`, which keeps the low 32 bits. -/
def ofInt (i : Int) : size_t := ⟨(i % 18446744073709551616).toNat, by omega⟩

/-- The value of `sizeof(MessageDataType)`. -/
abbrev sizeof_MessageDataType : size_t := 1

/-- The value of `sizeof(KeypadCommand)`. -/
abbrev sizeof_KeypadCommand : size_t := 1

/-- The constructor `std::string(p + off, n)`; `max_size` is the value of
`std::string::max_size()` of the library in use. The string is the list of its bytes. -/
def string_from (max_size : Nat) (h : Heap) (p : Ptr) (off : Int) (n : Nat) :
    Except Fault (List Byte) :=
  if n > max_size then .error .lengthError
  else h.load p off n

/-- The data members of `class DataMailboxMessage`, the size being a 64-bit `size_t`. -/
structure DataMailboxMessage where
  m_dataType : MessageDataType
  m_serialized : Ptr
  m_sizeOfSerializedData : size_t
  m_source : MailboxReference
deriving DecidableEq

def DataMailboxMessage.checkSerializedData (m : DataMailboxMessage) : Except Fault Unit :=
  if m.m_serialized.isNull then Fatal_Error "Cannot deserialize data from nullptr!"
  else .ok ()

/-- The frame a message holds: the `m_sizeOfSerializedData` bytes at `m_serialized`. -/
def DataMailboxMessage.frame (m : DataMailboxMessage) (h : Heap) : Except Fault (List Byte) :=
  h.load m.m_serialized 0 m.m_sizeOfSerializedData.val

/-- The class `KeypadMessage_wPassword`. -/
structure KeypadMessage_wPassword extends DataMailboxMessage where
  m_password : List Byte
deriving DecidableEq

/-- The body of `KeypadMessage_wPassword::Deserialize`: offset and length are `size_t`. -/
def KeypadMessage_wPassword.Deserialize (m : KeypadMessage_wPassword) (max_size : Nat)
    (h : Heap) : Except Fault KeypadMessage_wPassword := do
  m.toDataMailboxMessage.checkSerializedData
  let passwordOffset : size_t := sizeof_MessageDataType
  let passwordLength : size_t := size_t.sub m.m_sizeOfSerializedData passwordOffset
  let dataType ← h.loadByte m.m_serialized 0
  let password ← string_from max_size h m.m_serialized passwordOffset.val passwordLength.val
  pure { m with m_dataType := dataType, m_password := password }

/-- The class `KeypadMessage_wCommand`. -/
structure KeypadMessage_wCommand extends DataMailboxMessage where
  m_command : KeypadCommand
  m_parameters : List Byte
deriving DecidableEq

/-- The body of `KeypadMessage_wCommand::Deserialize`: offsets and length are `int`, so the
`size_t` difference is converted to `int` and back to `size_t` for the string constructor. -/
def KeypadMessage_wCommand.Deserialize (m : KeypadMessage_wCommand) (max_size : Nat)
    (h : Heap) : Except Fault KeypadMessage_wCommand := do
  m.toDataMailboxMessage.checkSerializedData
  let commandIdOffset : Int := toInt sizeof_MessageDataType.val
  let parametersOffset : Int := toInt (size_t.add sizeof_KeypadCommand (ofInt commandIdOffset)).val
  let parametersLength : Int :=
    toInt (size_t.sub m.m_sizeOfSerializedData (ofInt parametersOffset)).val
  let command ← h.loadByte m.m_serialized commandIdOffset
  let parameters ← string_from max_size h m.m_serialized parametersOffset
    (ofInt parametersLength).val
  pure { m with m_command := command, m_parameters := parameters }

/-- The class `RFIDMessage`. -/
structure RFIDMessage extends DataMailboxMessage where
  m_uuid : List Byte
deriving DecidableEq

/-- The body of `RFIDMessage::Deserialize`: offset and length are `int`. -/
def RFIDMessage.Deserialize (m : RFIDMessage) (max_size : Nat) (h : Heap) :
    Except Fault RFIDMessage := do
  m.toDataMailboxMessage.checkSerializedData
  let uuidOffset : Int := toInt sizeof_MessageDataType.val
  let uuidLength : Int := toInt (size_t.sub m.m_sizeOfSerializedData (ofInt uuidOffset)).val
  let uuid ← string_from max_size h m.m_serialized uuidOffset (ofInt uuidLength).val
  pure { m with m_uuid := uuid }

end LP64

/-! ## Heap and arithmetic lemmas -/

theorem allWritten_map_some (l : List Byte) : allWritten (l.map some) = some l := by
  induction l with
  | nil => rfl
  | cons a t ih => simp [allWritten, ih]

theorem allWritten_eq_some {l : List (Option Byte)} {f : List Byte}
    (hl : allWritten l = some f) : l = f.map some := by
  induction l generalizing f with
  | nil => simp [allWritten] at hl; subst hl; rfl
  | cons a t ih =>
    cases a with
    | none => simp [allWritten] at hl
    | some b =>
      simp only [allWritten] at hl
      cases hr : allWritten t with
      | none => rw [hr] at hl; simp at hl
      | some bs =>
        rw [hr] at hl
        simp at hl
        subst hl
        simp [ih hr]

theorem set_concat_length (h : Heap) (b c : Block) : (h ++ [b]).set h.length c = h ++ [c] := by
  rw [List.set_append_right _ _ (Nat.le_refl _)]
  simp

theorem deref_concat_length (h : Heap) (cells : List (Option Byte)) :
    Heap.deref (h ++ [⟨cells, true⟩]) (Ptr.block h.length) = .ok (h.length, ⟨cells, true⟩) := by
  simp [Heap.deref]

theorem memcpy_frontier (h : Heap) (written src : List Byte) (k n : Nat) (off : Int)
    (hoff : off = (written.length : Int)) (hsrc : n ≤ src.length) (hk : n ≤ k) :
    memcpy (h ++ [⟨written.map some ++ List.replicate k none, true⟩]) (Ptr.block h.length) off src n
      = .ok (h ++ [⟨(written ++ src.take n).map some ++ List.replicate (k - n) none, true⟩]) := by
  subst hoff
  rw [memcpy, deref_concat_length]
  have h1 : ¬ ((written.length : Int) < 0 ∨ src.length < n ∨
      (List.map some written ++ List.replicate k (none : Option Byte)).length
        < ((written.length : Int)).toNat + n) := by
    simp only [List.length_append, List.length_map, List.length_replicate, Int.toNat_ofNat]
    omega
  dsimp only
  rw [if_neg h1]
  simp only [set_concat_length, Int.toNat_ofNat]
  have e1 : List.take written.length (List.map some written ++ List.replicate k (none : Option Byte))
      = List.map some written := List.take_left' (by simp)
  have e2 : List.drop (written.length + n) (List.map some written ++ List.replicate k (none : Option Byte))
      = List.replicate (k - n) none := by
    rw [List.drop_append_eq_append_drop]
    simp
  rw [e1, e2]
  simp

theorem wrap_val_of_lt {n : Nat} (hn : n < 4294967296) : (size_t.wrap n).val = n := by
  simp [size_t.wrap, Nat.mod_eq_of_lt hn]

theorem toInt_of_lt {n : Nat} (hn : n < 2147483648) : toInt n = (n : Int) := by
  have h1 : n % 4294967296 = n := Nat.mod_eq_of_lt (by omega)
  simp [toInt, h1, hn]

theorem ofInt_natCast_val {n : Nat} (hn : n < 4294967296) : (ofInt (n : Int)).val = n := by
  simp only [ofInt]
  omega

theorem deleteAndReallocate_null (m : DataMailboxMessage) (size : size_t) (h : Heap)
    (hm : m.m_serialized = Ptr.null) :
    m.deleteAndReallocateSerializedData size h
      = .ok ({ m with m_serialized := Ptr.block h.length, m_sizeOfSerializedData := size },
          h ++ [⟨List.replicate size.val none, true⟩]) := by
  simp [DataMailboxMessage.deleteAndReallocateSerializedData,
    DataMailboxMessage.deleteSerializedData, hm, Heap.new, Ptr.isNull]

theorem wCommand_Serialize_fresh (m : KeypadMessage_wCommand) (h : Heap)
    (hm : m.m_serialized = Ptr.null) :
    m.Serialize h = .ok
      ({ m with m_serialized := Ptr.block h.length,
                m_sizeOfSerializedData := size_t.wrap (2 + m.m_parameters.length) },
        h ++ [⟨(m.m_dataType :: m.m_command :: m.m_parameters.bytes).map some, true⟩]) := by
  have hb : m.m_parameters.bytes.length ≤ 2147483647 := m.m_parameters.bounded
  have hlen : m.m_parameters.length = m.m_parameters.bytes.length := rfl
  have s1 : (sizeof_MessageDataType : size_t).val = 1 := rfl
  have s2 : (sizeof_KeypadCommand : size_t).val = 1 := rfl
  have hsz : size_t.add (size_t.add sizeof_MessageDataType sizeof_KeypadCommand)
      (size_t.wrap m.m_parameters.length) = size_t.wrap (2 + m.m_parameters.length) := by
    apply Fin.ext
    simp only [size_t.add, size_t.wrap, s1, s2]
    omega
  have hszv : (size_t.wrap (2 + m.m_parameters.length)).val = 2 + m.m_parameters.bytes.length := by
    rw [hlen]; exact wrap_val_of_lt (by omega)
  have o1 : toInt 1 = 1 := by decide
  have o2 : toInt (size_t.add sizeof_KeypadCommand (ofInt 1)).val = 2 := by decide
  have o3 : (ofInt (toInt m.m_parameters.length)).val = m.m_parameters.bytes.length := by
    rw [hlen, toInt_of_lt (by omega), ofInt_natCast_val (by omega)]
  simp only [KeypadMessage_wCommand.Serialize, hsz, o3, bind, Except.bind,
    deleteAndReallocate_null _ _ _ hm, hszv, s1, s2, o2, o1, pure, Except.pure]
  have w1 := memcpy_frontier h [] [m.m_dataType] (2 + m.m_parameters.bytes.length) 1 0
    (by simp) (by simp) (by omega)
  simp only [List.map_nil, List.nil_append] at w1
  rw [w1]
  dsimp only
  rw [memcpy_frontier h _ _ _ _ _ ?o ?s ?k]
  dsimp only
  rw [memcpy_frontier h _ _ _ _ _ ?o2 ?s2 ?k2]
  case o => simp
  case s => simp
  case k => omega
  case o2 => simp
  case s2 => simp [CppString.c_str]
  case k2 => omega
  have e : 2 + m.m_parameters.bytes.length - 1 - 1 - m.m_parameters.bytes.length = 0 := by omega
  simp [e, CppString.c_str]

theorem load_whole {h : Heap} {p : Ptr} {sz : Nat} {f : List Byte}
    (hf : h.load p 0 sz = .ok f) :
    ∃ id b, h.deref p = .ok (id, b) ∧ sz ≤ b.cells.length ∧ b.cells.take sz = f.map some
      ∧ f.length = sz := by
  unfold Heap.load at hf
  cases hd : h.deref p with
  | error e => rw [hd] at hf; simp at hf
  | ok r =>
    obtain ⟨id, b⟩ := r
    rw [hd] at hf
    dsimp only at hf
    by_cases hc : (0 : Int) < 0 ∨ b.cells.length < (0 : Int).toNat + sz
    · rw [if_pos hc] at hf; simp at hf
    · rw [if_neg hc] at hf
      have hle : sz ≤ b.cells.length := by
        simp only [Int.toNat_zero] at hc
        omega
      cases ha : allWritten (List.take sz (List.drop (0 : Int).toNat b.cells)) with
      | none => rw [ha] at hf; simp at hf
      | some bs =>
        rw [ha] at hf
        simp only [Except.ok.injEq] at hf
        subst hf
        have hw := allWritten_eq_some ha
        simp only [Int.toNat_zero, List.drop_zero] at hw
        refine ⟨id, b, rfl, hle, hw, ?_⟩
        have hl := congrArg List.length hw
        simp only [List.length_take, List.length_map] at hl
        omega

theorem load_of_whole {h : Heap} {p : Ptr} {sz : Nat} {f : List Byte}
    (hf : h.load p 0 sz = .ok f) (off : Int) (n : Nat) (hoff : 0 ≤ off)
    (hn : off.toNat + n ≤ sz) :
    h.load p off n = .ok ((f.drop off.toNat).take n) := by
  obtain ⟨id, b, hd, hle, hw, hl⟩ := load_whole hf
  unfold Heap.load
  rw [hd]
  dsimp only
  have hc : ¬ (off < 0 ∨ b.cells.length < off.toNat + n) := by omega
  rw [if_neg hc]
  have e : List.take n (List.drop off.toNat b.cells)
      = List.map some (List.take n (List.drop off.toNat f)) := by
    rw [List.map_take, List.map_drop, ← hw, List.drop_take, List.take_take]
    congr 1
    omega
  rw [e, allWritten_map_some]

theorem loadByte_of_whole {h : Heap} {p : Ptr} {sz : Nat} {f : List Byte}
    (hf : h.load p 0 sz = .ok f) (off : Int) (hoff : 0 ≤ off) (hn : off.toNat + 1 ≤ sz) :
    ∃ b, h.loadByte p off = .ok b ∧ f[off.toNat]? = some b := by
  obtain ⟨id, blk, hd, hle, hw, hl⟩ := load_whole hf
  have hlt : off.toNat < f.length := by omega
  have hg : f[off.toNat]? = some f[off.toNat] := by simp [hlt]
  refine ⟨f[off.toNat], ?_, hg⟩
  unfold Heap.loadByte
  rw [load_of_whole hf off 1 hoff hn, List.drop_eq_getElem_cons hlt]
  rfl

theorem frame_concat_written (m : DataMailboxMessage) (h : Heap) (f : List Byte)
    (hsz : m.m_sizeOfSerializedData.val = f.length) (hp : m.m_serialized = Ptr.block h.length) :
    m.frame (h ++ [⟨f.map some, true⟩]) = .ok f := by
  unfold DataMailboxMessage.frame Heap.load
  rw [hp, deref_concat_length, hsz]
  dsimp only
  have hc : ¬ ((0 : Int) < 0 ∨ (List.map some f).length < (0 : Int).toNat + f.length) := by
    simp
  have ht : List.take f.length (List.map some f) = List.map some f :=
    List.take_of_length_le (by simp)
  rw [if_neg hc]
  simp only [Int.toNat_zero, List.drop_zero, ht, allWritten_map_some]

theorem ptr_ne_null_of_load {h : Heap} {p : Ptr} {sz : Nat} {f : List Byte}
    (hf : h.load p 0 sz = .ok f) : p ≠ Ptr.null := by
  intro hp
  subst hp
  simp [Heap.load, Heap.deref] at hf

theorem checkSerializedData_of_frame {m : DataMailboxMessage} {h : Heap} {f : List Byte}
    (hf : m.frame h = .ok f) : m.checkSerializedData = .ok () := by
  have hn := ptr_ne_null_of_load hf
  cases hp : m.m_serialized with
  | null => exact absurd hp hn
  | block id => simp [DataMailboxMessage.checkSerializedData, hp, Ptr.isNull]
  | clobbered b => simp [DataMailboxMessage.checkSerializedData, hp, Ptr.isNull]

theorem string_from_of_whole {h : Heap} {p : Ptr} {sz : Nat} {f : List Byte}
    (hf : h.load p 0 sz = .ok f) (off : Int) (n : Nat) (hoff : 0 ≤ off)
    (hn : off.toNat + n = sz) (hmax : n ≤ String_max_size) :
    ∃ s, string_from h p off n = .ok s ∧ s.bytes = f.drop off.toNat := by
  obtain ⟨id, b, hd, hle, hw, hl⟩ := load_whole hf
  have hlen : (List.take n (List.drop off.toNat f)).length ≤ String_max_size := by
    simp only [List.length_take, List.length_drop]
    omega
  refine ⟨⟨(f.drop off.toNat).take n, hlen⟩, ?_, ?_⟩
  · unfold string_from
    rw [if_neg (by omega), load_of_whole hf off n hoff (by omega)]
    dsimp only
    rw [dif_pos hlen]
  · show List.take n (List.drop off.toNat f) = List.drop off.toNat f
    apply List.take_of_length_le
    simp only [List.length_drop]
    omega

theorem wCommand_Deserialize_frame (r : KeypadMessage_wCommand) (h : Heap) (f : List Byte)
    (hf : r.frame h = .ok f) (h2 : 2 ≤ f.length) (hmax : f.length ≤ String_max_size + 2) :
    ∃ r1, r.Deserialize h = .ok r1 ∧ f[1]? = some r1.m_command ∧ r1.m_parameters.bytes = f.drop 2
      ∧ r1.toDataMailboxMessage = r.toDataMailboxMessage := by
  have hf0 : h.load r.m_serialized 0 r.m_sizeOfSerializedData.val = .ok f := hf
  obtain ⟨id, b, hd, hle, hw, hl⟩ := load_whole hf0
  have hsz := r.m_sizeOfSerializedData.isLt
  have hmax1 : f.length ≤ 2147483647 + 2 := hmax
  have o1 : toInt sizeof_MessageDataType.val = 1 := by decide
  have o2 : toInt (size_t.add sizeof_KeypadCommand (ofInt 1)).val = 2 := by decide
  have o3 : (ofInt (toInt (size_t.sub r.m_sizeOfSerializedData (ofInt 2)).val)).val
      = r.m_sizeOfSerializedData.val - 2 := by
    have e1 : (size_t.sub r.m_sizeOfSerializedData (ofInt 2)).val
        = r.m_sizeOfSerializedData.val - 2 := by
      have e0 : (ofInt 2).val = 2 := by decide
      have e2 : (2 : Nat) ≤ r.m_sizeOfSerializedData.val := by omega
      simp only [size_t.sub, size_t.wrap, e0, if_pos e2]
      omega
    rw [e1, toInt_of_lt (by omega), ofInt_natCast_val (by omega)]
  obtain ⟨c, hc, hc1⟩ := loadByte_of_whole hf0 1 (by decide) (by simp; omega)
  obtain ⟨s, hs, hs1⟩ := string_from_of_whole hf0 2 (r.m_sizeOfSerializedData.val - 2)
    (by decide) (by simp; omega) (by show _ ≤ 2147483647; omega)
  refine ⟨{ r with m_command := c, m_parameters := s }, ?_, hc1, hs1, rfl⟩
  simp only [KeypadMessage_wCommand.Deserialize, checkSerializedData_of_frame hf, bind,
    Except.bind, o1, o2, o3, hc, hs, pure, Except.pure]

theorem wPassword_Serialize_fresh (m : KeypadMessage_wPassword) (h : Heap)
    (hm : m.m_serialized = Ptr.null) :
    m.Serialize h = .ok
      ({ m with m_serialized := Ptr.block h.length,
                m_sizeOfSerializedData := size_t.wrap (1 + m.m_password.length) },
        h ++ [⟨(m.m_dataType :: m.m_password.bytes).map some, true⟩]) := by
  have hb : m.m_password.bytes.length ≤ 2147483647 := m.m_password.bounded
  have hlen : m.m_password.length = m.m_password.bytes.length := rfl
  have s1 : (sizeof_MessageDataType : size_t).val = 1 := rfl
  have hsz : size_t.add sizeof_MessageDataType (size_t.wrap m.m_password.length)
      = size_t.wrap (1 + m.m_password.length) := by
    apply Fin.ext
    simp only [size_t.add, size_t.wrap, s1]
    omega
  have hszv : (size_t.wrap (1 + m.m_password.length)).val = 1 + m.m_password.bytes.length := by
    rw [hlen]; exact wrap_val_of_lt (by omega)
  have o3 : (size_t.wrap m.m_password.length).val = m.m_password.bytes.length := by
    rw [hlen]; exact wrap_val_of_lt (by omega)
  simp only [KeypadMessage_wPassword.Serialize, hsz, o3, bind, Except.bind,
    deleteAndReallocate_null _ _ _ hm, hszv, s1, pure, Except.pure]
  have w1 := memcpy_frontier h [] [m.m_dataType] (1 + m.m_password.bytes.length) 1 0
    (by simp) (by simp) (by omega)
  simp only [List.map_nil, List.nil_append] at w1
  rw [w1]
  dsimp only
  rw [memcpy_frontier h _ _ _ _ _ ?o ?s ?k]
  case o => simp
  case s => simp [CppString.c_str]
  case k => omega
  have e : 1 + m.m_password.bytes.length - 1 - m.m_password.bytes.length = 0 := by omega
  simp [e, CppString.c_str]

theorem rfid_Serialize_fresh (m : RFIDMessage) (h : Heap)
    (hm : m.m_serialized = Ptr.null) :
    m.Serialize h = .ok
      ({ m with m_serialized := Ptr.block h.length,
                m_sizeOfSerializedData := size_t.wrap (1 + m.m_uuid.length) },
        h ++ [⟨(m.m_dataType :: m.m_uuid.bytes).map some, true⟩]) := by
  have hb : m.m_uuid.bytes.length ≤ 2147483647 := m.m_uuid.bounded
  have hlen : m.m_uuid.length = m.m_uuid.bytes.length := rfl
  have s1 : (sizeof_MessageDataType : size_t).val = 1 := rfl
  have hsz : size_t.add (size_t.wrap m.m_uuid.length) sizeof_MessageDataType
      = size_t.wrap (1 + m.m_uuid.length) := by
    apply Fin.ext
    simp only [size_t.add, size_t.wrap, s1]
    omega
  have hszv : (size_t.wrap (1 + m.m_uuid.length)).val = 1 + m.m_uuid.bytes.length := by
    rw [hlen]; exact wrap_val_of_lt (by omega)
  have o1 : toInt 1 = 1 := by decide
  have o3 : (ofInt (toInt m.m_uuid.length)).val = m.m_uuid.bytes.length := by
    rw [hlen, toInt_of_lt (by omega), ofInt_natCast_val (by omega)]
  simp only [RFIDMessage.Serialize, hsz, o3, bind, Except.bind,
    deleteAndReallocate_null _ _ _ hm, hszv, s1, o1, pure, Except.pure]
  have w1 := memcpy_frontier h [] [m.m_dataType] (1 + m.m_uuid.bytes.length) 1 0
    (by simp) (by simp) (by omega)
  simp only [List.map_nil, List.nil_append] at w1
  rw [w1]
  dsimp only
  rw [memcpy_frontier h _ _ _ _ _ ?o ?s ?k]
  case o => simp
  case s => simp [CppString.c_str]
  case k => omega
  have e : 1 + m.m_uuid.bytes.length - 1 - m.m_uuid.bytes.length = 0 := by omega
  simp [e, CppString.c_str]

theorem stringMessage_Serialize_fresh (m : StringMessage) (h : Heap)
    (hm : m.m_serialized = Ptr.null) :
    m.Serialize h = .ok
      ({ m with m_serialized := Ptr.block h.length,
                m_sizeOfSerializedData := size_t.wrap (1 + m.m_message.length) },
        h ++ [⟨(m.m_dataType :: m.m_message.bytes).map some, true⟩]) := by
  have hb : m.m_message.bytes.length ≤ 2147483647 := m.m_message.bounded
  have hlen : m.m_message.length = m.m_message.bytes.length := rfl
  have s1 : (sizeof_MessageDataType : size_t).val = 1 := rfl
  have hsz : size_t.add sizeof_MessageDataType (size_t.wrap m.m_message.length)
      = size_t.wrap (1 + m.m_message.length) := by
    apply Fin.ext
    simp only [size_t.add, size_t.wrap, s1]
    omega
  have hszv : (size_t.wrap (1 + m.m_message.length)).val = 1 + m.m_message.bytes.length := by
    rw [hlen]; exact wrap_val_of_lt (by omega)
  have o1 : toInt 1 = 1 := by decide
  have o3 : (ofInt (toInt m.m_message.length)).val = m.m_message.bytes.length := by
    rw [hlen, toInt_of_lt (by omega), ofInt_natCast_val (by omega)]
  simp only [StringMessage.Serialize, hsz, o3, bind, Except.bind,
    deleteAndReallocate_null _ _ _ hm, hszv, s1, o1, pure, Except.pure]
  have w1 := memcpy_frontier h [] [m.m_dataType] (1 + m.m_message.bytes.length) 1 0
    (by simp) (by simp) (by omega)
  simp only [List.map_nil, List.nil_append] at w1
  rw [w1]
  dsimp only
  rw [memcpy_frontier h _ _ _ _ _ ?o ?s ?k]
  case o => simp
  case s => simp [CppString.c_str]
  case k => omega
  have e : 1 + m.m_message.bytes.length - 1 - m.m_message.bytes.length = 0 := by omega
  simp [e, CppString.c_str]

theorem watchdog_Serialize_fresh (m : WatchdogMessage) (h : Heap)
    (hm : m.m_serialized = Ptr.null) :
    m.Serialize h = .ok
      ({ m with m_serialized := Ptr.block h.length,
                m_sizeOfSerializedData := size_t.wrap (15 + m.m_name.length) },
        h ++ [⟨([m.m_dataType, m.m_messageClass] ++ m.m_settings.bytes ++ m.m_PID.bytes
                ++ [m.m_onFailure] ++ m.m_name.bytes).map some, true⟩]) := by
  have hb : m.m_name.bytes.length ≤ 2147483647 := m.m_name.bounded
  have hlen : m.m_name.length = m.m_name.bytes.length := rfl
  have s1 : (sizeof_MessageDataType : size_t).val = 1 := rfl
  have a1 : size_t.add sizeof_MessageDataType sizeof_MessageClass = 2 := by decide
  have a2 : size_t.add 2 sizeof_SlotSettings = 10 := by decide
  have a3 : size_t.add 10 sizeof_unsigned_int = 14 := by decide
  have a4 : size_t.add 14 sizeof_enuActionOnFailure = 15 := by decide
  have v2 : ((2 : size_t).val : Int) = 2 := rfl
  have v10 : ((10 : size_t).val : Int) = 10 := rfl
  have v14 : ((14 : size_t).val : Int) = 14 := rfl
  have v15 : ((15 : size_t).val : Int) = 15 := rfl
  have v1 : ((sizeof_MessageDataType : size_t).val : Int) = 1 := rfl
  have c1 : (sizeof_MessageClass : size_t).val = 1 := rfl
  have c8 : (sizeof_SlotSettings : size_t).val = 8 := rfl
  have c4 : (sizeof_unsigned_int : size_t).val = 4 := rfl
  have c5 : (sizeof_enuActionOnFailure : size_t).val = 1 := rfl
  have hsz : size_t.add 15 (size_t.wrap m.m_name.length) = size_t.wrap (15 + m.m_name.length) := by
    apply Fin.ext
    have : (15 : size_t).val = 15 := rfl
    simp only [size_t.add, size_t.wrap, this]
    omega
  have hszv : (size_t.wrap (15 + m.m_name.length)).val = 15 + m.m_name.bytes.length := by
    rw [hlen]; exact wrap_val_of_lt (by omega)
  have o3 : (size_t.wrap m.m_name.length).val = m.m_name.bytes.length := by
    rw [hlen]; exact wrap_val_of_lt (by omega)
  simp only [WatchdogMessage.Serialize, a1, a2, a3, a4, hsz, o3, bind, Except.bind,
    deleteAndReallocate_null _ _ _ hm, hszv, v1, v2, v10, v14, v15, s1, c1, c8, c4, c5,
    pure, Except.pure]
  have w1 := memcpy_frontier h [] [m.m_dataType] (15 + m.m_name.bytes.length) 1 0
    (by simp) (by simp) (by omega)
  simp only [List.map_nil, List.nil_append] at w1
  rw [w1]
  dsimp only
  rw [memcpy_frontier h _ _ _ _ _ ?o1 ?s1 ?k1]
  dsimp only
  rw [memcpy_frontier h _ _ _ _ _ ?o2 ?s2 ?k2]
  dsimp only
  rw [memcpy_frontier h _ _ _ _ _ ?o3 ?s3 ?k3]
  dsimp only
  rw [memcpy_frontier h _ _ _ _ _ ?o4 ?s4 ?k4]
  dsimp only
  rw [memcpy_frontier h _ _ _ _ _ ?o5 ?s5 ?k5]
  case o1 => simp
  case s1 => simp
  case k1 => omega
  case o2 => simp
  case s2 => simp [SlotSettings.bytes, unsigned_int.bytes]
  case k2 => omega
  case o3 => simp [SlotSettings.bytes, unsigned_int.bytes]
  case s3 => simp [unsigned_int.bytes]
  case k3 => omega
  case o4 => simp [SlotSettings.bytes, unsigned_int.bytes]
  case s4 => simp
  case k4 => omega
  case o5 => simp [SlotSettings.bytes, unsigned_int.bytes]
  case s5 => simp [CppString.c_str]
  case k5 => omega
  have e : 15 + m.m_name.bytes.length - 1 - 1 - 8 - 4 - 1 - m.m_name.bytes.length = 0 := by omega
  have e1 : 13 + m.m_name.bytes.length - 8 - 4 - 1 - m.m_name.bytes.length = 0 := by omega
  simp [e, e1, CppString.c_str, SlotSettings.bytes, unsigned_int.bytes]

theorem sub_val_of_le {a b : size_t} (hba : b.val ≤ a.val) : (size_t.sub a b).val = a.val - b.val := by
  have := a.isLt
  simp only [size_t.sub, if_pos hba, size_t.wrap]
  omega

theorem wPassword_Deserialize_frame (r : KeypadMessage_wPassword) (h : Heap)
    (f : List Byte) (hf : r.frame h = .ok f) (h1 : 1 ≤ f.length)
    (hmax : f.length ≤ String_max_size + 1) :
    ∃ r1, r.Deserialize h = .ok r1 ∧ f[0]? = some r1.m_dataType ∧ r1.m_password.bytes = f.drop 1
      ∧ r1.m_serialized = r.m_serialized
      ∧ r1.m_sizeOfSerializedData = r.m_sizeOfSerializedData ∧ r1.m_source = r.m_source := by
  have hf0 : h.load r.m_serialized 0 r.m_sizeOfSerializedData.val = .ok f := hf
  obtain ⟨id, b, hd, hle, hw, hl⟩ := load_whole hf0
  have hsz := r.m_sizeOfSerializedData.isLt
  have hmax1 : f.length ≤ 2147483647 + 1 := hmax
  have s1 : (sizeof_MessageDataType : size_t).val = 1 := rfl
  have v1 : ((sizeof_MessageDataType : size_t).val : Int) = 1 := rfl
  have o3 : (size_t.sub r.m_sizeOfSerializedData sizeof_MessageDataType).val
      = r.m_sizeOfSerializedData.val - 1 := by
    rw [sub_val_of_le (by rw [s1]; omega), s1]
  obtain ⟨c, hc, hc1⟩ := loadByte_of_whole hf0 0 (by decide) (by simp; omega)
  obtain ⟨s, hs, hs1⟩ := string_from_of_whole hf0 1 (r.m_sizeOfSerializedData.val - 1)
    (by decide) (by simp; omega) (by show _ ≤ 2147483647; omega)
  refine ⟨{ r with m_dataType := c, m_password := s }, ?_, hc1, hs1, rfl, rfl, rfl⟩
  simp only [KeypadMessage_wPassword.Deserialize, checkSerializedData_of_frame hf, bind,
    Except.bind, o3, v1, hc, hs, pure, Except.pure]

theorem rfid_Deserialize_frame (r : RFIDMessage) (h : Heap)
    (f : List Byte) (hf : r.frame h = .ok f) (h1 : 1 ≤ f.length)
    (hmax : f.length ≤ String_max_size + 1) :
    ∃ r1, r.Deserialize h = .ok r1 ∧ r1.m_uuid.bytes = f.drop 1
      ∧ r1.toDataMailboxMessage = r.toDataMailboxMessage := by
  have hf0 : h.load r.m_serialized 0 r.m_sizeOfSerializedData.val = .ok f := hf
  obtain ⟨id, b, hd, hle, hw, hl⟩ := load_whole hf0
  have hsz := r.m_sizeOfSerializedData.isLt
  have hmax1 : f.length ≤ 2147483647 + 1 := hmax
  have o1 : toInt sizeof_MessageDataType.val = 1 := by decide
  have e0 : (ofInt 1).val = 1 := by decide
  have o3 : (ofInt (toInt (size_t.sub r.m_sizeOfSerializedData (ofInt 1)).val)).val
      = r.m_sizeOfSerializedData.val - 1 := by
    rw [sub_val_of_le (by rw [e0]; omega), e0, toInt_of_lt (by omega),
      ofInt_natCast_val (by omega)]
  obtain ⟨s, hs, hs1⟩ := string_from_of_whole hf0 1 (r.m_sizeOfSerializedData.val - 1)
    (by decide) (by simp; omega) (by show _ ≤ 2147483647; omega)
  refine ⟨{ r with m_uuid := s }, ?_, hs1, rfl⟩
  simp only [RFIDMessage.Deserialize, checkSerializedData_of_frame hf, bind,
    Except.bind, o1, o3, hs, pure, Except.pure]

theorem stringMessage_Deserialize_frame (r : StringMessage) (h : Heap)
    (f : List Byte) (hf : r.frame h = .ok f) (hmax : f.length ≤ String_max_size) :
    ∃ r1, r.Deserialize h = .ok r1 ∧ r1.m_message.bytes = f
      ∧ r1.toDataMailboxMessage = r.toDataMailboxMessage := by
  have hf0 : h.load r.m_serialized 0 r.m_sizeOfSerializedData.val = .ok f := hf
  obtain ⟨id, b, hd, hle, hw, hl⟩ := load_whole hf0
  obtain ⟨s, hs, hs1⟩ := string_from_of_whole hf0 0 r.m_sizeOfSerializedData.val
    (by decide) (by simp) (by omega)
  refine ⟨{ r with m_message := s }, ?_, by simpa using hs1, rfl⟩
  simp only [StringMessage.Deserialize, checkSerializedData_of_frame hf, bind,
    Except.bind, hs, pure, Except.pure]

theorem watchdog_Deserialize_frame (r : WatchdogMessage) (h : Heap)
    (f : List Byte) (hf : r.frame h = .ok f) (h1 : 15 ≤ f.length)
    (hmax : f.length ≤ String_max_size + 15) :
    ∃ r1, r.Deserialize h = .ok r1 ∧ f[0]? = some r1.m_dataType
      ∧ f[1]? = some r1.m_messageClass
      ∧ r1.m_settings = SlotSettings.ofBytes ((f.drop 2).take 8)
      ∧ r1.m_PID = unsigned_int.ofBytes ((f.drop 10).take 4)
      ∧ f[14]? = some r1.m_onFailure
      ∧ r1.m_name.bytes = f.drop 15
      ∧ r1.m_serialized = r.m_serialized
      ∧ r1.m_sizeOfSerializedData = r.m_sizeOfSerializedData ∧ r1.m_source = r.m_source := by
  have hf0 : h.load r.m_serialized 0 r.m_sizeOfSerializedData.val = .ok f := hf
  obtain ⟨id, b, hd, hle, hw, hl⟩ := load_whole hf0
  have hsz := r.m_sizeOfSerializedData.isLt
  have hmax1 : f.length ≤ 2147483647 + 15 := hmax
  have a1 : size_t.add sizeof_MessageDataType sizeof_MessageClass = 2 := by decide
  have a2 : size_t.add 2 sizeof_SlotSettings = 10 := by decide
  have a3 : size_t.add 10 sizeof_unsigned_int = 14 := by decide
  have a4 : size_t.add 14 sizeof_enuActionOnFailure = 15 := by decide
  have v2 : ((2 : size_t).val : Int) = 2 := rfl
  have v10 : ((10 : size_t).val : Int) = 10 := rfl
  have v14 : ((14 : size_t).val : Int) = 14 := rfl
  have v15 : ((15 : size_t).val : Int) = 15 := rfl
  have v1 : ((sizeof_MessageDataType : size_t).val : Int) = 1 := rfl
  have c8 : (sizeof_SlotSettings : size_t).val = 8 := rfl
  have c4 : (sizeof_unsigned_int : size_t).val = 4 := rfl
  have e15 : (15 : size_t).val = 15 := rfl
  have o3 : (size_t.sub r.m_sizeOfSerializedData 15).val = r.m_sizeOfSerializedData.val - 15 := by
    rw [sub_val_of_le (by rw [e15]; omega), e15]
  obtain ⟨t, ht, ht1⟩ := loadByte_of_whole hf0 0 (by decide) (by simp; omega)
  obtain ⟨c, hc, hc1⟩ := loadByte_of_whole hf0 1 (by decide) (by simp; omega)
  have hS := load_of_whole hf0 2 8 (by decide) (by simp; omega)
  have hP := load_of_whole hf0 10 4 (by decide) (by simp; omega)
  obtain ⟨a, ha, ha1⟩ := loadByte_of_whole hf0 14 (by decide) (by simp; omega)
  obtain ⟨s, hs, hs1⟩ := string_from_of_whole hf0 15 (r.m_sizeOfSerializedData.val - 15)
    (by decide) (by simp; omega) (by show _ ≤ 2147483647; omega)
  refine ⟨{ r with m_dataType := t, m_messageClass := c,
                   m_settings := SlotSettings.ofBytes ((f.drop 2).take 8),
                   m_PID := unsigned_int.ofBytes ((f.drop 10).take 4),
                   m_onFailure := a, m_name := s }, ?_, ht1, hc1, rfl, rfl, ha1, hs1, rfl, rfl, rfl⟩
  simp only [WatchdogMessage.Deserialize, checkSerializedData_of_frame hf, bind,
    Except.bind, a1, a2, a3, a4, v1, v2, v10, v14, v15, c8, c4, o3, ht, hc, hS, hP, ha, hs,
    pure, Except.pure]
  rfl

theorem unsigned_int_ofBytes_bytes (v : unsigned_int) : unsigned_int.ofBytes v.bytes = v := by
  apply Fin.ext
  have := v.isLt
  simp only [unsigned_int.ofBytes, unsigned_int.bytes, List.getD_cons_zero, List.getD_cons_succ]
  omega

theorem SlotSettings_ofBytes_bytes (s : SlotSettings) : SlotSettings.ofBytes s.bytes = s := by
  cases s with
  | mk a b =>
    have ha : List.take 4 (a.bytes ++ b.bytes) = a.bytes := List.take_left' rfl
    have hb : List.drop 4 (a.bytes ++ b.bytes) = b.bytes := List.drop_left' rfl
    simp only [SlotSettings.ofBytes, SlotSettings.bytes, ha, hb, unsigned_int_ofBytes_bytes]

/-! ## What a successful `Deserialize` leaves unchanged -/

theorem load_ok_deref {h : Heap} {p : Ptr} {off : Int} {n : Nat} {bs : List Byte}
    (hl : h.load p off n = .ok bs) : ∃ id b, h.deref p = .ok (id, b) := by
  unfold Heap.load at hl
  cases hd : h.deref p with
  | error e => rw [hd] at hl; cases hl
  | ok r => exact ⟨r.1, r.2, rfl⟩

theorem loadByte_ok_deref {h : Heap} {p : Ptr} {off : Int} {c : Byte}
    (hl : h.loadByte p off = .ok c) : ∃ id b, h.deref p = .ok (id, b) := by
  unfold Heap.loadByte at hl
  cases hd : h.load p off 1 with
  | error e => rw [hd] at hl; cases hl
  | ok bs => exact load_ok_deref hd

theorem string_from_ok_deref {h : Heap} {p : Ptr} {off : Int} {n : Nat} {s : CppString}
    (hl : string_from h p off n = .ok s) : ∃ id b, h.deref p = .ok (id, b) := by
  unfold string_from at hl
  split at hl
  · cases hl
  · cases hd : h.load p off n with
    | error e => rw [hd] at hl; cases hl
    | ok bs => exact load_ok_deref hd

theorem wCommand_Deserialize_ok {r r1 : KeypadMessage_wCommand} {h : Heap}
    (hr : r.Deserialize h = .ok r1) :
    r1.m_serialized = r.m_serialized ∧ r1.m_sizeOfSerializedData = r.m_sizeOfSerializedData
      ∧ r1.m_source = r.m_source ∧ ∃ id b, h.deref r.m_serialized = .ok (id, b) := by
  simp only [KeypadMessage_wCommand.Deserialize, bind, Except.bind, pure, Except.pure] at hr
  split at hr
  · cases hr
  · split at hr
    · cases hr
    · split at hr
      · cases hr
      · rename_i hs
        cases hr
        exact ⟨rfl, rfl, rfl, string_from_ok_deref hs⟩

theorem wPassword_Deserialize_ok {r r1 : KeypadMessage_wPassword} {h : Heap}
    (hr : r.Deserialize h = .ok r1) :
    r1.m_serialized = r.m_serialized ∧ r1.m_sizeOfSerializedData = r.m_sizeOfSerializedData
      ∧ r1.m_source = r.m_source ∧ ∃ id b, h.deref r.m_serialized = .ok (id, b) := by
  simp only [KeypadMessage_wPassword.Deserialize, bind, Except.bind, pure, Except.pure] at hr
  split at hr
  · cases hr
  · split at hr
    · cases hr
    · split at hr
      · cases hr
      · rename_i hs
        cases hr
        exact ⟨rfl, rfl, rfl, string_from_ok_deref hs⟩

theorem rfid_Deserialize_ok {r r1 : RFIDMessage} {h : Heap}
    (hr : r.Deserialize h = .ok r1) :
    r1.m_serialized = r.m_serialized ∧ r1.m_sizeOfSerializedData = r.m_sizeOfSerializedData
      ∧ r1.m_source = r.m_source ∧ ∃ id b, h.deref r.m_serialized = .ok (id, b) := by
  simp only [RFIDMessage.Deserialize, bind, Except.bind, pure, Except.pure] at hr
  split at hr
  · cases hr
  · split at hr
    · cases hr
    · rename_i hs
      cases hr
      exact ⟨rfl, rfl, rfl, string_from_ok_deref hs⟩

theorem stringMessage_Deserialize_ok {r r1 : StringMessage} {h : Heap}
    (hr : r.Deserialize h = .ok r1) :
    r1.m_serialized = r.m_serialized ∧ r1.m_sizeOfSerializedData = r.m_sizeOfSerializedData
      ∧ r1.m_source = r.m_source ∧ ∃ id b, h.deref r.m_serialized = .ok (id, b) := by
  simp only [StringMessage.Deserialize, bind, Except.bind, pure, Except.pure] at hr
  split at hr
  · cases hr
  · split at hr
    · cases hr
    · rename_i hs
      cases hr
      exact ⟨rfl, rfl, rfl, string_from_ok_deref hs⟩

theorem watchdog_Deserialize_ok {r r1 : WatchdogMessage} {h : Heap}
    (hr : r.Deserialize h = .ok r1) :
    r1.m_serialized = r.m_serialized ∧ r1.m_sizeOfSerializedData = r.m_sizeOfSerializedData
      ∧ r1.m_source = r.m_source ∧ ∃ id b, h.deref r.m_serialized = .ok (id, b) := by
  simp only [WatchdogMessage.Deserialize, bind, Except.bind, pure, Except.pure] at hr
  split at hr
  · cases hr
  · split at hr
    · cases hr
    · rename_i hs
      split at hr
      · cases hr
      · split at hr
        · cases hr
        · split at hr
          · cases hr
          · split at hr
            · cases hr
            · split at hr
              · cases hr
              · cases hr
                exact ⟨rfl, rfl, rfl, loadByte_ok_deref hs⟩

theorem ofInt_toInt (x : size_t) : ofInt (toInt x.val) = x := by
  apply Fin.ext
  have hx := x.isLt
  have hm : x.val % 4294967296 = x.val := Nat.mod_eq_of_lt hx
  unfold toInt ofInt
  rw [hm]
  split <;> simp only [] <;> omega

theorem deref_ok_inv {h : Heap} {p : Ptr} {id : Nat} {b : Block}
    (hd : h.deref p = .ok (id, b)) : p = Ptr.block id ∧ h[id]? = some b ∧ b.live = true := by
  unfold Heap.deref at hd
  cases p with
  | null => cases hd
  | clobbered c => cases hd
  | block j =>
    dsimp only at hd
    cases hj : h[j]? with
    | none => rw [hj] at hd; cases hd
    | some blk =>
      rw [hj] at hd
      dsimp only at hd
      by_cases hl : blk.live = true
      · rw [if_pos hl] at hd
        cases hd
        exact ⟨rfl, hj, hl⟩
      · rw [if_neg hl] at hd
        cases hd

namespace ExtendedDataMailboxMessage

theorem base_withBase (t : ExtendedDataMailboxMessage) (b : DataMailboxMessage) :
    (t.withBase b).base = b := by
  cases t <;> rfl

theorem withBase_withBase (t : ExtendedDataMailboxMessage) (b c : DataMailboxMessage) :
    (t.withBase b).withBase c = t.withBase c := by
  cases t <;> rfl

theorem typed_Deserialize_ok {t t1 : ExtendedDataMailboxMessage} {h : Heap}
    (ht : t.Deserialize h = .ok t1) :
    t1.base.m_serialized = t.base.m_serialized
      ∧ t1.base.m_sizeOfSerializedData = t.base.m_sizeOfSerializedData
      ∧ t1.base.m_source = t.base.m_source
      ∧ ∃ id b, h.deref t.base.m_serialized = .ok (id, b) := by
  cases t with
  | keypadPassword m =>
    simp only [Deserialize, Except.map] at ht
    split at ht
    · cases ht
    · rename_i hm; cases ht; exact wPassword_Deserialize_ok hm
  | keypadCommand m =>
    simp only [Deserialize, Except.map] at ht
    split at ht
    · cases ht
    · rename_i hm; cases ht; exact wCommand_Deserialize_ok hm
  | rfid m =>
    simp only [Deserialize, Except.map] at ht
    split at ht
    · cases ht
    · rename_i hm; cases ht; exact rfid_Deserialize_ok hm
  | text m =>
    simp only [Deserialize, Except.map] at ht
    split at ht
    · cases ht
    · rename_i hm; cases ht; exact stringMessage_Deserialize_ok hm
  | watchdog m =>
    simp only [Deserialize, Except.map] at ht
    split at ht
    · cases ht
    · rename_i hm; cases ht; exact watchdog_Deserialize_ok hm

/-- The typed message as `Unpack` hands it to `Deserialize`: buffer and size of the envelope. -/
theorem Unpack_eq (t : ExtendedDataMailboxMessage) (e : BasicDataMailboxMessage) (h : Heap) :
    t.Unpack e h =
      match (t.withBase { t.base with m_sizeOfSerializedData := e.m_sizeOfSerializedData,
                                      m_serialized := e.m_serialized }).Deserialize h with
      | .error x => .error x
      | .ok t3 =>
        match ({ t3.base with m_source := e.m_source } : DataMailboxMessage).deleteSerializedData h with
        | .error x => .error x
        | .ok (b, h1) => .ok (t3.withBase b, e.releaseRawDataOwnership, h1) := by
  simp only [Unpack, BasicDataMailboxMessage.getRawDataSize, ofInt_toInt, base_withBase,
    withBase_withBase, BasicDataMailboxMessage.getRawDataPointer, bind, Except.bind, pure,
    Except.pure, DataMailboxMessage.getSource, BasicDataMailboxMessage.releaseRawDataOwnership]
  cases (t.withBase { t.base with m_sizeOfSerializedData := e.m_sizeOfSerializedData,
                                  m_serialized := e.m_serialized }).Deserialize h with
  | error x => rfl
  | ok v =>
    dsimp only
    cases ({ v.base with m_source := e.m_source } : DataMailboxMessage).deleteSerializedData h with
    | error x => rfl
    | ok r => rfl

theorem Unpack_of_accept (t t3 : ExtendedDataMailboxMessage) (e : BasicDataMailboxMessage)
    (h : Heap)
    (hacc : (t.withBase { t.base with m_sizeOfSerializedData := e.m_sizeOfSerializedData,
                                      m_serialized := e.m_serialized }).Deserialize h = .ok t3) :
    ∃ id cells, e.m_serialized = Ptr.block id ∧ h[id]? = some ⟨cells, true⟩
      ∧ t.Unpack e h = .ok
          (t3.withBase ⟨t3.base.m_dataType, Ptr.null, 0, e.m_source⟩,
            e.releaseRawDataOwnership, h.set id ⟨cells, false⟩) := by
  obtain ⟨hp, hs, hsrc, id, b, hd⟩ := typed_Deserialize_ok hacc
  rw [base_withBase] at hp hs hsrc hd
  dsimp only at hp hs hsrc hd
  obtain ⟨hpe, hget, hlive⟩ := deref_ok_inv hd
  cases b with
  | mk cells live =>
    dsimp only at hlive
    subst hlive
    refine ⟨id, cells, hpe, hget, ?_⟩
    rw [Unpack_eq, hacc]
    simp only [DataMailboxMessage.deleteSerializedData, hp, hpe, Ptr.isNull, Heap.delete, hget,
      Bool.not_false, if_true]

end ExtendedDataMailboxMessage

/-! ## The frame a fresh message serializes to -/

theorem wPassword_Serialize_frame (m : KeypadMessage_wPassword) (h : Heap)
    (hm : m.m_serialized = Ptr.null) :
    ∃ m1 h1, m.Serialize h = .ok (m1, h1)
      ∧ m1.frame h1 = .ok (m.m_dataType :: m.m_password.bytes)
      ∧ m1.m_dataType = m.m_dataType ∧ m1.m_password = m.m_password := by
  have hb : m.m_password.bytes.length ≤ 2147483647 := m.m_password.bounded
  refine ⟨_, _, wPassword_Serialize_fresh m h hm, ?_, rfl, rfl⟩
  apply frame_concat_written _ _ _ _ rfl
  show (size_t.wrap (1 + m.m_password.bytes.length)).val = (_ :: m.m_password.bytes).length
  rw [wrap_val_of_lt (by omega)]
  simp only [List.length_cons]
  omega

theorem wCommand_Serialize_frame (m : KeypadMessage_wCommand) (h : Heap)
    (hm : m.m_serialized = Ptr.null) :
    ∃ m1 h1, m.Serialize h = .ok (m1, h1)
      ∧ m1.frame h1 = .ok (m.m_dataType :: m.m_command :: m.m_parameters.bytes)
      ∧ m1.m_dataType = m.m_dataType ∧ m1.m_command = m.m_command
      ∧ m1.m_parameters = m.m_parameters := by
  have hb : m.m_parameters.bytes.length ≤ 2147483647 := m.m_parameters.bounded
  refine ⟨_, _, wCommand_Serialize_fresh m h hm, ?_, rfl, rfl, rfl⟩
  apply frame_concat_written _ _ _ _ rfl
  show (size_t.wrap (2 + m.m_parameters.bytes.length)).val
    = (_ :: _ :: m.m_parameters.bytes).length
  rw [wrap_val_of_lt (by omega)]
  simp only [List.length_cons]
  omega

theorem rfid_Serialize_frame (m : RFIDMessage) (h : Heap)
    (hm : m.m_serialized = Ptr.null) :
    ∃ m1 h1, m.Serialize h = .ok (m1, h1)
      ∧ m1.frame h1 = .ok (m.m_dataType :: m.m_uuid.bytes)
      ∧ m1.m_dataType = m.m_dataType ∧ m1.m_uuid = m.m_uuid := by
  have hb : m.m_uuid.bytes.length ≤ 2147483647 := m.m_uuid.bounded
  refine ⟨_, _, rfid_Serialize_fresh m h hm, ?_, rfl, rfl⟩
  apply frame_concat_written _ _ _ _ rfl
  show (size_t.wrap (1 + m.m_uuid.bytes.length)).val = (_ :: m.m_uuid.bytes).length
  rw [wrap_val_of_lt (by omega)]
  simp only [List.length_cons]
  omega

theorem stringMessage_Serialize_frame (m : StringMessage) (h : Heap)
    (hm : m.m_serialized = Ptr.null) :
    ∃ m1 h1, m.Serialize h = .ok (m1, h1)
      ∧ m1.frame h1 = .ok (m.m_dataType :: m.m_message.bytes)
      ∧ m1.m_dataType = m.m_dataType ∧ m1.m_message = m.m_message := by
  have hb : m.m_message.bytes.length ≤ 2147483647 := m.m_message.bounded
  refine ⟨_, _, stringMessage_Serialize_fresh m h hm, ?_, rfl, rfl⟩
  apply frame_concat_written _ _ _ _ rfl
  show (size_t.wrap (1 + m.m_message.bytes.length)).val = (_ :: m.m_message.bytes).length
  rw [wrap_val_of_lt (by omega)]
  simp only [List.length_cons]
  omega

theorem unsigned_int_bytes_length (v : unsigned_int) : v.bytes.length = 4 := rfl

theorem SlotSettings_bytes_length (s : SlotSettings) : s.bytes.length = 8 := rfl

theorem watchdog_Serialize_frame (m : WatchdogMessage) (h : Heap)
    (hm : m.m_serialized = Ptr.null) :
    ∃ m1 h1, m.Serialize h = .ok (m1, h1)
      ∧ m1.frame h1 = .ok ([m.m_dataType, m.m_messageClass] ++ m.m_settings.bytes
          ++ m.m_PID.bytes ++ [m.m_onFailure] ++ m.m_name.bytes)
      ∧ m1.m_dataType = m.m_dataType := by
  have hb : m.m_name.bytes.length ≤ 2147483647 := m.m_name.bounded
  refine ⟨_, _, watchdog_Serialize_fresh m h hm, ?_, rfl⟩
  apply frame_concat_written _ _ _ _ rfl
  show (size_t.wrap (15 + m.m_name.bytes.length)).val = _
  rw [wrap_val_of_lt (by omega)]
  simp only [List.length_append, List.length_cons, List.length_nil, SlotSettings_bytes_length,
    unsigned_int_bytes_length]

theorem watchdog_slices (t k a : Byte) (S P N : List Byte) (hS : S.length = 8)
    (hP : P.length = 4) :
    ([t, k] ++ S ++ P ++ [a] ++ N)[0]? = some t
      ∧ ([t, k] ++ S ++ P ++ [a] ++ N)[1]? = some k
      ∧ (([t, k] ++ S ++ P ++ [a] ++ N).drop 2).take 8 = S
      ∧ (([t, k] ++ S ++ P ++ [a] ++ N).drop 10).take 4 = P
      ∧ ([t, k] ++ S ++ P ++ [a] ++ N)[14]? = some a
      ∧ ([t, k] ++ S ++ P ++ [a] ++ N).drop 15 = N
      ∧ ([t, k] ++ S ++ P ++ [a] ++ N).length = 15 + N.length := by
  have e2 : [t, k] ++ S ++ P ++ [a] ++ N = [t, k] ++ (S ++ (P ++ ([a] ++ N))) := by
    simp only [List.append_assoc]
  have e10 : [t, k] ++ S ++ P ++ [a] ++ N = ([t, k] ++ S) ++ (P ++ ([a] ++ N)) := by
    simp only [List.append_assoc]
  have e14 : [t, k] ++ S ++ P ++ [a] ++ N = ([t, k] ++ S ++ P) ++ ([a] ++ N) := by
    simp only [List.append_assoc]
  have e15 : [t, k] ++ S ++ P ++ [a] ++ N = ([t, k] ++ S ++ P ++ [a]) ++ N := rfl
  have l10 : ([t, k] ++ S).length = 10 := by simp [hS]
  have l14 : ([t, k] ++ S ++ P).length = 14 := by simp [hS, hP]
  have l15 : ([t, k] ++ S ++ P ++ [a]).length = 15 := by simp [hS, hP]
  refine ⟨by simp, by simp, ?_, ?_, ?_, ?_, ?_⟩
  · have d2 : List.drop 2 ([t, k] ++ (S ++ (P ++ ([a] ++ N)))) = S ++ (P ++ ([a] ++ N)) := rfl
    rw [e2, d2, List.take_left' hS]
  · rw [e10, List.drop_left' l10, List.take_left' hP]
  · rw [e14, List.getElem?_append_right (by omega), l14]
    simp
  · rw [e15, List.drop_left' l15]
  · rw [e15, List.length_append, l15]

theorem CppString.eq_of_bytes {a b : CppString} (hab : a.bytes = b.bytes) : a = b := by
  cases a
  cases b
  dsimp only at hab
  subst hab
  rfl

theorem isNull_of_deref_ok {h : Heap} {p : Ptr} {id : Nat} {b : Block}
    (hd : h.deref p = .ok (id, b)) : p.isNull = false := by
  rw [(deref_ok_inv hd).1]
  rfl

/-! ## Round trips -/

/-- C1: for every keypad command `c` and every byte string `p`, `Serialize` on the freshly
constructed `KeypadMessage_wCommand(c, p)` returns, and `Deserialize` run on any message holding
the frame it produced yields `getCommandId() == c` and `getParameters() == p`. -/
theorem C1_keypadCommand_roundtrip (c : KeypadCommand) (p : CppString) (h : Heap) :
    ∃ m h1 f, (KeypadMessage_wCommand.createWith c p).Serialize h = .ok (m, h1)
      ∧ m.frame h1 = .ok f
      ∧ ∀ (r : KeypadMessage_wCommand) (h2 : Heap), r.frame h2 = .ok f →
          ∃ r1, r.Deserialize h2 = .ok r1 ∧ r1.getCommandId = c ∧ r1.getParameters = p := by
  have hb : p.bytes.length ≤ 2147483647 := p.bounded
  obtain ⟨m, h1, hs, hf, _, _, _⟩ :=
    wCommand_Serialize_frame (KeypadMessage_wCommand.createWith c p) h rfl
  replace hf : m.frame h1 = .ok (MessageDataType.KeypadMessage_wCommand :: c :: p.bytes) := hf
  refine ⟨m, h1, _, hs, hf, ?_⟩
  intro r h2 hr
  obtain ⟨r1, hd, hc, hp, _⟩ := wCommand_Deserialize_frame r h2 _ hr
    (by simp) (by simp only [List.length_cons]; show _ ≤ 2147483647 + 2; omega)
  refine ⟨r1, hd, ?_, CppString.eq_of_bytes hp⟩
  have hc1 : some c = some r1.m_command := by simpa using hc
  exact (Option.some.inj hc1).symm

/-- C1, the documented scenario: `KeypadMessage_wCommand(ADD_USER, "alice")`, serialized on an
empty heap and deserialized again, gives back `ADD_USER` and `"alice"`. -/
theorem C1_keypadCommand_roundtrip_alice :
    ∃ m h1 r1,
      (KeypadMessage_wCommand.createWith KeypadCommand.ADD_USER
          (CppString.lit "alice" (by decide))).Serialize [] = .ok (m, h1)
      ∧ m.Deserialize h1 = .ok r1
      ∧ r1.getCommandId = KeypadCommand.ADD_USER
      ∧ r1.getParameters = CppString.lit "alice" (by decide) := by
  obtain ⟨m, h1, f, hs, hf, hd⟩ :=
    C1_keypadCommand_roundtrip KeypadCommand.ADD_USER (CppString.lit "alice" (by decide)) []
  obtain ⟨r1, hr, hc, hp⟩ := hd m h1 hf
  exact ⟨m, h1, r1, hs, hr, hc, hp⟩

/-- C2: for every name, settings, PID, failure action and message class, `Serialize` on the
freshly constructed `WatchdogMessage(n, s, p, a, k)` returns, and `Deserialize` run on any message
holding the frame it produced recovers exactly the name, the settings, the PID, the failure action
and the message class. -/
theorem C2_watchdog_roundtrip (n : CppString) (s : SlotSettings) (p : unsigned_int)
    (a : enuActionOnFailure) (k : MessageClass) (h : Heap) :
    ∃ m h1 f, (WatchdogMessage.createFull n s p a k).Serialize h = .ok (m, h1)
      ∧ m.frame h1 = .ok f
      ∧ ∀ (r : WatchdogMessage) (h2 : Heap), r.frame h2 = .ok f →
          ∃ r1, r.Deserialize h2 = .ok r1 ∧ r1.getName = n ∧ r1.getSettings = s ∧ r1.m_PID = p
            ∧ r1.getActionOnFailure = a ∧ r1.getMessageClass = k := by
  have hb : n.bytes.length ≤ 2147483647 := n.bounded
  obtain ⟨m, h1, hs, hf, _⟩ :=
    watchdog_Serialize_frame (WatchdogMessage.createFull n s p a k) h rfl
  replace hf : m.frame h1 = .ok ([MessageDataType.WatchdogMessage, k] ++ s.bytes ++ p.bytes
      ++ [a] ++ n.bytes) := hf
  refine ⟨m, h1, _, hs, hf, ?_⟩
  intro r h2 hr
  obtain ⟨_, e1, e2, e3, e4, e5, e6⟩ := watchdog_slices MessageDataType.WatchdogMessage k a
    s.bytes p.bytes n.bytes (SlotSettings_bytes_length s) (unsigned_int_bytes_length p)
  obtain ⟨r1, hd, _, hk, hS, hP, ha, hn, _⟩ := watchdog_Deserialize_frame r h2 _ hr
    (by rw [e6]; omega) (by rw [e6]; show _ ≤ 2147483647 + 15; omega)
  refine ⟨r1, hd, CppString.eq_of_bytes (hn.trans e5), ?_, ?_, ?_, ?_⟩
  · show r1.m_settings = s
    rw [hS, e2, SlotSettings_ofBytes_bytes]
  · rw [hP, e3, unsigned_int_ofBytes_bytes]
  · have h14 : some a = some r1.m_onFailure := e4.symm.trans ha
    exact (Option.some.inj h14).symm
  · have h1k : some k = some r1.m_messageClass := e1.symm.trans hk
    exact (Option.some.inj h1k).symm

/-- C2, the documented scenario: `WatchdogMessage("workerA", {5, 2000}, 1234, RESET_ONLY, KICK)`,
serialized on an empty heap and deserialized again, gives back every field. -/
theorem C2_watchdog_roundtrip_workerA :
    ∃ m h1 r1,
      (WatchdogMessage.createFull (CppString.lit "workerA" (by decide)) ⟨5, 2000⟩ 1234
          enuActionOnFailure.RESET_ONLY MessageClass.KICK).Serialize [] = .ok (m, h1)
      ∧ m.Deserialize h1 = .ok r1
      ∧ r1.getName = CppString.lit "workerA" (by decide)
      ∧ r1.getSettings = ⟨5, 2000⟩ ∧ r1.m_PID = 1234
      ∧ r1.getActionOnFailure = enuActionOnFailure.RESET_ONLY
      ∧ r1.getMessageClass = MessageClass.KICK := by
  obtain ⟨m, h1, f, hs, hf, hd⟩ :=
    C2_watchdog_roundtrip (CppString.lit "workerA" (by decide)) ⟨5, 2000⟩ 1234
      enuActionOnFailure.RESET_ONLY MessageClass.KICK []
  obtain ⟨r1, hr, hrest⟩ := hd m h1 hf
  exact ⟨m, h1, r1, hs, hr, hrest⟩

/-- C3 (the code at the failing input): `StringMessage("hi")`, serialized on an empty heap and
deserialized again, has `getMessage()` equal to the whole three-byte frame, tag byte `6` included,
not to `"hi"`. -/
theorem C3_stringMessage_roundtrip_keeps_tag :
    ∃ m h1 r1,
      (StringMessage.createWith (CppString.lit "hi" (by decide))).Serialize [] = .ok (m, h1)
      ∧ m.Deserialize h1 = .ok r1
      ∧ r1.getMessage.bytes = [6, 104, 105]
      ∧ r1.getMessage ≠ CppString.lit "hi" (by decide) := by
  obtain ⟨m, h1, hs, hf, _⟩ :=
    stringMessage_Serialize_frame (StringMessage.createWith (CppString.lit "hi" (by decide))) [] rfl
  obtain ⟨r1, hd, hb, _⟩ := stringMessage_Deserialize_frame m h1 _ hf (by decide)
  refine ⟨m, h1, r1, hs, hd, hb, ?_⟩
  intro hc
  have hbytes : r1.m_message.bytes = (CppString.lit "hi" (by decide)).bytes := congrArg _ hc
  rw [hb] at hbytes
  exact absurd hbytes (by decide)

/-- C4: for every byte string `x`, `Serialize` on the freshly constructed
`KeypadMessage_wPassword(x)` and on `RFIDMessage(x)` returns, and `Deserialize` run on any message
holding the frame produced yields `getPassword() == x`, respectively `getUUID() == x`. -/
theorem C4_password_and_rfid_roundtrip (x : CppString) (h : Heap) :
    (∃ m h1 f, (KeypadMessage_wPassword.createWith x).Serialize h = .ok (m, h1)
      ∧ m.frame h1 = .ok f
      ∧ ∀ (r : KeypadMessage_wPassword) (h2 : Heap), r.frame h2 = .ok f →
          ∃ r1, r.Deserialize h2 = .ok r1 ∧ r1.getPassword = x)
    ∧ (∃ m h1 f, (RFIDMessage.createWith x).Serialize h = .ok (m, h1)
      ∧ m.frame h1 = .ok f
      ∧ ∀ (r : RFIDMessage) (h2 : Heap), r.frame h2 = .ok f →
          ∃ r1, r.Deserialize h2 = .ok r1 ∧ r1.getUUID = x) := by
  have hb : x.bytes.length ≤ 2147483647 := x.bounded
  constructor
  · obtain ⟨m, h1, hs, hf, _⟩ :=
      wPassword_Serialize_frame (KeypadMessage_wPassword.createWith x) h rfl
    replace hf : m.frame h1 = .ok (MessageDataType.KeypadMessage_wPassword :: x.bytes) := hf
    refine ⟨m, h1, _, hs, hf, ?_⟩
    intro r h2 hr
    obtain ⟨r1, hd, _, hp, _⟩ := wPassword_Deserialize_frame r h2 _ hr
      (by simp) (by simp only [List.length_cons]; show _ ≤ 2147483647 + 1; omega)
    exact ⟨r1, hd, CppString.eq_of_bytes hp⟩
  · obtain ⟨m, h1, hs, hf, _⟩ := rfid_Serialize_frame (RFIDMessage.createWith x) h rfl
    replace hf : m.frame h1 = .ok (MessageDataType.RFIDMessage :: x.bytes) := hf
    refine ⟨m, h1, _, hs, hf, ?_⟩
    intro r h2 hr
    obtain ⟨r1, hd, hp, _⟩ := rfid_Deserialize_frame r h2 _ hr
      (by simp) (by simp only [List.length_cons]; show _ ≤ 2147483647 + 1; omega)
    exact ⟨r1, hd, CppString.eq_of_bytes hp⟩

/-! ## Tag integrity and the envelope's own frame -/

/-- C5: for every constructor call of the five typed classes, `Serialize` on the object just
built returns a non-empty frame whose byte 0 equals `getDataType()`, which is the code the
constructor gave the object: 3, 4, 5, 6 or 7 according to its class. -/
theorem C5_tag_is_first_byte (k : ConstructorCall) (h : Heap) :
    ∃ t1 h1 f, k.object.Serialize h = .ok (t1, h1)
      ∧ t1.base.frame h1 = .ok f
      ∧ f ≠ []
      ∧ f.head? = some t1.base.getDataType
      ∧ t1.base.getDataType = k.object.base.getDataType
      ∧ t1.base.getDataType =
          (match k.object with
            | .keypadPassword _ => 3
            | .keypadCommand _ => 4
            | .rfid _ => 5
            | .text _ => 6
            | .watchdog _ => 7) := by
  cases k with
  | KeypadMessage_wPassword0 =>
    obtain ⟨m, h1, hs, hf, ht, _⟩ :=
      wPassword_Serialize_frame KeypadMessage_wPassword.create h rfl
    refine ⟨.keypadPassword m, h1, _, ?_, hf, by simp, ?_, ht, ht⟩
    · simp only [ConstructorCall.object, ExtendedDataMailboxMessage.Serialize, hs, Except.map]
    · simp only [List.head?_cons, ExtendedDataMailboxMessage.base,
        DataMailboxMessage.getDataType, ht]
  | KeypadMessage_wPassword1 password =>
    obtain ⟨m, h1, hs, hf, ht, _⟩ :=
      wPassword_Serialize_frame (KeypadMessage_wPassword.createWith password) h rfl
    refine ⟨.keypadPassword m, h1, _, ?_, hf, by simp, ?_, ht, ht⟩
    · simp only [ConstructorCall.object, ExtendedDataMailboxMessage.Serialize, hs, Except.map]
    · simp only [List.head?_cons, ExtendedDataMailboxMessage.base,
        DataMailboxMessage.getDataType, ht]
  | KeypadMessage_wCommand0 =>
    obtain ⟨m, h1, hs, hf, ht, _⟩ :=
      wCommand_Serialize_frame KeypadMessage_wCommand.create h rfl
    refine ⟨.keypadCommand m, h1, _, ?_, hf, by simp, ?_, ht, ht⟩
    · simp only [ConstructorCall.object, ExtendedDataMailboxMessage.Serialize, hs, Except.map]
    · simp only [List.head?_cons, ExtendedDataMailboxMessage.base,
        DataMailboxMessage.getDataType, ht]
  | KeypadMessage_wCommand2 commandId parameters =>
    obtain ⟨m, h1, hs, hf, ht, _⟩ :=
      wCommand_Serialize_frame
        (KeypadMessage_wCommand.createWith commandId parameters) h rfl
    refine ⟨.keypadCommand m, h1, _, ?_, hf, by simp, ?_, ht, ht⟩
    · simp only [ConstructorCall.object, ExtendedDataMailboxMessage.Serialize, hs, Except.map]
    · simp only [List.head?_cons, ExtendedDataMailboxMessage.base,
        DataMailboxMessage.getDataType, ht]
  | RFIDMessage0 =>
    obtain ⟨m, h1, hs, hf, ht, _⟩ := rfid_Serialize_frame RFIDMessage.create h rfl
    refine ⟨.rfid m, h1, _, ?_, hf, by simp, ?_, ht, ht⟩
    · simp only [ConstructorCall.object, ExtendedDataMailboxMessage.Serialize, hs, Except.map]
    · simp only [List.head?_cons, ExtendedDataMailboxMessage.base,
        DataMailboxMessage.getDataType, ht]
  | RFIDMessage1 uuid =>
    obtain ⟨m, h1, hs, hf, ht, _⟩ :=
      rfid_Serialize_frame (RFIDMessage.createWith uuid) h rfl
    refine ⟨.rfid m, h1, _, ?_, hf, by simp, ?_, ht, ht⟩
    · simp only [ConstructorCall.object, ExtendedDataMailboxMessage.Serialize, hs, Except.map]
    · simp only [List.head?_cons, ExtendedDataMailboxMessage.base,
        DataMailboxMessage.getDataType, ht]
  | StringMessage0 =>
    obtain ⟨m, h1, hs, hf, ht, _⟩ := stringMessage_Serialize_frame StringMessage.create h rfl
    refine ⟨.text m, h1, _, ?_, hf, by simp, ?_, ht, ht⟩
    · simp only [ConstructorCall.object, ExtendedDataMailboxMessage.Serialize, hs, Except.map]
    · simp only [List.head?_cons, ExtendedDataMailboxMessage.base,
        DataMailboxMessage.getDataType, ht]
  | StringMessage1 message =>
    obtain ⟨m, h1, hs, hf, ht, _⟩ :=
      stringMessage_Serialize_frame (StringMessage.createWith message) h rfl
    refine ⟨.text m, h1, _, ?_, hf, by simp, ?_, ht, ht⟩
    · simp only [ConstructorCall.object, ExtendedDataMailboxMessage.Serialize, hs, Except.map]
    · simp only [List.head?_cons, ExtendedDataMailboxMessage.base,
        DataMailboxMessage.getDataType, ht]
  | WatchdogMessage0 =>
    obtain ⟨m, h1, hs, hf, ht⟩ := watchdog_Serialize_frame WatchdogMessage.create h rfl
    refine ⟨.watchdog m, h1, _, ?_, hf, by simp, ?_, ht, ht⟩
    · simp only [ConstructorCall.object, ExtendedDataMailboxMessage.Serialize, hs, Except.map]
    · simp only [List.cons_append, List.head?_cons, ExtendedDataMailboxMessage.base,
        DataMailboxMessage.getDataType, ht]
  | WatchdogMessage5 name settings PID onFailure type =>
    obtain ⟨m, h1, hs, hf, ht⟩ :=
      watchdog_Serialize_frame
        (WatchdogMessage.createFull name settings PID onFailure type) h rfl
    refine ⟨.watchdog m, h1, _, ?_, hf, by simp, ?_, ht, ht⟩
    · simp only [ConstructorCall.object, ExtendedDataMailboxMessage.Serialize, hs, Except.map]
    · simp only [List.cons_append, List.head?_cons, ExtendedDataMailboxMessage.base,
        DataMailboxMessage.getDataType, ht]
  | WatchdogMessage2 name type =>
    obtain ⟨m, h1, hs, hf, ht⟩ :=
      watchdog_Serialize_frame (WatchdogMessage.createNamed name type) h rfl
    refine ⟨.watchdog m, h1, _, ?_, hf, by simp, ?_, ht, ht⟩
    · simp only [ConstructorCall.object, ExtendedDataMailboxMessage.Serialize, hs, Except.map]
    · simp only [List.cons_append, List.head?_cons, ExtendedDataMailboxMessage.base,
        DataMailboxMessage.getDataType, ht]
  | WatchdogMessage1 type =>
    obtain ⟨m, h1, hs, hf, ht⟩ :=
      watchdog_Serialize_frame (WatchdogMessage.createOfClass type) h rfl
    refine ⟨.watchdog m, h1, _, ?_, hf, by simp, ?_, ht, ht⟩
    · simp only [ConstructorCall.object, ExtendedDataMailboxMessage.Serialize, hs, Except.map]
    · simp only [List.cons_append, List.head?_cons, ExtendedDataMailboxMessage.base,
        DataMailboxMessage.getDataType, ht]

/-- C6 (the code at the failing input): `Serialize` on the envelope
`BasicDataMailboxMessage(TimedOut, peer)` sets the size to 1 but writes the tag into the pointer
variable: the allocated one-byte block stays unwritten, `m_serialized` no longer addresses it, and
the frame the envelope holds cannot be read. -/
theorem C6_envelope_serialize_never_writes_block :
    (BasicDataMailboxMessage.createWith MessageDataType.TimedOut ⟨"peer"⟩).Serialize []
        = .ok (⟨⟨MessageDataType.TimedOut, Ptr.clobbered MessageDataType.TimedOut, 1, ⟨"peer"⟩⟩⟩,
            [⟨[none], true⟩])
      ∧ DataMailboxMessage.frame
          ⟨MessageDataType.TimedOut, Ptr.clobbered MessageDataType.TimedOut, 1, ⟨"peer"⟩⟩
          [⟨[none], true⟩] = .error Fault.strayPointer
      ∧ Heap.load [⟨[none], true⟩] (Ptr.block 0) 0 1 = .error Fault.indeterminateValue := by
  decide

/-! ## Decoding the tag and absent buffers -/

/-- C7: for every message holding a frame whose first byte is `b`, `decodeMessageDataType`
returns exactly when `0 <= (int)b < 8`, that is when `b` is one of the eight codes; it then leaves
the tag equal to `b`, and for every other `b` it ends in the fatal invalid-datatype error. -/
theorem C7_decode_tag_iff_valid (m : DataMailboxMessage) (h : Heap) (b : Byte)
    (hb : h.loadByte m.m_serialized 0 = .ok b) :
    ((∃ m1, m.decodeMessageDataType h = .ok m1) ↔ (0 ≤ charToInt b ∧ charToInt b < 8))
      ∧ ((0 ≤ charToInt b ∧ charToInt b < 8) ↔ b.val < 8)
      ∧ ((0 ≤ charToInt b ∧ charToInt b < 8) →
          m.decodeMessageDataType h = .ok { m with m_dataType := b })
      ∧ (¬ (0 ≤ charToInt b ∧ charToInt b < 8) →
          m.decodeMessageDataType h
            = .error (Fault.fatal ("Message has invalid datatype: " ++ toString (charToInt b)))) := by
  obtain ⟨id, blk, hd⟩ := loadByte_ok_deref hb
  have hn := isNull_of_deref_ok hd
  have hcount : charToInt MessageDataType.COUNT = 8 := by decide
  have hyes : (0 ≤ charToInt b ∧ charToInt b < 8) →
      m.decodeMessageDataType h = .ok { m with m_dataType := b } := by
    intro hv
    have hc : ¬ (charToInt b < 0 ∨ charToInt b ≥ charToInt MessageDataType.COUNT) := by
      rw [hcount]; omega
    simp only [DataMailboxMessage.decodeMessageDataType, hn, hb, if_neg hc]
    rfl
  have hno : ¬ (0 ≤ charToInt b ∧ charToInt b < 8) →
      m.decodeMessageDataType h
        = .error (Fault.fatal ("Message has invalid datatype: " ++ toString (charToInt b))) := by
    intro hv
    have hc : charToInt b < 0 ∨ charToInt b ≥ charToInt MessageDataType.COUNT := by
      rw [hcount]; omega
    simp only [DataMailboxMessage.decodeMessageDataType, hn, hb, if_pos hc]
    rfl
  refine ⟨⟨?_, fun hv => ⟨_, hyes hv⟩⟩, ?_, hyes, hno⟩
  · rintro ⟨m1, hm1⟩
    by_contra hv
    rw [hno hv] at hm1
    cases hm1
  · have hlt := b.isLt
    unfold charToInt
    split <;> omega

/-- C7 on concrete frames: the one-byte frame `[7]` decodes to tag `WatchdogMessage`. -/
theorem C7_decode_tag_iff_valid_witness :
    Heap.loadByte [⟨[some 7], true⟩] (Ptr.block 0) 0 = .ok 7
      ∧ DataMailboxMessage.decodeMessageDataType
          ⟨MessageDataType.NONE, Ptr.block 0, 1, MailboxReference.unspecified⟩ [⟨[some 7], true⟩]
        = .ok ⟨MessageDataType.WatchdogMessage, Ptr.block 0, 1, MailboxReference.unspecified⟩ :=
  ⟨by decide,
    (C7_decode_tag_iff_valid ⟨MessageDataType.NONE, Ptr.block 0, 1, MailboxReference.unspecified⟩
      [⟨[some 7], true⟩] 7 (by decide)).2.2.1 (by decide)⟩

/-- C8: for every message whose buffer is absent, `decodeMessageDataType`, the envelope's
`Deserialize` and the `Deserialize` of each typed class end in the fatal null-buffer error; no
message, hence no decoded field, results. -/
theorem C8_absent_buffer_is_fatal (m : DataMailboxMessage) (e : BasicDataMailboxMessage)
    (t : ExtendedDataMailboxMessage) (h : Heap)
    (hm : m.m_serialized = Ptr.null) (he : e.m_serialized = Ptr.null)
    (ht : t.base.m_serialized = Ptr.null) :
    m.decodeMessageDataType h
        = .error (Fault.fatal "Cannot decode message datatype from null pointer!")
      ∧ e.Deserialize h = .error (Fault.fatal "Cannot deserialize data from nullptr!")
      ∧ t.Deserialize h = .error (Fault.fatal "Cannot deserialize data from nullptr!") := by
  refine ⟨?_, ?_, ?_⟩
  · simp only [DataMailboxMessage.decodeMessageDataType, hm, Ptr.isNull, if_true]
    rfl
  · simp only [BasicDataMailboxMessage.Deserialize, DataMailboxMessage.checkSerializedData, he,
      Ptr.isNull, if_true]
    rfl
  · cases t with
    | keypadPassword r =>
      have hr : r.m_serialized = Ptr.null := ht
      simp only [ExtendedDataMailboxMessage.Deserialize, KeypadMessage_wPassword.Deserialize,
        DataMailboxMessage.checkSerializedData, hr, Ptr.isNull, if_true, bind, Except.bind,
        Except.map]
      rfl
    | keypadCommand r =>
      have hr : r.m_serialized = Ptr.null := ht
      simp only [ExtendedDataMailboxMessage.Deserialize, KeypadMessage_wCommand.Deserialize,
        DataMailboxMessage.checkSerializedData, hr, Ptr.isNull, if_true, bind, Except.bind,
        Except.map]
      rfl
    | rfid r =>
      have hr : r.m_serialized = Ptr.null := ht
      simp only [ExtendedDataMailboxMessage.Deserialize, RFIDMessage.Deserialize,
        DataMailboxMessage.checkSerializedData, hr, Ptr.isNull, if_true, bind, Except.bind,
        Except.map]
      rfl
    | text r =>
      have hr : r.m_serialized = Ptr.null := ht
      simp only [ExtendedDataMailboxMessage.Deserialize, StringMessage.Deserialize,
        DataMailboxMessage.checkSerializedData, hr, Ptr.isNull, if_true, bind, Except.bind,
        Except.map]
      rfl
    | watchdog r =>
      have hr : r.m_serialized = Ptr.null := ht
      simp only [ExtendedDataMailboxMessage.Deserialize, WatchdogMessage.Deserialize,
        DataMailboxMessage.checkSerializedData, hr, Ptr.isNull, if_true, bind, Except.bind,
        Except.map]
      rfl

/-- C8 on freshly constructed messages, whose buffer is absent. -/
theorem C8_absent_buffer_is_fatal_witness :
    DataMailboxMessage.create.m_serialized = Ptr.null
      ∧ BasicDataMailboxMessage.create.m_serialized = Ptr.null
      ∧ (ExtendedDataMailboxMessage.watchdog WatchdogMessage.create).base.m_serialized = Ptr.null
      ∧ DataMailboxMessage.create.decodeMessageDataType []
          = .error (Fault.fatal "Cannot decode message datatype from null pointer!")
      ∧ BasicDataMailboxMessage.create.Deserialize []
          = .error (Fault.fatal "Cannot deserialize data from nullptr!")
      ∧ (ExtendedDataMailboxMessage.watchdog WatchdogMessage.create).Deserialize []
          = .error (Fault.fatal "Cannot deserialize data from nullptr!") :=
  ⟨rfl, rfl, rfl, C8_absent_buffer_is_fatal DataMailboxMessage.create BasicDataMailboxMessage.create
    (ExtendedDataMailboxMessage.watchdog WatchdogMessage.create) [] rfl rfl rfl⟩

/-! ## Unpack -/

/-- C9: for every typed message `t` and every envelope `e` whose frame `t`'s `Deserialize`
accepts, `t.Unpack(e)` returns; afterwards the envelope holds no buffer (null pointer, size 0),
`t` holds no raw buffer either (null, size 0), and the block that carried the frame, live before
the call, has been freed once while every other block is untouched. -/
theorem C9_unpack_leaves_no_owner (t t3 : ExtendedDataMailboxMessage)
    (e : BasicDataMailboxMessage) (h : Heap)
    (hacc : (t.withBase { t.base with m_sizeOfSerializedData := e.m_sizeOfSerializedData,
                                      m_serialized := e.m_serialized }).Deserialize h = .ok t3) :
    ∃ t1 e1 h1, t.Unpack e h = .ok (t1, e1, h1)
      ∧ e1.getRawDataPointer = Ptr.null ∧ e1.getRawDataSize = 0
      ∧ t1.base.m_serialized = Ptr.null ∧ t1.base.m_sizeOfSerializedData = 0
      ∧ ∃ id cells, e.getRawDataPointer = Ptr.block id ∧ h[id]? = some ⟨cells, true⟩
          ∧ h1 = h.set id ⟨cells, false⟩ := by
  obtain ⟨id, cells, hp, hg, hu⟩ := ExtendedDataMailboxMessage.Unpack_of_accept t t3 e h hacc
  have hz : toInt (0 : size_t).val = 0 := by decide
  refine ⟨_, _, _, hu, rfl, hz, ?_, ?_, id, cells, hp, hg, rfl⟩
  · rw [ExtendedDataMailboxMessage.base_withBase]
  · rw [ExtendedDataMailboxMessage.base_withBase]

/-- C9 on a concrete run: an `RFIDMessage` accepts the frame `[5, 65]`, and unpacking the envelope
that holds it leaves neither the envelope nor the message with a buffer and the block freed. -/
theorem C9_unpack_leaves_no_owner_witness :
    (ExtendedDataMailboxMessage.rfid
        ⟨⟨MessageDataType.RFIDMessage, Ptr.block 0, 2, MailboxReference.unspecified⟩,
          CppString.empty⟩).Deserialize [⟨[some 5, some 65], true⟩]
      = .ok (ExtendedDataMailboxMessage.rfid
          ⟨⟨MessageDataType.RFIDMessage, Ptr.block 0, 2, MailboxReference.unspecified⟩,
            ⟨[65], by decide⟩⟩)
    ∧ ∃ t1 e1 h1,
      (ExtendedDataMailboxMessage.rfid RFIDMessage.create).Unpack
          ⟨⟨MessageDataType.RFIDMessage, Ptr.block 0, 2, ⟨"peer"⟩⟩⟩ [⟨[some 5, some 65], true⟩]
        = .ok (t1, e1, h1)
      ∧ e1.getRawDataPointer = Ptr.null ∧ e1.getRawDataSize = 0
      ∧ t1.base.m_serialized = Ptr.null ∧ t1.base.m_sizeOfSerializedData = 0
      ∧ ∃ id cells,
          BasicDataMailboxMessage.getRawDataPointer
              ⟨⟨MessageDataType.RFIDMessage, Ptr.block 0, 2, ⟨"peer"⟩⟩⟩ = Ptr.block id
            ∧ ([⟨[some 5, some 65], true⟩] : Heap)[id]? = some ⟨cells, true⟩
            ∧ h1 = ([⟨[some 5, some 65], true⟩] : Heap).set id ⟨cells, false⟩ :=
  ⟨by decide,
    C9_unpack_leaves_no_owner (ExtendedDataMailboxMessage.rfid RFIDMessage.create)
      (ExtendedDataMailboxMessage.rfid
        ⟨⟨MessageDataType.RFIDMessage, Ptr.block 0, 2, MailboxReference.unspecified⟩,
          ⟨[65], by decide⟩⟩)
      ⟨⟨MessageDataType.RFIDMessage, Ptr.block 0, 2, ⟨"peer"⟩⟩⟩ [⟨[some 5, some 65], true⟩]
      (by decide)⟩

/-- C10: for every typed message `t` and every envelope `e`, `t.Unpack(e)` runs `t`'s
`Deserialize` on exactly the envelope's buffer and size: when that returns `t3`, `Unpack` returns
and leaves `t` with the tag and fields of `t3` and with the source `e` had before the call; when
it fails, `Unpack` fails in the same way. -/
theorem C10_unpack_is_deserialize_of_frame (t : ExtendedDataMailboxMessage)
    (e : BasicDataMailboxMessage) (h : Heap) :
    (∀ t3, (t.withBase { t.base with m_sizeOfSerializedData := e.m_sizeOfSerializedData,
                                     m_serialized := e.m_serialized }).Deserialize h = .ok t3 →
        ∃ t1 e1 h1, t.Unpack e h = .ok (t1, e1, h1)
          ∧ t1 = t3.withBase ⟨t3.base.m_dataType, Ptr.null, 0, e.getSource⟩
          ∧ t1.base.getSource = e.getSource)
      ∧ (∀ x, (t.withBase { t.base with m_sizeOfSerializedData := e.m_sizeOfSerializedData,
                                        m_serialized := e.m_serialized }).Deserialize h = .error x →
          t.Unpack e h = .error x) := by
  constructor
  · intro t3 hacc
    obtain ⟨id, cells, _, _, hu⟩ := ExtendedDataMailboxMessage.Unpack_of_accept t t3 e h hacc
    refine ⟨_, _, _, hu, rfl, ?_⟩
    rw [ExtendedDataMailboxMessage.base_withBase]
    rfl
  · intro x hx
    rw [ExtendedDataMailboxMessage.Unpack_eq, hx]

/-- C10 on a concrete run: a `KeypadMessage_wCommand` unpacks the envelope from `peer` holding
the frame `[4, 1, 97]` and ends with command `ADD_USER`, parameters `"a"` and source `peer`. -/
theorem C10_unpack_is_deserialize_of_frame_witness :
    ∃ e1 h1,
      (ExtendedDataMailboxMessage.keypadCommand KeypadMessage_wCommand.create).Unpack
          ⟨⟨MessageDataType.KeypadMessage_wCommand, Ptr.block 0, 3, ⟨"peer"⟩⟩⟩
          [⟨[some 4, some 1, some 97], true⟩]
        = .ok (ExtendedDataMailboxMessage.keypadCommand
                ⟨⟨MessageDataType.KeypadMessage_wCommand, Ptr.null, 0, ⟨"peer"⟩⟩,
                  KeypadCommand.ADD_USER, CppString.lit "a" (by decide)⟩, e1, h1) := by
  obtain ⟨t1, e1, h1, hu, ht, _⟩ :=
    (C10_unpack_is_deserialize_of_frame
      (ExtendedDataMailboxMessage.keypadCommand KeypadMessage_wCommand.create)
      ⟨⟨MessageDataType.KeypadMessage_wCommand, Ptr.block 0, 3, ⟨"peer"⟩⟩⟩
      [⟨[some 4, some 1, some 97], true⟩]).1
      (ExtendedDataMailboxMessage.keypadCommand
        ⟨⟨MessageDataType.KeypadMessage_wCommand, Ptr.block 0, 3, MailboxReference.unspecified⟩,
          KeypadCommand.ADD_USER, CppString.lit "a" (by decide)⟩)
      (by decide)
  subst ht
  exact ⟨e1, h1, hu⟩

/-! ## Lemmas on receiving, reallocation and sending -/

theorem decode_of_loadByte (m : DataMailboxMessage) (h : Heap) (b : Byte)
    (hb : h.loadByte m.m_serialized 0 = .ok b) (hv : b.val < 8) :
    m.decodeMessageDataType h = .ok { m with m_dataType := b } := by
  obtain ⟨id, blk, hd⟩ := loadByte_ok_deref hb
  have hn := isNull_of_deref_ok hd
  have hcount : charToInt MessageDataType.COUNT = 8 := by decide
  have hc : ¬ (charToInt b < 0 ∨ charToInt b ≥ charToInt MessageDataType.COUNT) := by
    rw [hcount]
    unfold charToInt
    split <;> omega
  simp only [DataMailboxMessage.decodeMessageDataType, hn, hb, if_neg hc]
  rfl

theorem loadByte_new1 (h : Heap) (c : Byte) :
    Heap.loadByte (h ++ [⟨[some c], true⟩]) (Ptr.block h.length) 0 = .ok c := by
  have hf : Heap.load (h ++ [⟨[some c], true⟩]) (Ptr.block h.length) 0 1 = .ok [c] := by
    have := frame_concat_written ⟨0, Ptr.block h.length, 1, MailboxReference.unspecified⟩ h [c]
      rfl rfl
    exact this
  obtain ⟨b, hb, hb1⟩ := loadByte_of_whole hf 0 (by decide) (by decide)
  have : b = c := by
    have h0 : ([c] : List Byte)[(0 : Int).toNat]? = some c := rfl
    rw [h0] at hb1
    exact (Option.some.inj hb1).symm
  rw [hb, this]

theorem receive_TIMED_OUT (NONBLOCKING : Nat) (rawMessage : SimpleMailboxMessage) (options : Nat)
    (h : Heap) (ht : rawMessage.m_header.m_type = enuMessageType.TIMED_OUT) :
    DataMailbox.receive NONBLOCKING rawMessage options h
      = .ok (⟨⟨MessageDataType.TimedOut, Ptr.block h.length, 1, MailboxReference.unspecified⟩⟩,
          h ++ [⟨[some MessageDataType.TimedOut], true⟩]) := by
  have hd := decode_of_loadByte
    (BasicDataMailboxMessage.create.setSerializedData (Ptr.block h.length) 1)
    (h ++ [⟨[some MessageDataType.TimedOut], true⟩]) MessageDataType.TimedOut
    (loadByte_new1 h MessageDataType.TimedOut) (by decide)
  simp only [DataMailbox.receive, ht, if_true, Heap.new1, hd, bind, Except.bind,
    BasicDataMailboxMessage.getInfo, pure, Except.pure]
  rfl

theorem receive_EMPTY_NONBLOCKING (NONBLOCKING : Nat) (rawMessage : SimpleMailboxMessage)
    (options : Nat) (h : Heap) (ht : rawMessage.m_header.m_type = enuMessageType.EMPTY)
    (hopt : Nat.land options NONBLOCKING ≠ 0) :
    DataMailbox.receive NONBLOCKING rawMessage options h
      = .ok (⟨⟨MessageDataType.EmptyQueue, Ptr.block h.length, 1, MailboxReference.unspecified⟩⟩,
          h ++ [⟨[some MessageDataType.EmptyQueue], true⟩]) := by
  have hd := decode_of_loadByte
    (BasicDataMailboxMessage.create.setSerializedData (Ptr.block h.length) 1)
    (h ++ [⟨[some MessageDataType.EmptyQueue], true⟩]) MessageDataType.EmptyQueue
    (loadByte_new1 h MessageDataType.EmptyQueue) (by decide)
  have hne : ¬ (enuMessageType.EMPTY = enuMessageType.TIMED_OUT) := by decide
  simp only [DataMailbox.receive, ht, hne, if_false, hopt, ne_eq, not_false_eq_true, and_self,
    if_true, Heap.new1, hd, bind, Except.bind, BasicDataMailboxMessage.getInfo, pure,
    Except.pure]
  rfl

theorem receive_frame (NONBLOCKING : Nat) (rawMessage : SimpleMailboxMessage)
    (options : Nat) (h : Heap) (b : Byte)
    (ht : ¬ rawMessage.m_header.m_type = enuMessageType.TIMED_OUT)
    (he : ¬ (rawMessage.m_header.m_type = enuMessageType.EMPTY
      ∧ Nat.land options NONBLOCKING ≠ 0))
    (hb : h.loadByte rawMessage.m_pData 0 = .ok b) (hv : b.val < 8) :
    DataMailbox.receive NONBLOCKING rawMessage options h
      = .ok (⟨⟨b, rawMessage.m_pData, rawMessage.m_header.m_payloadSize,
                ⟨rawMessage.m_sourceName⟩⟩⟩, h) := by
  have hd2 := decode_of_loadByte
    ⟨MessageDataType.NONE, rawMessage.m_pData, rawMessage.m_header.m_payloadSize,
      ⟨rawMessage.m_sourceName⟩⟩ h b hb hv
  simp only [DataMailbox.receive, ht, he, if_false, bind, Except.bind,
    BasicDataMailboxMessage.getInfo, pure, Except.pure, BasicDataMailboxMessage.setSource,
    BasicDataMailboxMessage.create, DataMailboxMessage.setSerializedData,
    DataMailboxMessage.create]
  rw [hd2]

/-- Freeing the buffer of a message that owns it, or has none, returns. -/
theorem delete_of_owns (m : DataMailboxMessage) (h : Heap) (ho : m.ownsBufferOrNone h = true) :
    ∃ h1, m.deleteSerializedData h = .ok (⟨m.m_dataType, Ptr.null, 0, m.m_source⟩, h1)
      ∧ ((m.m_serialized = Ptr.null ∧ h1 = h)
        ∨ ∃ id cells, m.m_serialized = Ptr.block id ∧ h[id]? = some ⟨cells, true⟩
            ∧ h1 = h.set id ⟨cells, false⟩) := by
  unfold DataMailboxMessage.ownsBufferOrNone at ho
  cases hp : m.m_serialized with
  | null =>
    refine ⟨h, ?_, Or.inl ⟨rfl, rfl⟩⟩
    simp only [DataMailboxMessage.deleteSerializedData, hp, Ptr.isNull, Bool.not_true]
    rfl
  | clobbered c =>
    rw [hp] at ho
    cases ho
  | block id =>
    rw [hp] at ho
    dsimp only at ho
    cases hg : h[id]? with
    | none => rw [hg] at ho; cases ho
    | some b =>
      rw [hg] at ho
      dsimp only at ho
      cases b with
      | mk cells live =>
        dsimp only at ho
        subst ho
        refine ⟨h.set id ⟨cells, false⟩, ?_, Or.inr ⟨id, cells, rfl, hg, rfl⟩⟩
        simp only [DataMailboxMessage.deleteSerializedData, hp, Ptr.isNull, Heap.delete, hg,
          Bool.not_false, if_true]

/-- Reallocation sees of the old buffer only that it has been freed. -/
theorem deleteAndReallocate_of_delete (m b : DataMailboxMessage) (h h1 : Heap) (size : size_t)
    (hd : m.deleteSerializedData h = .ok (b, h1)) (hb : b.m_serialized = Ptr.null) :
    m.deleteAndReallocateSerializedData size h = b.deleteAndReallocateSerializedData size h1 := by
  rw [deleteAndReallocate_null b size h1 hb]
  simp only [DataMailboxMessage.deleteAndReallocateSerializedData, hd, Heap.new]

theorem wPassword_Serialize_of_delete (m : KeypadMessage_wPassword) (b : DataMailboxMessage)
    (h h1 : Heap) (hd : m.deleteSerializedData h = .ok (b, h1)) (hb : b.m_serialized = Ptr.null) :
    m.Serialize h = ({ m with toDataMailboxMessage := b } : KeypadMessage_wPassword).Serialize h1 := by
  simp only [KeypadMessage_wPassword.Serialize, deleteAndReallocate_of_delete _ _ _ _ _ hd hb]

theorem wCommand_Serialize_of_delete (m : KeypadMessage_wCommand) (b : DataMailboxMessage)
    (h h1 : Heap) (hd : m.deleteSerializedData h = .ok (b, h1)) (hb : b.m_serialized = Ptr.null) :
    m.Serialize h = ({ m with toDataMailboxMessage := b } : KeypadMessage_wCommand).Serialize h1 := by
  simp only [KeypadMessage_wCommand.Serialize, deleteAndReallocate_of_delete _ _ _ _ _ hd hb]

theorem rfid_Serialize_of_delete (m : RFIDMessage) (b : DataMailboxMessage)
    (h h1 : Heap) (hd : m.deleteSerializedData h = .ok (b, h1)) (hb : b.m_serialized = Ptr.null) :
    m.Serialize h = ({ m with toDataMailboxMessage := b } : RFIDMessage).Serialize h1 := by
  simp only [RFIDMessage.Serialize, deleteAndReallocate_of_delete _ _ _ _ _ hd hb]

theorem stringMessage_Serialize_of_delete (m : StringMessage) (b : DataMailboxMessage)
    (h h1 : Heap) (hd : m.deleteSerializedData h = .ok (b, h1)) (hb : b.m_serialized = Ptr.null) :
    m.Serialize h = ({ m with toDataMailboxMessage := b } : StringMessage).Serialize h1 := by
  simp only [StringMessage.Serialize, deleteAndReallocate_of_delete _ _ _ _ _ hd hb]

theorem watchdog_Serialize_of_delete (m : WatchdogMessage) (b : DataMailboxMessage)
    (h h1 : Heap) (hd : m.deleteSerializedData h = .ok (b, h1)) (hb : b.m_serialized = Ptr.null) :
    m.Serialize h = ({ m with toDataMailboxMessage := b } : WatchdogMessage).Serialize h1 := by
  simp only [WatchdogMessage.Serialize, deleteAndReallocate_of_delete _ _ _ _ _ hd hb]

namespace ExtendedDataMailboxMessage

theorem wireLayout_length (t : ExtendedDataMailboxMessage) :
    t.wireLayout.length = t.headerSize + t.trailingField.length := by
  cases t <;>
    simp only [wireLayout, headerSize, trailingField, CppString.length, List.length_append,
      List.length_cons, List.length_nil, SlotSettings_bytes_length, unsigned_int_bytes_length]

theorem wireLayout_lt (t : ExtendedDataMailboxMessage) :
    t.headerSize + t.trailingField.length < 4294967296 := by
  have hb : t.trailingField.bytes.length ≤ 2147483647 := t.trailingField.bounded
  have hh : t.headerSize ≤ 15 := by cases t <;> simp [headerSize]
  show t.headerSize + t.trailingField.bytes.length < 4294967296
  omega

/-- The result of `Serialize` on a typed message that owns its buffer or has none: the old
buffer is freed and the frame of the layout table stands in a fresh block. -/
theorem typed_Serialize_owned (t : ExtendedDataMailboxMessage) (h : Heap)
    (ho : t.base.ownsBufferOrNone h = true) :
    ∃ h0, t.base.deleteSerializedData h
        = .ok (⟨t.base.m_dataType, Ptr.null, 0, t.base.m_source⟩, h0)
      ∧ t.Serialize h = .ok
          (t.withBase ⟨t.base.m_dataType, Ptr.block h0.length,
              size_t.wrap (t.headerSize + t.trailingField.length), t.base.m_source⟩,
            h0 ++ [⟨t.wireLayout.map some, true⟩]) := by
  obtain ⟨h0, hd, _⟩ := delete_of_owns t.base h ho
  refine ⟨h0, hd, ?_⟩
  cases t with
  | keypadPassword m =>
    have hd1 : m.deleteSerializedData h = .ok (⟨m.m_dataType, Ptr.null, 0, m.m_source⟩, h0) := hd
    have hf := wPassword_Serialize_fresh
      ({ m with toDataMailboxMessage := ⟨m.m_dataType, Ptr.null, 0, m.m_source⟩ } : KeypadMessage_wPassword)
      h0 rfl
    simp only [Serialize]
    rw [wPassword_Serialize_of_delete m _ h h0 hd1 rfl, hf]
    rfl
  | keypadCommand m =>
    have hd1 : m.deleteSerializedData h = .ok (⟨m.m_dataType, Ptr.null, 0, m.m_source⟩, h0) := hd
    have hf := wCommand_Serialize_fresh
      ({ m with toDataMailboxMessage := ⟨m.m_dataType, Ptr.null, 0, m.m_source⟩ } : KeypadMessage_wCommand)
      h0 rfl
    simp only [Serialize]
    rw [wCommand_Serialize_of_delete m _ h h0 hd1 rfl, hf]
    rfl
  | rfid m =>
    have hd1 : m.deleteSerializedData h = .ok (⟨m.m_dataType, Ptr.null, 0, m.m_source⟩, h0) := hd
    have hf := rfid_Serialize_fresh
      ({ m with toDataMailboxMessage := ⟨m.m_dataType, Ptr.null, 0, m.m_source⟩ } : RFIDMessage)
      h0 rfl
    simp only [Serialize]
    rw [rfid_Serialize_of_delete m _ h h0 hd1 rfl, hf]
    rfl
  | text m =>
    have hd1 : m.deleteSerializedData h = .ok (⟨m.m_dataType, Ptr.null, 0, m.m_source⟩, h0) := hd
    have hf := stringMessage_Serialize_fresh
      ({ m with toDataMailboxMessage := ⟨m.m_dataType, Ptr.null, 0, m.m_source⟩ } : StringMessage)
      h0 rfl
    simp only [Serialize]
    rw [stringMessage_Serialize_of_delete m _ h h0 hd1 rfl, hf]
    rfl
  | watchdog m =>
    have hd1 : m.deleteSerializedData h = .ok (⟨m.m_dataType, Ptr.null, 0, m.m_source⟩, h0) := hd
    have hf := watchdog_Serialize_fresh
      ({ m with toDataMailboxMessage := ⟨m.m_dataType, Ptr.null, 0, m.m_source⟩ } : WatchdogMessage)
      h0 rfl
    simp only [Serialize]
    rw [watchdog_Serialize_of_delete m _ h h0 hd1 rfl, hf]
    rfl

theorem typed_Serialize_owned_frame (t : ExtendedDataMailboxMessage) (h : Heap)
    (ho : t.base.ownsBufferOrNone h = true) :
    ∃ h0, t.base.deleteSerializedData h
        = .ok (⟨t.base.m_dataType, Ptr.null, 0, t.base.m_source⟩, h0)
      ∧ t.Serialize h = .ok
          (t.withBase ⟨t.base.m_dataType, Ptr.block h0.length,
              size_t.wrap (t.headerSize + t.trailingField.length), t.base.m_source⟩,
            h0 ++ [⟨t.wireLayout.map some, true⟩])
      ∧ DataMailboxMessage.frame ⟨t.base.m_dataType, Ptr.block h0.length,
              size_t.wrap (t.headerSize + t.trailingField.length), t.base.m_source⟩
          (h0 ++ [⟨t.wireLayout.map some, true⟩]) = .ok t.wireLayout := by
  obtain ⟨h0, hd, hs⟩ := typed_Serialize_owned t h ho
  refine ⟨h0, hd, hs, ?_⟩
  apply frame_concat_written _ _ _ _ rfl
  show (size_t.wrap (t.headerSize + t.trailingField.length)).val = _
  rw [wrap_val_of_lt (wireLayout_lt t), wireLayout_length]

end ExtendedDataMailboxMessage

theorem delete_concat_length (m : DataMailboxMessage) (h0 : Heap) (cells : List (Option Byte))
    (hp : m.m_serialized = Ptr.block h0.length) :
    m.deleteSerializedData (h0 ++ [⟨cells, true⟩])
      = .ok (⟨m.m_dataType, Ptr.null, 0, m.m_source⟩, h0 ++ [⟨cells, false⟩]) := by
  simp only [DataMailboxMessage.deleteSerializedData, hp, Ptr.isNull, Heap.delete,
    List.getElem?_concat_length, Bool.not_false, if_true, set_concat_length]

/-- What `send` does with a typed message that owns its buffer or has none and whose `getInfo`
returns: the transport is called once, with the pointer and size `Serialize` left in the message
and the heap holding the frame; when it returns, the buffer is freed. -/
theorem send_typed (tr : MailboxReference → Ptr → size_t → Heap → Except Fault Unit)
    (destination : MailboxReference) (t : ExtendedDataMailboxMessage) (h : Heap)
    (info : List Byte) (ho : t.base.ownsBufferOrNone h = true) (hi : t.getInfo = .ok info) :
    ∃ h0, t.Serialize h = .ok
          (t.withBase ⟨t.base.m_dataType, Ptr.block h0.length,
              size_t.wrap (t.headerSize + t.trailingField.length), t.base.m_source⟩,
            h0 ++ [⟨t.wireLayout.map some, true⟩])
      ∧ DataMailbox.send tr destination (AnyDataMailboxMessage.extended t) h
        = match tr destination (Ptr.block h0.length)
              (size_t.wrap (t.headerSize + t.trailingField.length))
              (h0 ++ [⟨t.wireLayout.map some, true⟩]) with
          | .error x => .error x
          | .ok _ => .ok (AnyDataMailboxMessage.extended
              (t.withBase ⟨t.base.m_dataType, Ptr.null, 0, t.base.m_source⟩),
              h0 ++ [⟨t.wireLayout.map some, false⟩]) := by
  obtain ⟨h0, _, hs⟩ := ExtendedDataMailboxMessage.typed_Serialize_owned t h ho
  refine ⟨h0, hs, ?_⟩
  have hd := delete_concat_length
    ⟨t.base.m_dataType, Ptr.block h0.length,
      size_t.wrap (t.headerSize + t.trailingField.length), t.base.m_source⟩
    h0 (t.wireLayout.map some) rfl
  simp only [DataMailbox.send, AnyDataMailboxMessage.getInfo, hi, AnyDataMailboxMessage.Serialize,
    hs, Except.map, bind, Except.bind, AnyDataMailboxMessage.base,
    ExtendedDataMailboxMessage.base_withBase, hd, pure, Except.pure,
    AnyDataMailboxMessage.withBase, ExtendedDataMailboxMessage.withBase_withBase]
  cases tr destination (Ptr.block h0.length)
    (size_t.wrap (t.headerSize + t.trailingField.length))
    (h0 ++ [⟨t.wireLayout.map some, true⟩]) with
  | error x => rfl
  | ok u => rfl

theorem send_eq_sendConnectionless
    (tr : MailboxReference → Ptr → size_t → Heap → Except Fault Unit)
    (destination : MailboxReference) (m : AnyDataMailboxMessage) (h : Heap) :
    DataMailbox.send tr destination m h = DataMailbox.sendConnectionless tr destination m h :=
  rfl

set_option maxRecDepth 100000 in
theorem getMessageClassName_isOk (c : MessageClass) :
    (WatchdogMessage.getMessageClassName c).isOk = decide (c.val < 14) := by
  revert c
  decide

set_option maxRecDepth 100000 in
theorem onFailureName_isOk (c : enuActionOnFailure) :
    (array_at ["RESET_ONLY", "KILL_ALL"] (charToInt c)).isOk = decide (c.val < 2) := by
  revert c
  decide

theorem watchdog_getInfo_isOk (m : WatchdogMessage) :
    m.getInfo.isOk = (decide (m.m_messageClass.val < 14) && decide (m.m_onFailure.val < 2)) := by
  have h1 := getMessageClassName_isOk m.m_messageClass
  have h2 := onFailureName_isOk m.m_onFailure
  unfold WatchdogMessage.getInfo
  simp only [bind, Except.bind, pure, Except.pure]
  cases hc : WatchdogMessage.getMessageClassName m.m_messageClass with
  | error x =>
    rw [hc] at h1
    simp only [Except.isOk, Except.toBool] at h1 ⊢
    rw [← h1]
    rfl
  | ok s =>
    rw [hc] at h1
    simp only [Except.isOk, Except.toBool] at h1
    cases ha : array_at ["RESET_ONLY", "KILL_ALL"] (charToInt m.m_onFailure) with
    | error x =>
      rw [ha] at h2
      simp only [Except.isOk, Except.toBool] at h2 ⊢
      rw [← h1, ← h2]
      rfl
    | ok s2 =>
      rw [ha] at h2
      simp only [Except.isOk, Except.toBool] at h2 ⊢
      rw [← h1, ← h2]
      rfl

/-- When `getInfo` returns: always, except for a `WatchdogMessage` whose message class or failure
action is not one of the named enumerators. -/
theorem typed_getInfo_isOk (t : ExtendedDataMailboxMessage) :
    t.getInfo.isOk =
      (match t with
        | .watchdog m => decide (m.m_messageClass.val < 14) && decide (m.m_onFailure.val < 2)
        | _ => true) := by
  cases t with
  | watchdog m => exact watchdog_getInfo_isOk m
  | keypadPassword m => rfl
  | keypadCommand m => rfl
  | rfid m => rfl
  | text m => rfl

theorem delete_error_of_not_owns (m : DataMailboxMessage) (h : Heap)
    (ho : m.ownsBufferOrNone h = false) : ∃ x, m.deleteSerializedData h = .error x := by
  unfold DataMailboxMessage.ownsBufferOrNone at ho
  cases hp : m.m_serialized with
  | null => rw [hp] at ho; cases ho
  | clobbered c =>
    refine ⟨Fault.invalidFree, ?_⟩
    simp only [DataMailboxMessage.deleteSerializedData, hp, Ptr.isNull, Heap.delete,
      Bool.not_false, if_true]
  | block id =>
    rw [hp] at ho
    dsimp only at ho
    refine ⟨Fault.invalidFree, ?_⟩
    cases hg : h[id]? with
    | none =>
      simp only [DataMailboxMessage.deleteSerializedData, hp, Ptr.isNull, Heap.delete, hg,
        Bool.not_false, if_true]
    | some b =>
      rw [hg] at ho
      dsimp only at ho
      simp only [DataMailboxMessage.deleteSerializedData, hp, Ptr.isNull, Heap.delete, hg, ho,
        Bool.not_false, if_true, Bool.false_eq_true, if_false]

theorem deleteAndReallocate_error (m : DataMailboxMessage) (h : Heap) (size : size_t)
    (x : Fault) (hd : m.deleteSerializedData h = .error x) :
    m.deleteAndReallocateSerializedData size h = .error x := by
  simp only [DataMailboxMessage.deleteAndReallocateSerializedData, hd]

/-- If `Serialize` returns, the message owned its buffer or had none. -/
theorem typed_Serialize_ok_owns (t : ExtendedDataMailboxMessage) (h : Heap)
    (r : ExtendedDataMailboxMessage × Heap) (hs : t.Serialize h = .ok r) :
    t.base.ownsBufferOrNone h = true := by
  cases ho : t.base.ownsBufferOrNone h with
  | true => rfl
  | false =>
    obtain ⟨x, hx⟩ := delete_error_of_not_owns t.base h ho
    cases t with
    | keypadPassword m =>
      have hx1 : m.deleteSerializedData h = .error x := hx
      simp only [ExtendedDataMailboxMessage.Serialize, KeypadMessage_wPassword.Serialize,
        deleteAndReallocate_error _ _ _ _ hx1, bind, Except.bind, Except.map] at hs
      cases hs
    | keypadCommand m =>
      have hx1 : m.deleteSerializedData h = .error x := hx
      simp only [ExtendedDataMailboxMessage.Serialize, KeypadMessage_wCommand.Serialize,
        deleteAndReallocate_error _ _ _ _ hx1, bind, Except.bind, Except.map] at hs
      cases hs
    | rfid m =>
      have hx1 : m.deleteSerializedData h = .error x := hx
      simp only [ExtendedDataMailboxMessage.Serialize, RFIDMessage.Serialize,
        deleteAndReallocate_error _ _ _ _ hx1, bind, Except.bind, Except.map] at hs
      cases hs
    | text m =>
      have hx1 : m.deleteSerializedData h = .error x := hx
      simp only [ExtendedDataMailboxMessage.Serialize, StringMessage.Serialize,
        deleteAndReallocate_error _ _ _ _ hx1, bind, Except.bind, Except.map] at hs
      cases hs
    | watchdog m =>
      have hx1 : m.deleteSerializedData h = .error x := hx
      simp only [ExtendedDataMailboxMessage.Serialize, WatchdogMessage.Serialize,
        deleteAndReallocate_error _ _ _ _ hx1, bind, Except.bind, Except.map] at hs
      cases hs

/-! ## Receiving -/

/-- C11: whenever the transport reports `TIMED_OUT`, for every option value, `receive` returns
an envelope whose tag is `TimedOut` and whose buffer is exactly the one-byte frame `[2]`. -/
theorem C11_receive_timed_out (NONBLOCKING : Nat) (rawMessage : SimpleMailboxMessage)
    (options : Nat) (h : Heap)
    (ht : rawMessage.m_header.m_type = enuMessageType.TIMED_OUT) :
    ∃ e h1, DataMailbox.receive NONBLOCKING rawMessage options h = .ok (e, h1)
      ∧ e.getDataType = MessageDataType.TimedOut
      ∧ e.m_sizeOfSerializedData = 1
      ∧ e.frame h1 = .ok [2] := by
  refine ⟨_, _, receive_TIMED_OUT NONBLOCKING rawMessage options h ht, rfl, rfl, ?_⟩
  exact frame_concat_written _ h [2] rfl rfl

/-- C11 on a concrete run: a timed-out transport report on an empty heap, blocking options. -/
theorem C11_receive_timed_out_witness :
    (⟨⟨enuMessageType.TIMED_OUT, 0⟩, Ptr.null, ""⟩ : SimpleMailboxMessage).m_header.m_type
        = enuMessageType.TIMED_OUT
      ∧ ∃ e h1, DataMailbox.receive 1 ⟨⟨enuMessageType.TIMED_OUT, 0⟩, Ptr.null, ""⟩ 0 []
            = .ok (e, h1)
          ∧ e.getDataType = MessageDataType.TimedOut
          ∧ e.m_sizeOfSerializedData = 1
          ∧ e.frame h1 = .ok [2] :=
  ⟨rfl, C11_receive_timed_out 1 ⟨⟨enuMessageType.TIMED_OUT, 0⟩, Ptr.null, ""⟩ 0 [] rfl⟩

/-- C12: whenever the transport reports `EMPTY` and the options include the `NONBLOCKING` bit,
`receive` returns an envelope whose tag is `EmptyQueue` and whose buffer is exactly the one-byte
frame `[1]`. -/
theorem C12_receive_empty_nonblocking (NONBLOCKING : Nat) (rawMessage : SimpleMailboxMessage)
    (options : Nat) (h : Heap)
    (ht : rawMessage.m_header.m_type = enuMessageType.EMPTY)
    (hopt : Nat.land options NONBLOCKING ≠ 0) :
    ∃ e h1, DataMailbox.receive NONBLOCKING rawMessage options h = .ok (e, h1)
      ∧ e.getDataType = MessageDataType.EmptyQueue
      ∧ e.m_sizeOfSerializedData = 1
      ∧ e.frame h1 = .ok [1] := by
  refine ⟨_, _, receive_EMPTY_NONBLOCKING NONBLOCKING rawMessage options h ht hopt, rfl, rfl, ?_⟩
  exact frame_concat_written _ h [1] rfl rfl

/-- C12 on a concrete run: an empty queue polled with the `NONBLOCKING` bit set. -/
theorem C12_receive_empty_nonblocking_witness :
    (⟨⟨enuMessageType.EMPTY, 0⟩, Ptr.null, ""⟩ : SimpleMailboxMessage).m_header.m_type
        = enuMessageType.EMPTY
      ∧ Nat.land 1 1 ≠ 0
      ∧ ∃ e h1, DataMailbox.receive 1 ⟨⟨enuMessageType.EMPTY, 0⟩, Ptr.null, ""⟩ 1 []
            = .ok (e, h1)
          ∧ e.getDataType = MessageDataType.EmptyQueue
          ∧ e.m_sizeOfSerializedData = 1
          ∧ e.frame h1 = .ok [1] :=
  ⟨rfl, by decide,
    C12_receive_empty_nonblocking 1 ⟨⟨enuMessageType.EMPTY, 0⟩, Ptr.null, ""⟩ 1 [] rfl
      (by decide)⟩

/-- C13: whenever the transport delivers a real frame (its report is neither `TIMED_OUT` nor
`EMPTY`) of payload bytes `f`, payload size `n` and sender name `s`, with `f[0]` a valid tag
code, `receive` returns an envelope whose buffer is `f` with size `n`, whose source is
`MailboxReference(s)` and whose tag is the code `f[0]`. -/
theorem C13_receive_real_frame (NONBLOCKING : Nat) (rawMessage : SimpleMailboxMessage)
    (options : Nat) (h : Heap) (f : List Byte) (b : Byte)
    (ht : rawMessage.m_header.m_type ≠ enuMessageType.TIMED_OUT)
    (he : rawMessage.m_header.m_type ≠ enuMessageType.EMPTY)
    (hf : h.load rawMessage.m_pData 0 rawMessage.m_header.m_payloadSize.val = .ok f)
    (hb : f[0]? = some b) (hv : b.val < 8) :
    ∃ e, DataMailbox.receive NONBLOCKING rawMessage options h = .ok (e, h)
      ∧ e.getRawDataPointer = rawMessage.m_pData
      ∧ e.m_sizeOfSerializedData = rawMessage.m_header.m_payloadSize
      ∧ e.frame h = .ok f
      ∧ e.getSource = ⟨rawMessage.m_sourceName⟩
      ∧ e.getDataType = b := by
  obtain ⟨_, _, _, _, _, hl⟩ := load_whole hf
  have hlen : 0 < f.length := by
    cases f with
    | nil => cases hb
    | cons a t => simp
  obtain ⟨c, hc, hc1⟩ := loadByte_of_whole hf 0 (by decide) (by simp; omega)
  have hcb : c = b := by
    have h0 : f[(0 : Int).toNat]? = f[0]? := rfl
    rw [h0, hb] at hc1
    exact (Option.some.inj hc1).symm
  subst hcb
  refine ⟨_, receive_frame NONBLOCKING rawMessage options h c ht (fun hh => he hh.1) hc hv,
    rfl, rfl, hf, rfl, rfl⟩

/-- C13 on a concrete run: the three-byte frame `[5, 1, 2]` from sender `peer`. -/
theorem C13_receive_real_frame_witness :
    ∃ e, DataMailbox.receive 1 ⟨⟨enuMessageType.other 0, 3⟩, Ptr.block 0, "peer"⟩ 0
          [⟨[some 5, some 1, some 2], true⟩] = .ok (e, [⟨[some 5, some 1, some 2], true⟩])
      ∧ e.getRawDataPointer = Ptr.block 0
      ∧ e.m_sizeOfSerializedData = 3
      ∧ e.frame [⟨[some 5, some 1, some 2], true⟩] = .ok [5, 1, 2]
      ∧ e.getSource = ⟨"peer"⟩
      ∧ e.getDataType = MessageDataType.RFIDMessage :=
  C13_receive_real_frame 1 ⟨⟨enuMessageType.other 0, 3⟩, Ptr.block 0, "peer"⟩ 0
    [⟨[some 5, some 1, some 2], true⟩] [5, 1, 2] 5 (by decide) (by decide) (by decide)
    (by decide) (by decide)

/-! ## Sending and the request timeout -/

/-- C14 (as stated, at a concrete message): for the `WatchdogMessage` named `w` with message
class code 14, `Serialize` alone returns, yet `send` and `sendConnectionless` both end in
`std::out_of_range`, thrown by `getInfo` before anything is serialized, whatever the transport
would do: the transport is handed nothing. -/
theorem C14_send_stops_in_getInfo :
    ((AnyDataMailboxMessage.extended (ExtendedDataMailboxMessage.watchdog
        (WatchdogMessage.createNamed (CppString.lit "w" (by decide)) 14))).Serialize []).isOk
        = true
      ∧ DataMailbox.send (fun _ _ _ _ => .ok ()) ⟨"dest"⟩
          (AnyDataMailboxMessage.extended (ExtendedDataMailboxMessage.watchdog
            (WatchdogMessage.createNamed (CppString.lit "w" (by decide)) 14))) []
        = .error Fault.outOfRange
      ∧ DataMailbox.send (fun _ _ _ _ => .error Fault.useAfterFree) ⟨"dest"⟩
          (AnyDataMailboxMessage.extended (ExtendedDataMailboxMessage.watchdog
            (WatchdogMessage.createNamed (CppString.lit "w" (by decide)) 14))) []
        = .error Fault.outOfRange
      ∧ DataMailbox.sendConnectionless (fun _ _ _ _ => .ok ()) ⟨"dest"⟩
          (AnyDataMailboxMessage.extended (ExtendedDataMailboxMessage.watchdog
            (WatchdogMessage.createNamed (CppString.lit "w" (by decide)) 14))) []
        = .error Fault.outOfRange := by
  exact ⟨by decide, by decide, by decide, by decide⟩

/-- C14 (amended): for every typed message `t` that owns its buffer or has none and whose
`getInfo()` returns (it does unless `t` is a `WatchdogMessage` whose class or failure action is
no named enumerator), `send` and `sendConnectionless` call the transport exactly once, with the
pointer and size that `t.Serialize()` leaves in `t`, the frame of `t`'s current fields standing
there; they differ only in the transport operation called; a failure of the transport is the
failure of the call, and when the transport returns the call returns with the frame's block freed
and `t` holding no buffer (null, size 0), tag, source and fields unchanged. -/
theorem C14_send_hands_serialized_frame
    (tr trc : MailboxReference → Ptr → size_t → Heap → Except Fault Unit)
    (destination : MailboxReference) (t : ExtendedDataMailboxMessage) (h : Heap)
    (ho : t.base.ownsBufferOrNone h = true) (hi : t.getInfo.isOk = true) :
    ∃ t1 h1 h2, t.Serialize h = .ok (t1, h1)
      ∧ t1.base.frame h1 = .ok t.wireLayout
      ∧ (∃ id cells, t1.base.m_serialized = Ptr.block id ∧ h1[id]? = some ⟨cells, true⟩
          ∧ h2 = h1.set id ⟨cells, false⟩)
      ∧ DataMailbox.send tr destination (AnyDataMailboxMessage.extended t) h
          = (match tr destination t1.base.m_serialized t1.base.m_sizeOfSerializedData h1 with
            | .error x => .error x
            | .ok _ => .ok (AnyDataMailboxMessage.extended
                (t.withBase ⟨t.base.m_dataType, Ptr.null, 0, t.base.m_source⟩), h2))
      ∧ DataMailbox.sendConnectionless trc destination (AnyDataMailboxMessage.extended t) h
          = (match trc destination t1.base.m_serialized t1.base.m_sizeOfSerializedData h1 with
            | .error x => .error x
            | .ok _ => .ok (AnyDataMailboxMessage.extended
                (t.withBase ⟨t.base.m_dataType, Ptr.null, 0, t.base.m_source⟩), h2))
      ∧ ∀ u : ExtendedDataMailboxMessage, u.getInfo.isOk =
          (match u with
            | .watchdog m => decide (m.m_messageClass.val < 14) && decide (m.m_onFailure.val < 2)
            | _ => true) := by
  have hex : ∃ info, t.getInfo = .ok info := by
    cases hg : t.getInfo with
    | error x => rw [hg] at hi; cases hi
    | ok info => exact ⟨info, rfl⟩
  obtain ⟨info, hg⟩ := hex
  obtain ⟨h0, hs, hsend⟩ := send_typed tr destination t h info ho hg
  obtain ⟨h0c, hsc, hsendc⟩ := send_typed trc destination t h info ho hg
  have hh : h0c = h0 := by
    rw [hs] at hsc
    have := congrArg (fun r => r.map fun p => p.1.base.m_serialized) hsc
    simp only [Except.map, ExtendedDataMailboxMessage.base_withBase, Except.ok.injEq,
      Ptr.block.injEq] at this
    have h2 := congrArg (fun r => r.map fun p => p.2.dropLast) hsc
    simp only [Except.map, Except.ok.injEq, List.dropLast_concat] at h2
    exact h2.symm
  subst hh
  obtain ⟨_, _, _, hfr⟩ := ExtendedDataMailboxMessage.typed_Serialize_owned_frame t h ho
  refine ⟨_, _, h0c ++ [⟨t.wireLayout.map some, false⟩], hs, ?_,
    ⟨h0c.length, t.wireLayout.map some, ?_, ?_, ?_⟩, ?_, ?_, ?_⟩
  · rw [ExtendedDataMailboxMessage.base_withBase]
    exact frame_concat_written _ _ _ (by
      show (size_t.wrap (t.headerSize + t.trailingField.length)).val = _
      rw [wrap_val_of_lt (ExtendedDataMailboxMessage.wireLayout_lt t),
        ExtendedDataMailboxMessage.wireLayout_length]) rfl
  · rw [ExtendedDataMailboxMessage.base_withBase]
  · exact List.getElem?_concat_length _ _
  · exact (set_concat_length _ _ _).symm
  · rw [ExtendedDataMailboxMessage.base_withBase]
    exact hsend
  · rw [ExtendedDataMailboxMessage.base_withBase, ← send_eq_sendConnectionless]
    exact hsendc
  · exact typed_getInfo_isOk

/-- C14 (amended) on a concrete run: `KeypadMessage_wPassword("p")` sent on an empty heap through
a transport that returns. -/
theorem C14_send_hands_serialized_frame_witness :
    (ExtendedDataMailboxMessage.keypadPassword
        (KeypadMessage_wPassword.createWith (CppString.lit "p" (by decide)))).getInfo.isOk = true
      ∧ ∃ h2, DataMailbox.send (fun _ _ _ _ => .ok ()) ⟨"dest"⟩
          (AnyDataMailboxMessage.extended (ExtendedDataMailboxMessage.keypadPassword
            (KeypadMessage_wPassword.createWith (CppString.lit "p" (by decide))))) []
        = .ok (AnyDataMailboxMessage.extended (ExtendedDataMailboxMessage.keypadPassword
            (KeypadMessage_wPassword.createWith (CppString.lit "p" (by decide)))), h2) := by
  obtain ⟨t1, h1, h2, _, _, _, hsend, _⟩ := C14_send_hands_serialized_frame
    (fun _ _ _ _ => .ok ()) (fun _ _ _ _ => .ok ()) ⟨"dest"⟩
    (ExtendedDataMailboxMessage.keypadPassword
      (KeypadMessage_wPassword.createWith (CppString.lit "p" (by decide)))) [] rfl rfl
  exact ⟨rfl, h2, hsend⟩

/-- C15: for every mailbox state and every argument, `setRTO_s` and `setRTO_ns` return the
`timespec` that `getTimeout_settings()` gave immediately before the call, and passing the returned
value to `setTimeout_settings` afterwards brings back the earlier setting. -/
theorem C15_setRTO_returns_previous (rto_s rto_ns : timespec → Int → timespec) (d : DataMailbox)
    (RTOs RTOns : Int) :
    (d.setRTO_s rto_s RTOs).1 = d.getTimeout_settings
      ∧ (d.setRTO_ns rto_ns RTOns).1 = d.getTimeout_settings
      ∧ ((d.setRTO_s rto_s RTOs).2.setTimeout_settings
            (d.setRTO_s rto_s RTOs).1).getTimeout_settings = d.getTimeout_settings
      ∧ ((d.setRTO_ns rto_ns RTOns).2.setTimeout_settings
            (d.setRTO_ns rto_ns RTOns).1).getTimeout_settings = d.getTimeout_settings
      ∧ (d.setRTO_s rto_s RTOs).2.setTimeout_settings (d.setRTO_s rto_s RTOs).1 = d
      ∧ (d.setRTO_ns rto_ns RTOns).2.setTimeout_settings (d.setRTO_ns rto_ns RTOns).1 = d :=
  ⟨rfl, rfl, rfl, rfl, rfl, rfl⟩

/-! ## Names, layout and trailing fields -/

/-- C16 (the code on the eight codes): `getDataTypeName` returns `"NONETimedOut"` for `NONE`,
`"KeypadMessage_wPassword"` for `TimedOut`, each later name for the code before it, and the empty
string for `WatchdogMessage`; only `EmptyQueue` gets its own name. -/
theorem C16_getDataTypeName_table :
    getDataTypeName MessageDataType.NONE = .ok "NONETimedOut"
      ∧ getDataTypeName MessageDataType.EmptyQueue = .ok "EmptyQueue"
      ∧ getDataTypeName MessageDataType.TimedOut = .ok "KeypadMessage_wPassword"
      ∧ getDataTypeName MessageDataType.KeypadMessage_wPassword = .ok "KeypadMessage_wCommand"
      ∧ getDataTypeName MessageDataType.KeypadMessage_wCommand = .ok "RFIDMessage"
      ∧ getDataTypeName MessageDataType.RFIDMessage = .ok "StringMessage"
      ∧ getDataTypeName MessageDataType.StringMessage = .ok "WatchdogMessage"
      ∧ getDataTypeName MessageDataType.WatchdogMessage = .ok "" := by
  decide

/-- C17 (as stated, at a concrete message): a `KeypadMessage_wPassword` that has unpacked the
envelope holding the frame `[5, 97]` has the password `"a"` and the tag 5 its `Deserialize` took
from the frame; `Serialize` on it returns and leaves the frame `[5, 97]`, which is not
`[3] ++ password`. -/
theorem C17_serialize_writes_current_tag :
    (ExtendedDataMailboxMessage.keypadPassword KeypadMessage_wPassword.create).Unpack
        ⟨⟨MessageDataType.RFIDMessage, Ptr.block 0, 2, ⟨"peer"⟩⟩⟩ [⟨[some 5, some 97], true⟩]
      = .ok (ExtendedDataMailboxMessage.keypadPassword
              ⟨⟨5, Ptr.null, 0, ⟨"peer"⟩⟩, CppString.lit "a" (by decide)⟩,
            ⟨⟨MessageDataType.RFIDMessage, Ptr.null, 0, ⟨"peer"⟩⟩⟩,
            [⟨[some 5, some 97], false⟩])
      ∧ (ExtendedDataMailboxMessage.keypadPassword
            ⟨⟨5, Ptr.null, 0, ⟨"peer"⟩⟩, CppString.lit "a" (by decide)⟩).Serialize
          [⟨[some 5, some 97], false⟩]
        = .ok (ExtendedDataMailboxMessage.keypadPassword
              ⟨⟨5, Ptr.block 1, 2, ⟨"peer"⟩⟩, CppString.lit "a" (by decide)⟩,
            [⟨[some 5, some 97], false⟩, ⟨[some 5, some 97], true⟩])
      ∧ DataMailboxMessage.frame ⟨5, Ptr.block 1, 2, ⟨"peer"⟩⟩
          [⟨[some 5, some 97], false⟩, ⟨[some 5, some 97], true⟩] = .ok [5, 97]
      ∧ ([5, 97] : List Byte) ≠ [3] ++ (CppString.lit "a" (by decide)).bytes := by
  decide

/-- C17 (amended): whenever `Serialize` on a typed message returns, the frame it leaves is the
layout of the specification's table with the tag the message holds at that moment: the byte
`m_dataType`, the fixed-size fields in order, the bytes of the trailing field, nothing in
between, and the frame size is the fixed header size plus the length of the trailing field;
`Serialize` returns for every typed message that owns its buffer or has none. For an object as
its constructor made it the tag byte is 3, 4, 5, 6 or 7 by class. -/
theorem C17_serialize_follows_layout :
    (∀ (t t1 : ExtendedDataMailboxMessage) (h h1 : Heap), t.Serialize h = .ok (t1, h1) →
        t1.base.frame h1 = .ok t.wireLayout
          ∧ t1.base.m_sizeOfSerializedData.val = t.headerSize + t.trailingField.length)
    ∧ (∀ (t : ExtendedDataMailboxMessage) (h : Heap), t.base.ownsBufferOrNone h = true →
        ∃ t1 h1, t.Serialize h = .ok (t1, h1))
    ∧ (∀ k : ConstructorCall, k.object.wireLayout =
        (match k.object with
          | .keypadPassword m => [3] ++ m.m_password.bytes
          | .keypadCommand m => [4, m.m_command] ++ m.m_parameters.bytes
          | .rfid m => [5] ++ m.m_uuid.bytes
          | .text m => [6] ++ m.m_message.bytes
          | .watchdog m =>
            [7, m.m_messageClass] ++ m.m_settings.bytes ++ m.m_PID.bytes ++ [m.m_onFailure]
              ++ m.m_name.bytes)) := by
  refine ⟨?_, ?_, ?_⟩
  · intro t t1 h h1 hr
    have ho := typed_Serialize_ok_owns t h _ hr
    obtain ⟨h0, _, hs, hf⟩ := ExtendedDataMailboxMessage.typed_Serialize_owned_frame t h ho
    rw [hs] at hr
    have h1e := congrArg (fun r => r.map Prod.fst) hr
    have h2e := congrArg (fun r => r.map Prod.snd) hr
    simp only [Except.map, Except.ok.injEq] at h1e h2e
    subst h1e
    subst h2e
    constructor
    · rw [ExtendedDataMailboxMessage.base_withBase]
      exact hf
    · rw [ExtendedDataMailboxMessage.base_withBase]
      exact wrap_val_of_lt (ExtendedDataMailboxMessage.wireLayout_lt t)
  · intro t h ho
    obtain ⟨h0, _, hs⟩ := ExtendedDataMailboxMessage.typed_Serialize_owned t h ho
    exact ⟨_, _, hs⟩
  · intro k
    cases k <;> rfl

/-- C17 (amended) on a concrete run: `KeypadMessage_wCommand(ADD_USER, "a")` serializes to
`[4, 1, 97]`. -/
theorem C17_serialize_follows_layout_witness :
    ∃ t1 h1,
      (ExtendedDataMailboxMessage.keypadCommand (KeypadMessage_wCommand.createWith
          KeypadCommand.ADD_USER (CppString.lit "a" (by decide)))).Serialize [] = .ok (t1, h1)
      ∧ t1.base.frame h1 = .ok [4, 1, 97]
      ∧ t1.base.m_sizeOfSerializedData.val = 2 + 1 := by
  obtain ⟨t1, h1, hs⟩ := C17_serialize_follows_layout.2.1
    (ExtendedDataMailboxMessage.keypadCommand (KeypadMessage_wCommand.createWith
      KeypadCommand.ADD_USER (CppString.lit "a" (by decide)))) [] rfl
  exact ⟨t1, h1, hs, C17_serialize_follows_layout.1 _ _ _ _ hs⟩

/-- On the 32-bit embedding, for `KeypadMessage_wPassword`, `KeypadMessage_wCommand`,
`RFIDMessage` and `WatchdogMessage`, for every present frame `f` at least as long as the fixed
header of the class (1, 2, 1 and 15 bytes) whose suffix after the header is shorter than 2^31
bytes, `Deserialize` returns and sets the trailing field to exactly that suffix, of length
`n - header`, whatever bytes it holds. -/
theorem trailing_field_is_suffix_below_2GiB (h : Heap) (f : List Byte) :
    (∀ r : KeypadMessage_wPassword, r.frame h = .ok f → 1 ≤ f.length →
        f.length - 1 ≤ String_max_size →
        ∃ r1, r.Deserialize h = .ok r1 ∧ r1.m_password.bytes = f.drop 1
          ∧ r1.m_password.length = f.length - 1)
      ∧ (∀ r : KeypadMessage_wCommand, r.frame h = .ok f → 2 ≤ f.length →
        f.length - 2 ≤ String_max_size →
        ∃ r1, r.Deserialize h = .ok r1 ∧ r1.m_parameters.bytes = f.drop 2
          ∧ r1.m_parameters.length = f.length - 2)
      ∧ (∀ r : RFIDMessage, r.frame h = .ok f → 1 ≤ f.length →
        f.length - 1 ≤ String_max_size →
        ∃ r1, r.Deserialize h = .ok r1 ∧ r1.m_uuid.bytes = f.drop 1
          ∧ r1.m_uuid.length = f.length - 1)
      ∧ (∀ r : WatchdogMessage, r.frame h = .ok f → 15 ≤ f.length →
        f.length - 15 ≤ String_max_size →
        ∃ r1, r.Deserialize h = .ok r1 ∧ r1.m_name.bytes = f.drop 15
          ∧ r1.m_name.length = f.length - 15) := by
  refine ⟨?_, ?_, ?_, ?_⟩
  · intro r hf h1 hmax
    have hm : f.length - 1 ≤ 2147483647 := hmax
    obtain ⟨r1, hd, _, hp, _⟩ := wPassword_Deserialize_frame r h f hf h1
      (by show _ ≤ 2147483647 + 1; omega)
    refine ⟨r1, hd, hp, ?_⟩
    show r1.m_password.bytes.length = _
    rw [hp, List.length_drop]
  · intro r hf h1 hmax
    have hm : f.length - 2 ≤ 2147483647 := hmax
    obtain ⟨r1, hd, _, hp, _⟩ := wCommand_Deserialize_frame r h f hf h1
      (by show _ ≤ 2147483647 + 2; omega)
    refine ⟨r1, hd, hp, ?_⟩
    show r1.m_parameters.bytes.length = _
    rw [hp, List.length_drop]
  · intro r hf h1 hmax
    have hm : f.length - 1 ≤ 2147483647 := hmax
    obtain ⟨r1, hd, hp, _⟩ := rfid_Deserialize_frame r h f hf h1
      (by show _ ≤ 2147483647 + 1; omega)
    refine ⟨r1, hd, hp, ?_⟩
    show r1.m_uuid.bytes.length = _
    rw [hp, List.length_drop]
  · intro r hf h1 hmax
    have hm : f.length - 15 ≤ 2147483647 := hmax
    obtain ⟨r1, hd, _, _, _, _, _, hp, _⟩ := watchdog_Deserialize_frame r h f hf h1
      (by show _ ≤ 2147483647 + 15; omega)
    refine ⟨r1, hd, hp, ?_⟩
    show r1.m_name.bytes.length = _
    rw [hp, List.length_drop]

/-! ## Lemmas on the LP64 decoders -/

namespace LP64

end LP64

/-- C19: for every envelope, `releaseRawDataOwnership()` leaves a null pointer and size 0 and
keeps tag and source; a message constructed from a tag alone, and every typed object as its
constructor made it, starts with a null pointer and size 0; `deleteSerializedData` on a released
or freshly constructed message returns with the message and the whole heap as they were. -/
theorem C19_release_and_fresh_free_nothing (e : BasicDataMailboxMessage) (d : MessageDataType)
    (s : MailboxReference) (k : ConstructorCall) (h : Heap) :
    e.releaseRawDataOwnership.getRawDataPointer = Ptr.null
      ∧ e.releaseRawDataOwnership.m_sizeOfSerializedData = 0
      ∧ e.releaseRawDataOwnership.getRawDataSize = 0
      ∧ e.releaseRawDataOwnership.getDataType = e.getDataType
      ∧ e.releaseRawDataOwnership.getSource = e.getSource
      ∧ (DataMailboxMessage.ofType d).m_serialized = Ptr.null
      ∧ (DataMailboxMessage.ofType d).m_sizeOfSerializedData = 0
      ∧ (BasicDataMailboxMessage.createWith d s).m_serialized = Ptr.null
      ∧ (BasicDataMailboxMessage.createWith d s).m_sizeOfSerializedData = 0
      ∧ k.object.base.m_serialized = Ptr.null
      ∧ k.object.base.m_sizeOfSerializedData = 0
      ∧ e.releaseRawDataOwnership.deleteSerializedData h
          = .ok (e.releaseRawDataOwnership.toDataMailboxMessage, h)
      ∧ (DataMailboxMessage.ofType d).deleteSerializedData h
          = .ok (DataMailboxMessage.ofType d, h)
      ∧ (BasicDataMailboxMessage.createWith d s).deleteSerializedData h
          = .ok ((BasicDataMailboxMessage.createWith d s).toDataMailboxMessage, h)
      ∧ k.object.base.deleteSerializedData h = .ok (k.object.base, h) := by
  have hz : toInt (0 : size_t).val = 0 := by decide
  refine ⟨rfl, rfl, hz, rfl, rfl, rfl, rfl, rfl, rfl, ?_, ?_, rfl, rfl, rfl, ?_⟩
  · cases k <;> rfl
  · cases k <;> rfl
  · cases k <;> rfl

/-- C20 (the code at the failing input): `WatchdogMessage(KICK)` has `getMessageClass()` equal
to `NONE`, while `WatchdogMessage("", KICK)` has `KICK`; the two objects differ in the class
only. -/
theorem C20_one_argument_constructor_drops_class :
    (WatchdogMessage.createOfClass MessageClass.KICK).getMessageClass = MessageClass.NONE
      ∧ (WatchdogMessage.createOfClass MessageClass.KICK).getMessageClass ≠ MessageClass.KICK
      ∧ (WatchdogMessage.createNamed CppString.empty MessageClass.KICK).getMessageClass
          = MessageClass.KICK
      ∧ WatchdogMessage.createOfClass MessageClass.KICK
          = { WatchdogMessage.createNamed CppString.empty MessageClass.KICK with
              m_messageClass := MessageClass.NONE } := by
  decide

/-! ## Lemmas on the tag after decoding and on short frames -/

theorem wPassword_Deserialize_tag {r r1 : KeypadMessage_wPassword} {h : Heap}
    (hr : r.Deserialize h = .ok r1) : h.loadByte r.m_serialized 0 = .ok r1.m_dataType := by
  simp only [KeypadMessage_wPassword.Deserialize, bind, Except.bind, pure, Except.pure] at hr
  split at hr
  · cases hr
  · split at hr
    · cases hr
    · rename_i d hd
      split at hr
      · cases hr
      · cases hr
        exact hd

theorem watchdog_Deserialize_tag {r r1 : WatchdogMessage} {h : Heap}
    (hr : r.Deserialize h = .ok r1) : h.loadByte r.m_serialized 0 = .ok r1.m_dataType := by
  simp only [WatchdogMessage.Deserialize, bind, Except.bind, pure, Except.pure] at hr
  split at hr
  · cases hr
  · split at hr
    · cases hr
    · rename_i d hd
      split at hr
      · cases hr
      · split at hr
        · cases hr
        · split at hr
          · cases hr
          · split at hr
            · cases hr
            · split at hr
              · cases hr
              · cases hr
                exact hd

theorem wCommand_Deserialize_tag {r r1 : KeypadMessage_wCommand} {h : Heap}
    (hr : r.Deserialize h = .ok r1) : r1.m_dataType = r.m_dataType := by
  simp only [KeypadMessage_wCommand.Deserialize, bind, Except.bind, pure, Except.pure] at hr
  split at hr
  · cases hr
  · split at hr
    · cases hr
    · split at hr
      · cases hr
      · cases hr
        rfl

theorem rfid_Deserialize_tag {r r1 : RFIDMessage} {h : Heap}
    (hr : r.Deserialize h = .ok r1) : r1.m_dataType = r.m_dataType := by
  simp only [RFIDMessage.Deserialize, bind, Except.bind, pure, Except.pure] at hr
  split at hr
  · cases hr
  · split at hr
    · cases hr
    · cases hr
      rfl

theorem stringMessage_Deserialize_tag {r r1 : StringMessage} {h : Heap}
    (hr : r.Deserialize h = .ok r1) : r1.m_dataType = r.m_dataType := by
  simp only [StringMessage.Deserialize, bind, Except.bind, pure, Except.pure] at hr
  split at hr
  · cases hr
  · split at hr
    · cases hr
    · cases hr
      rfl

/-- What a returning `Unpack` went through: the `Deserialize` of the message holding the buffer
and size of the envelope returned, and the message left is its result without the buffer. -/
theorem Unpack_ok_inv {t t1 : ExtendedDataMailboxMessage} {e e1 : BasicDataMailboxMessage}
    {h h1 : Heap} (hu : t.Unpack e h = .ok (t1, e1, h1)) :
    ∃ t3, (t.withBase { t.base with m_sizeOfSerializedData := e.m_sizeOfSerializedData,
                                    m_serialized := e.m_serialized }).Deserialize h = .ok t3
      ∧ t1 = t3.withBase ⟨t3.base.m_dataType, Ptr.null, 0, e.m_source⟩
      ∧ e1 = e.releaseRawDataOwnership := by
  cases hd : (t.withBase { t.base with m_sizeOfSerializedData := e.m_sizeOfSerializedData,
                                       m_serialized := e.m_serialized }).Deserialize h with
  | error x =>
    rw [ExtendedDataMailboxMessage.Unpack_eq, hd] at hu
    cases hu
  | ok t3 =>
    obtain ⟨id, cells, _, _, hu2⟩ := ExtendedDataMailboxMessage.Unpack_of_accept t t3 e h hd
    rw [hu2] at hu
    simp only [Except.ok.injEq, Prod.mk.injEq] at hu
    exact ⟨t3, rfl, hu.1.symm, hu.2.1.symm⟩

theorem typed_Deserialize_null (t : ExtendedDataMailboxMessage) (h : Heap)
    (ht : t.base.m_serialized = Ptr.null) :
    t.Deserialize h = .error (Fault.fatal "Cannot deserialize data from nullptr!") := by
  cases t with
  | keypadPassword r =>
    have hr : r.m_serialized = Ptr.null := ht
    simp only [ExtendedDataMailboxMessage.Deserialize, KeypadMessage_wPassword.Deserialize,
      DataMailboxMessage.checkSerializedData, hr, Ptr.isNull, if_true, bind, Except.bind,
      Except.map]
    rfl
  | keypadCommand r =>
    have hr : r.m_serialized = Ptr.null := ht
    simp only [ExtendedDataMailboxMessage.Deserialize, KeypadMessage_wCommand.Deserialize,
      DataMailboxMessage.checkSerializedData, hr, Ptr.isNull, if_true, bind, Except.bind,
      Except.map]
    rfl
  | rfid r =>
    have hr : r.m_serialized = Ptr.null := ht
    simp only [ExtendedDataMailboxMessage.Deserialize, RFIDMessage.Deserialize,
      DataMailboxMessage.checkSerializedData, hr, Ptr.isNull, if_true, bind, Except.bind,
      Except.map]
    rfl
  | text r =>
    have hr : r.m_serialized = Ptr.null := ht
    simp only [ExtendedDataMailboxMessage.Deserialize, StringMessage.Deserialize,
      DataMailboxMessage.checkSerializedData, hr, Ptr.isNull, if_true, bind, Except.bind,
      Except.map]
    rfl
  | watchdog r =>
    have hr : r.m_serialized = Ptr.null := ht
    simp only [ExtendedDataMailboxMessage.Deserialize, WatchdogMessage.Deserialize,
      DataMailboxMessage.checkSerializedData, hr, Ptr.isNull, if_true, bind, Except.bind,
      Except.map]
    rfl

theorem Unpack_released (u : ExtendedDataMailboxMessage) (e : BasicDataMailboxMessage)
    (h : Heap) :
    u.Unpack e.releaseRawDataOwnership h
      = .error (Fault.fatal "Cannot deserialize data from nullptr!") := by
  rw [ExtendedDataMailboxMessage.Unpack_eq,
    typed_Deserialize_null _ h (by rw [ExtendedDataMailboxMessage.base_withBase]; rfl)]

theorem string_from_too_long (h : Heap) (p : Ptr) (off : Int) (n : Nat)
    (hn : 2147483647 < n) : string_from h p off n = .error Fault.lengthError := by
  unfold string_from
  rw [if_pos (by show 2147483647 < n; exact hn)]

theorem sub_val_of_lt {a b : size_t} (hab : a.val < b.val) :
    (size_t.sub a b).val = 4294967296 - (b.val - a.val) := by
  have ha := a.isLt
  have hb := b.isLt
  have hc : ¬ b.val ≤ a.val := by omega
  simp only [size_t.sub, if_neg hc, size_t.wrap]
  omega

theorem load_past_end {h : Heap} {p : Ptr} {id : Nat} {b : Block} (off : Int) (n : Nat)
    (hd : h.deref p = .ok (id, b)) (hlen : b.cells.length < off.toNat + n) :
    h.load p off n = .error Fault.outOfBounds := by
  unfold Heap.load
  rw [hd]
  dsimp only
  rw [if_pos (Or.inr hlen)]

theorem loadByte_past_end {h : Heap} {p : Ptr} {id : Nat} {b : Block} (off : Int)
    (hd : h.deref p = .ok (id, b)) (hlen : b.cells.length < off.toNat + 1) :
    h.loadByte p off = .error Fault.outOfBounds := by
  unfold Heap.loadByte
  rw [load_past_end off 1 hd hlen]

/-- A frame shorter than the two header bytes: `KeypadMessage_wCommand::Deserialize` does not
return. -/
theorem wCommand_Deserialize_short (r : KeypadMessage_wCommand) (h : Heap) (f : List Byte)
    (hf : r.frame h = .ok f) (hlt : f.length < 2) : ∃ x, r.Deserialize h = .error x := by
  have hf0 : h.load r.m_serialized 0 r.m_sizeOfSerializedData.val = .ok f := hf
  obtain ⟨id, b, hd, hle, hw, hl⟩ := load_whole hf0
  have o1 : toInt sizeof_MessageDataType.val = 1 := by decide
  have o2 : toInt (size_t.add sizeof_KeypadCommand (ofInt 1)).val = 2 := by decide
  have e0 : (ofInt 2).val = 2 := by decide
  have o3 : (ofInt (toInt (size_t.sub r.m_sizeOfSerializedData (ofInt 2)).val)).val
      = 4294967296 - (2 - r.m_sizeOfSerializedData.val) := by
    rw [ofInt_toInt, sub_val_of_lt (by rw [e0]; omega), e0]
  have hs : string_from h r.m_serialized 2 (4294967296 - (2 - r.m_sizeOfSerializedData.val))
      = .error Fault.lengthError := string_from_too_long _ _ _ _ (by omega)
  simp only [KeypadMessage_wCommand.Deserialize, checkSerializedData_of_frame hf, bind,
    Except.bind, o1, o2, o3, hs]
  cases h.loadByte r.m_serialized 1 with
  | error x => exact ⟨x, rfl⟩
  | ok c => exact ⟨_, rfl⟩

/-- The same when the block holds the frame and nothing more: the read of the command byte is
out of bounds. -/
theorem wCommand_Deserialize_short_exact (r : KeypadMessage_wCommand) (h : Heap) (f : List Byte)
    (id : Nat) (b : Block)
    (hf : r.frame h = .ok f) (hlt : f.length < 2) (hp : r.m_serialized = Ptr.block id)
    (hb : h[id]? = some b) (hx : b.cells.length = f.length) :
    r.Deserialize h = .error Fault.outOfBounds := by
  have hf0 : h.load r.m_serialized 0 r.m_sizeOfSerializedData.val = .ok f := hf
  obtain ⟨id1, b1, hd, hle, hw, hl⟩ := load_whole hf0
  obtain ⟨hp1, hg1, _⟩ := deref_ok_inv hd
  rw [hp] at hp1
  cases hp1
  rw [hb] at hg1
  cases hg1
  have o1 : toInt sizeof_MessageDataType.val = 1 := by decide
  have hc := loadByte_past_end 1 hd (by simp; omega)
  simp only [KeypadMessage_wCommand.Deserialize, checkSerializedData_of_frame hf, bind,
    Except.bind, o1, hc]

/-- A frame shorter than the fifteen header bytes: `WatchdogMessage::Deserialize` does not
return. -/
theorem watchdog_Deserialize_short (r : WatchdogMessage) (h : Heap) (f : List Byte)
    (hf : r.frame h = .ok f) (hlt : f.length < 15) : ∃ x, r.Deserialize h = .error x := by
  have hf0 : h.load r.m_serialized 0 r.m_sizeOfSerializedData.val = .ok f := hf
  obtain ⟨id, b, hd, hle, hw, hl⟩ := load_whole hf0
  have a1 : size_t.add sizeof_MessageDataType sizeof_MessageClass = 2 := by decide
  have a2 : size_t.add 2 sizeof_SlotSettings = 10 := by decide
  have a3 : size_t.add 10 sizeof_unsigned_int = 14 := by decide
  have a4 : size_t.add 14 sizeof_enuActionOnFailure = 15 := by decide
  have e15 : (15 : size_t).val = 15 := rfl
  have o3 : (size_t.sub r.m_sizeOfSerializedData 15).val
      = 4294967296 - (15 - r.m_sizeOfSerializedData.val) := by
    rw [sub_val_of_lt (by rw [e15]; omega), e15]
  have hs : ∀ off, string_from h r.m_serialized off
      (4294967296 - (15 - r.m_sizeOfSerializedData.val))
      = .error Fault.lengthError := fun off => string_from_too_long _ _ _ _ (by omega)
  simp only [WatchdogMessage.Deserialize, checkSerializedData_of_frame hf, bind,
    Except.bind, a1, a2, a3, a4, o3, hs]
  cases h.loadByte r.m_serialized 0 with
  | error x => exact ⟨x, rfl⟩
  | ok c0 =>
    dsimp only
    cases h.loadByte r.m_serialized ((sizeof_MessageDataType : size_t).val : Int) with
    | error x => exact ⟨x, rfl⟩
    | ok c1 =>
      dsimp only
      cases h.load r.m_serialized ((2 : size_t).val : Int) (sizeof_SlotSettings : size_t).val with
      | error x => exact ⟨x, rfl⟩
      | ok c2 =>
        dsimp only
        cases h.load r.m_serialized ((10 : size_t).val : Int)
            (sizeof_unsigned_int : size_t).val with
        | error x => exact ⟨x, rfl⟩
        | ok c3 =>
          dsimp only
          cases h.loadByte r.m_serialized ((14 : size_t).val : Int) with
          | error x => exact ⟨x, rfl⟩
          | ok c4 => exact ⟨_, rfl⟩

/-- The same when the block holds the frame and nothing more: a read of a fixed field is out of
bounds. -/
theorem watchdog_Deserialize_short_exact (r : WatchdogMessage) (h : Heap) (f : List Byte)
    (id : Nat) (b : Block)
    (hf : r.frame h = .ok f) (hlt : f.length < 15) (hp : r.m_serialized = Ptr.block id)
    (hb : h[id]? = some b) (hx : b.cells.length = f.length) :
    r.Deserialize h = .error Fault.outOfBounds := by
  have hf0 : h.load r.m_serialized 0 r.m_sizeOfSerializedData.val = .ok f := hf
  obtain ⟨id1, b1, hd, hle, hw, hl⟩ := load_whole hf0
  obtain ⟨hp1, hg1, _⟩ := deref_ok_inv hd
  rw [hp] at hp1
  cases hp1
  rw [hb] at hg1
  cases hg1
  have a1 : size_t.add sizeof_MessageDataType sizeof_MessageClass = 2 := by decide
  have a2 : size_t.add 2 sizeof_SlotSettings = 10 := by decide
  have a3 : size_t.add 10 sizeof_unsigned_int = 14 := by decide
  have a4 : size_t.add 14 sizeof_enuActionOnFailure = 15 := by decide
  have v2 : ((2 : size_t).val : Int) = 2 := rfl
  have v10 : ((10 : size_t).val : Int) = 10 := rfl
  have v14 : ((14 : size_t).val : Int) = 14 := rfl
  have v1 : ((sizeof_MessageDataType : size_t).val : Int) = 1 := rfl
  have c8 : (sizeof_SlotSettings : size_t).val = 8 := rfl
  have c4 : (sizeof_unsigned_int : size_t).val = 4 := rfl
  by_cases h0 : f.length < 1
  · have l0 := loadByte_past_end 0 hd (by
      have e : (0 : Int).toNat = 0 := rfl
      rw [e]
      omega)
    simp only [WatchdogMessage.Deserialize, checkSerializedData_of_frame hf, bind,
      Except.bind, l0]
  obtain ⟨t0, ht0, _⟩ := loadByte_of_whole hf0 0 (by decide) (by simp; omega)
  by_cases h1 : f.length < 2
  · have l1 := loadByte_past_end 1 hd (by simp; omega)
    simp only [WatchdogMessage.Deserialize, checkSerializedData_of_frame hf, bind,
      Except.bind, v1, ht0, l1]
  obtain ⟨t1, ht1, _⟩ := loadByte_of_whole hf0 1 (by decide) (by simp; omega)
  by_cases h2 : f.length < 10
  · have l2 := load_past_end 2 8 hd (by simp; omega)
    simp only [WatchdogMessage.Deserialize, checkSerializedData_of_frame hf, bind,
      Except.bind, a1, v1, v2, c8, ht0, ht1, l2]
  have hS := load_of_whole hf0 2 8 (by decide) (by simp; omega)
  by_cases h3 : f.length < 14
  · have l3 := load_past_end 10 4 hd (by simp; omega)
    simp only [WatchdogMessage.Deserialize, checkSerializedData_of_frame hf, bind,
      Except.bind, a1, a2, v1, v2, v10, c8, c4, ht0, ht1, hS, l3]
  have hP := load_of_whole hf0 10 4 (by decide) (by simp; omega)
  have l4 := loadByte_past_end 14 hd (by simp; omega)
  simp only [WatchdogMessage.Deserialize, checkSerializedData_of_frame hf, bind,
    Except.bind, a1, a2, a3, v1, v2, v10, v14, c8, c4, ht0, ht1, hS, hP, l4]

/-- An empty frame: `KeypadMessage_wPassword::Deserialize` does not return. -/
theorem wPassword_Deserialize_short (r : KeypadMessage_wPassword) (h : Heap) (f : List Byte)
    (hf : r.frame h = .ok f) (hlt : f.length < 1) : ∃ x, r.Deserialize h = .error x := by
  have hf0 : h.load r.m_serialized 0 r.m_sizeOfSerializedData.val = .ok f := hf
  obtain ⟨id, b, hd, hle, hw, hl⟩ := load_whole hf0
  have s1 : (sizeof_MessageDataType : size_t).val = 1 := rfl
  have o3 : (size_t.sub r.m_sizeOfSerializedData sizeof_MessageDataType).val
      = 4294967296 - (1 - r.m_sizeOfSerializedData.val) := by
    rw [sub_val_of_lt (by rw [s1]; omega), s1]
  have hs : ∀ off, string_from h r.m_serialized off
      (4294967296 - (1 - r.m_sizeOfSerializedData.val))
      = .error Fault.lengthError := fun off => string_from_too_long _ _ _ _ (by omega)
  simp only [KeypadMessage_wPassword.Deserialize, checkSerializedData_of_frame hf, bind,
    Except.bind, o3, hs]
  cases h.loadByte r.m_serialized 0 with
  | error x => exact ⟨x, rfl⟩
  | ok c => exact ⟨_, rfl⟩

theorem map_ok_inv {α β : Type} {x : Except Fault α} {g : α → β} {y : β}
    (hx : x.map g = .ok y) : ∃ r, x = .ok r ∧ y = g r := by
  cases x with
  | error e => cases hx
  | ok r =>
    simp only [Except.map, Except.ok.injEq] at hx
    exact ⟨r, rfl, hx.symm⟩

theorem first_byte_of_loadByte {h : Heap} {p : Ptr} {sz : Nat} {f : List Byte} {d : Byte}
    (hf : h.load p 0 sz = .ok f) (h1 : 1 ≤ sz) (hd : h.loadByte p 0 = .ok d) :
    f[0]? = some d := by
  obtain ⟨c, hc, hc1⟩ := loadByte_of_whole hf 0 (by decide) (by
    have e : (0 : Int).toNat = 0 := rfl
    rw [e]
    omega)
  rw [hd] at hc
  cases hc
  exact hc1

theorem toInt_wrapped_short (n k : Nat) (hk : 0 < k) (hn : n < k) (hk2 : k ≤ 2147483648) :
    toInt (4294967296 - (k - n)) = (n : Int) - (k : Int) := by
  unfold toInt
  have hm : (4294967296 - (k - n)) % 4294967296 = 4294967296 - (k - n) :=
    Nat.mod_eq_of_lt (by omega)
  rw [hm]
  have hc : ¬ (4294967296 - (k - n) < 2147483648) := by omega
  rw [if_neg hc]
  omega

theorem Unpack_error_of_Deserialize (t : ExtendedDataMailboxMessage)
    (e : BasicDataMailboxMessage) (h : Heap) (x : Fault)
    (hd : (t.withBase { t.base with m_sizeOfSerializedData := e.m_sizeOfSerializedData,
                                    m_serialized := e.m_serialized }).Deserialize h = .error x) :
    t.Unpack e h = .error x := by
  rw [ExtendedDataMailboxMessage.Unpack_eq, hd]

/-- The third branch of `receive`: the envelope takes pointer, size and sender of the raw
message, and its tag is decoded from the first byte. -/
theorem receive_real_branch (NONBLOCKING : Nat) (rawMessage : SimpleMailboxMessage)
    (options : Nat) (h : Heap)
    (ht : ¬ rawMessage.m_header.m_type = enuMessageType.TIMED_OUT)
    (he : ¬ (rawMessage.m_header.m_type = enuMessageType.EMPTY
      ∧ Nat.land options NONBLOCKING ≠ 0)) :
    DataMailbox.receive NONBLOCKING rawMessage options h
      = match DataMailboxMessage.decodeMessageDataType
            ⟨MessageDataType.NONE, rawMessage.m_pData, rawMessage.m_header.m_payloadSize,
              ⟨rawMessage.m_sourceName⟩⟩ h with
        | .error x => .error x
        | .ok d => .ok (⟨d⟩, h) := by
  simp only [DataMailbox.receive, ht, he, if_false, bind, Except.bind,
    BasicDataMailboxMessage.getInfo, pure, Except.pure, BasicDataMailboxMessage.setSource,
    BasicDataMailboxMessage.create, DataMailboxMessage.setSerializedData,
    DataMailboxMessage.create]
  cases DataMailboxMessage.decodeMessageDataType
      ⟨MessageDataType.NONE, rawMessage.m_pData, rawMessage.m_header.m_payloadSize,
        ⟨rawMessage.m_sourceName⟩⟩ h with
  | error x => rfl
  | ok d => rfl

theorem decode_ok_inv {m d : DataMailboxMessage} {h : Heap}
    (hd : m.decodeMessageDataType h = .ok d) :
    d.m_serialized = m.m_serialized ∧ d.m_sizeOfSerializedData = m.m_sizeOfSerializedData
      ∧ d.m_source = m.m_source ∧ h.loadByte m.m_serialized 0 = .ok d.m_dataType := by
  unfold DataMailboxMessage.decodeMessageDataType at hd
  split at hd
  · cases hd
  · split at hd
    · cases hd
    · rename_i b hb
      split at hd
      · cases hd
      · cases hd
        exact ⟨rfl, rfl, rfl, hb⟩

namespace ExtendedDataMailboxMessage

theorem getInfo_withBase (t : ExtendedDataMailboxMessage) (b : DataMailboxMessage) :
    (t.withBase b).getInfo = t.getInfo := by
  cases t <;> rfl

theorem wireLayout_withBase (t : ExtendedDataMailboxMessage) (b : DataMailboxMessage)
    (hb : b.m_dataType = t.base.m_dataType) : (t.withBase b).wireLayout = t.wireLayout := by
  cases t <;> simp only [withBase, wireLayout, base] at hb ⊢ <;> rw [hb]

theorem headerSize_withBase (t : ExtendedDataMailboxMessage) (b : DataMailboxMessage) :
    (t.withBase b).headerSize = t.headerSize := by
  cases t <;> rfl

theorem trailingField_withBase (t : ExtendedDataMailboxMessage) (b : DataMailboxMessage) :
    (t.withBase b).trailingField = t.trailingField := by
  cases t <;> rfl

end ExtendedDataMailboxMessage

theorem owns_concat_length (m : DataMailboxMessage) (h0 : Heap) (cells : List (Option Byte))
    (hp : m.m_serialized = Ptr.block h0.length) :
    m.ownsBufferOrNone (h0 ++ [⟨cells, true⟩]) = true := by
  simp only [DataMailboxMessage.ownsBufferOrNone, hp, List.getElem?_concat_length]

theorem owns_of_null (m : DataMailboxMessage) (h : Heap) (hp : m.m_serialized = Ptr.null) :
    m.ownsBufferOrNone h = true := by
  simp only [DataMailboxMessage.ownsBufferOrNone, hp]

/-- The envelope `receive` synthesizes for a sentinel holds a one-byte frame in a one-cell block,
and unpacking it into a `KeypadMessage_wCommand` or a `WatchdogMessage` reads out of bounds. -/
theorem Unpack_sentinel (h0 : Heap) (c : Byte) (d : MessageDataType) (s : MailboxReference) :
    (∀ m : KeypadMessage_wCommand,
        (ExtendedDataMailboxMessage.keypadCommand m).Unpack ⟨⟨d, Ptr.block h0.length, 1, s⟩⟩
            (h0 ++ [⟨[some c], true⟩]) = .error Fault.outOfBounds)
      ∧ (∀ m : WatchdogMessage,
        (ExtendedDataMailboxMessage.watchdog m).Unpack ⟨⟨d, Ptr.block h0.length, 1, s⟩⟩
            (h0 ++ [⟨[some c], true⟩]) = .error Fault.outOfBounds) := by
  have hg : (h0 ++ [(⟨[some c], true⟩ : Block)])[h0.length]? = some ⟨[some c], true⟩ :=
    List.getElem?_concat_length _ _
  constructor
  · intro m
    apply Unpack_error_of_Deserialize
    have hf : DataMailboxMessage.frame
        ({ m with toDataMailboxMessage :=
            { m.toDataMailboxMessage with m_sizeOfSerializedData := 1,
                                          m_serialized := Ptr.block h0.length } } :
          KeypadMessage_wCommand).toDataMailboxMessage (h0 ++ [⟨[some c], true⟩]) = .ok [c] :=
      frame_concat_written _ h0 [c] rfl rfl
    have hd := wCommand_Deserialize_short_exact _ _ [c] h0.length ⟨[some c], true⟩ hf
      (by show 1 < 2; decide) rfl hg rfl
    exact congrArg (Except.map ExtendedDataMailboxMessage.keypadCommand) hd
  · intro m
    apply Unpack_error_of_Deserialize
    have hf : DataMailboxMessage.frame
        ({ m with toDataMailboxMessage :=
            { m.toDataMailboxMessage with m_sizeOfSerializedData := 1,
                                          m_serialized := Ptr.block h0.length } } :
          WatchdogMessage).toDataMailboxMessage (h0 ++ [⟨[some c], true⟩]) = .ok [c] :=
      frame_concat_written _ h0 [c] rfl rfl
    have hd := watchdog_Deserialize_short_exact _ _ [c] h0.length ⟨[some c], true⟩ hf
      (by show 1 < 15; decide) rfl hg rfl
    exact congrArg (Except.map ExtendedDataMailboxMessage.watchdog) hd

/-- Serializing a typed message that has just been serialized: the block of the first frame is
freed and the same layout stands in the next fresh block. -/
theorem typed_Serialize_again (t : ExtendedDataMailboxMessage) (h0 : Heap) :
    (t.withBase ⟨t.base.m_dataType, Ptr.block h0.length,
        size_t.wrap (t.headerSize + t.trailingField.length), t.base.m_source⟩).Serialize
        (h0 ++ [⟨t.wireLayout.map some, true⟩])
      = .ok (t.withBase ⟨t.base.m_dataType, Ptr.block (h0.length + 1),
              size_t.wrap (t.headerSize + t.trailingField.length), t.base.m_source⟩,
          h0 ++ [⟨t.wireLayout.map some, false⟩] ++ [⟨t.wireLayout.map some, true⟩]) := by
  have ho := owns_concat_length
    ⟨t.base.m_dataType, Ptr.block h0.length,
      size_t.wrap (t.headerSize + t.trailingField.length), t.base.m_source⟩
    h0 (t.wireLayout.map some) rfl
  have hd := delete_concat_length
    ⟨t.base.m_dataType, Ptr.block h0.length,
      size_t.wrap (t.headerSize + t.trailingField.length), t.base.m_source⟩
    h0 (t.wireLayout.map some) rfl
  obtain ⟨h0b, hdb, hs⟩ := ExtendedDataMailboxMessage.typed_Serialize_owned
    (t.withBase ⟨t.base.m_dataType, Ptr.block h0.length,
      size_t.wrap (t.headerSize + t.trailingField.length), t.base.m_source⟩)
    (h0 ++ [⟨t.wireLayout.map some, true⟩])
    (by rw [ExtendedDataMailboxMessage.base_withBase]; exact ho)
  rw [ExtendedDataMailboxMessage.base_withBase] at hdb
  rw [hd] at hdb
  simp only [Except.ok.injEq, Prod.mk.injEq, true_and] at hdb
  subst hdb
  have hw := ExtendedDataMailboxMessage.wireLayout_withBase t
    ⟨t.base.m_dataType, Ptr.block h0.length,
      size_t.wrap (t.headerSize + t.trailingField.length), t.base.m_source⟩ rfl
  rw [hs, ExtendedDataMailboxMessage.withBase_withBase, ExtendedDataMailboxMessage.base_withBase,
    ExtendedDataMailboxMessage.headerSize_withBase,
    ExtendedDataMailboxMessage.trailingField_withBase, hw, List.length_append]
  rfl

set_option maxRecDepth 100000 in
theorem getMessageClassName_eq (c : MessageClass) :
    WatchdogMessage.getMessageClassName c
      = match ["REGISTER_REQUEST", "REGISTER_REPLY", "UNREGISTER_REQUEST", "UNREGISTER_REPLY",
          "UPDATE_SETTINGS", "KICK", "START", "STOP", "SYNC_REQUEST", "SYNC_BROADCAST",
          "TERMINATE_REQUEST", "TERMINATE_BROADCAST", "ANY", "NONE"][c.val]? with
        | some s => .ok s
        | none => .error Fault.outOfRange := by
  revert c
  decide

theorem messageClassNames_nodup :
    (["REGISTER_REQUEST", "REGISTER_REPLY", "UNREGISTER_REQUEST", "UNREGISTER_REPLY",
      "UPDATE_SETTINGS", "KICK", "START", "STOP", "SYNC_REQUEST", "SYNC_BROADCAST",
      "TERMINATE_REQUEST", "TERMINATE_BROADCAST", "ANY", "NONE"] : List String).Nodup := by
  decide

/-! ## The tag after `Unpack` and repeated `Unpack` -/

/-- C21 (as stated, at a concrete envelope): a `KeypadMessage_wPassword`, constructed with tag
3, unpacks the envelope from `peer` that holds the frame `[5, 97]`; `Unpack` returns, the password
is `"a"`, and `getDataType()` is now 5, not the tag the message was constructed with. -/
theorem C21_unpack_overwrites_password_tag :
    (ExtendedDataMailboxMessage.keypadPassword KeypadMessage_wPassword.create).base.getDataType
        = MessageDataType.KeypadMessage_wPassword
      ∧ (ExtendedDataMailboxMessage.keypadPassword KeypadMessage_wPassword.create).Unpack
          ⟨⟨MessageDataType.RFIDMessage, Ptr.block 0, 2, ⟨"peer"⟩⟩⟩ [⟨[some 5, some 97], true⟩]
        = .ok (ExtendedDataMailboxMessage.keypadPassword
                ⟨⟨MessageDataType.RFIDMessage, Ptr.null, 0, ⟨"peer"⟩⟩,
                  CppString.lit "a" (by decide)⟩,
              ⟨⟨MessageDataType.RFIDMessage, Ptr.null, 0, ⟨"peer"⟩⟩⟩,
              [⟨[some 5, some 97], false⟩])
      ∧ MessageDataType.RFIDMessage ≠ MessageDataType.KeypadMessage_wPassword := by
  decide

/-- C21 (amended): for every envelope `e` holding a frame `f` and every typed message `t` whose
`Deserialize` accepts it, `t.Unpack(e)` returns; whenever it returns, a `KeypadMessage_wCommand`,
an `RFIDMessage` and a `StringMessage` keep the tag they had before the call, whatever the first
byte of the frame is, while a `KeypadMessage_wPassword` and a `WatchdogMessage` have the first
byte of the frame as their tag. -/
theorem C21_unpack_tag_by_class (e : BasicDataMailboxMessage) (h : Heap) (f : List Byte)
    (hf : e.frame h = .ok f) :
    (∀ t t3 : ExtendedDataMailboxMessage,
        (t.withBase { t.base with m_sizeOfSerializedData := e.m_sizeOfSerializedData,
                                  m_serialized := e.m_serialized }).Deserialize h = .ok t3 →
        ∃ t1 e1 h1, t.Unpack e h = .ok (t1, e1, h1))
      ∧ (∀ (m : KeypadMessage_wCommand) t1 e1 h1,
          (ExtendedDataMailboxMessage.keypadCommand m).Unpack e h = .ok (t1, e1, h1) →
          t1.base.getDataType = m.getDataType)
      ∧ (∀ (m : RFIDMessage) t1 e1 h1,
          (ExtendedDataMailboxMessage.rfid m).Unpack e h = .ok (t1, e1, h1) →
          t1.base.getDataType = m.getDataType)
      ∧ (∀ (m : StringMessage) t1 e1 h1,
          (ExtendedDataMailboxMessage.text m).Unpack e h = .ok (t1, e1, h1) →
          t1.base.getDataType = m.getDataType)
      ∧ (∀ (m : KeypadMessage_wPassword) t1 e1 h1,
          (ExtendedDataMailboxMessage.keypadPassword m).Unpack e h = .ok (t1, e1, h1) →
          f[0]? = some t1.base.getDataType)
      ∧ (∀ (m : WatchdogMessage) t1 e1 h1,
          (ExtendedDataMailboxMessage.watchdog m).Unpack e h = .ok (t1, e1, h1) →
          f[0]? = some t1.base.getDataType) := by
  have hf0 : h.load e.m_serialized 0 e.m_sizeOfSerializedData.val = .ok f := hf
  obtain ⟨_, _, _, _, _, hl⟩ := load_whole hf0
  refine ⟨?_, ?_, ?_, ?_, ?_, ?_⟩
  · intro t t3 hacc
    obtain ⟨id, cells, _, _, hu⟩ := ExtendedDataMailboxMessage.Unpack_of_accept t t3 e h hacc
    exact ⟨_, _, _, hu⟩
  · intro m t1 e1 h1 hu
    obtain ⟨t3, hd, ht1, _⟩ := Unpack_ok_inv hu
    subst ht1
    obtain ⟨r1, hr, ht3⟩ := map_ok_inv
      (show (KeypadMessage_wCommand.Deserialize _ h).map ExtendedDataMailboxMessage.keypadCommand = .ok t3 from hd)
    subst ht3
    rw [ExtendedDataMailboxMessage.base_withBase]
    have htag := wCommand_Deserialize_tag hr
    exact htag
  · intro m t1 e1 h1 hu
    obtain ⟨t3, hd, ht1, _⟩ := Unpack_ok_inv hu
    subst ht1
    obtain ⟨r1, hr, ht3⟩ := map_ok_inv
      (show (RFIDMessage.Deserialize _ h).map ExtendedDataMailboxMessage.rfid = .ok t3 from hd)
    subst ht3
    rw [ExtendedDataMailboxMessage.base_withBase]
    have htag := rfid_Deserialize_tag hr
    exact htag
  · intro m t1 e1 h1 hu
    obtain ⟨t3, hd, ht1, _⟩ := Unpack_ok_inv hu
    subst ht1
    obtain ⟨r1, hr, ht3⟩ := map_ok_inv
      (show (StringMessage.Deserialize _ h).map ExtendedDataMailboxMessage.text = .ok t3 from hd)
    subst ht3
    rw [ExtendedDataMailboxMessage.base_withBase]
    have htag := stringMessage_Deserialize_tag hr
    exact htag
  · intro m t1 e1 h1 hu
    obtain ⟨t3, hd, ht1, _⟩ := Unpack_ok_inv hu
    subst ht1
    obtain ⟨r1, hr, ht3⟩ := map_ok_inv
      (show (KeypadMessage_wPassword.Deserialize
          ({ m with toDataMailboxMessage :=
              { m.toDataMailboxMessage with m_sizeOfSerializedData := e.m_sizeOfSerializedData,
                                            m_serialized := e.m_serialized } } : KeypadMessage_wPassword) h).map
          ExtendedDataMailboxMessage.keypadPassword = .ok t3 from hd)
    subst ht3
    rw [ExtendedDataMailboxMessage.base_withBase]
    have hfr : DataMailboxMessage.frame
        ({ m with toDataMailboxMessage :=
            { m.toDataMailboxMessage with m_sizeOfSerializedData := e.m_sizeOfSerializedData,
                                          m_serialized := e.m_serialized } } :
          KeypadMessage_wPassword).toDataMailboxMessage h = .ok f := hf
    have hs1 : 1 ≤ e.m_sizeOfSerializedData.val := by
      by_contra hc
      obtain ⟨x, hx⟩ := wPassword_Deserialize_short _ h f hfr (by omega)
      rw [hx] at hr
      cases hr
    exact first_byte_of_loadByte hf0 hs1 (wPassword_Deserialize_tag hr)
  · intro m t1 e1 h1 hu
    obtain ⟨t3, hd, ht1, _⟩ := Unpack_ok_inv hu
    subst ht1
    obtain ⟨r1, hr, ht3⟩ := map_ok_inv
      (show (WatchdogMessage.Deserialize
          ({ m with toDataMailboxMessage :=
              { m.toDataMailboxMessage with m_sizeOfSerializedData := e.m_sizeOfSerializedData,
                                            m_serialized := e.m_serialized } } : WatchdogMessage) h).map
          ExtendedDataMailboxMessage.watchdog = .ok t3 from hd)
    subst ht3
    rw [ExtendedDataMailboxMessage.base_withBase]
    have hfr : DataMailboxMessage.frame
        ({ m with toDataMailboxMessage :=
            { m.toDataMailboxMessage with m_sizeOfSerializedData := e.m_sizeOfSerializedData,
                                          m_serialized := e.m_serialized } } :
          WatchdogMessage).toDataMailboxMessage h = .ok f := hf
    have hs1 : 1 ≤ e.m_sizeOfSerializedData.val := by
      by_contra hc
      obtain ⟨x, hx⟩ := watchdog_Deserialize_short _ h f hfr (by omega)
      rw [hx] at hr
      cases hr
    exact first_byte_of_loadByte hf0 hs1 (watchdog_Deserialize_tag hr)

/-- C21 (amended) on a concrete run: a `KeypadMessage_wCommand` unpacks the RFID-tagged frame
`[5, 1, 97]` and still has tag 4. -/
theorem C21_unpack_tag_by_class_witness :
    DataMailboxMessage.frame
        (BasicDataMailboxMessage.mk
          ⟨MessageDataType.RFIDMessage, Ptr.block 0, 3, ⟨"peer"⟩⟩).toDataMailboxMessage
        [⟨[some 5, some 1, some 97], true⟩] = .ok [5, 1, 97]
      ∧ ∃ t1 e1 h1,
        (ExtendedDataMailboxMessage.keypadCommand KeypadMessage_wCommand.create).Unpack
            ⟨⟨MessageDataType.RFIDMessage, Ptr.block 0, 3, ⟨"peer"⟩⟩⟩
            [⟨[some 5, some 1, some 97], true⟩] = .ok (t1, e1, h1)
          ∧ t1.base.getDataType = MessageDataType.KeypadMessage_wCommand := by
  have hc := C21_unpack_tag_by_class
    ⟨⟨MessageDataType.RFIDMessage, Ptr.block 0, 3, ⟨"peer"⟩⟩⟩
    [⟨[some 5, some 1, some 97], true⟩] [5, 1, 97] (by decide)
  obtain ⟨t1, e1, h1, hu⟩ := hc.1
    (ExtendedDataMailboxMessage.keypadCommand KeypadMessage_wCommand.create)
    (ExtendedDataMailboxMessage.keypadCommand
      ⟨⟨MessageDataType.KeypadMessage_wCommand, Ptr.block 0, 3, MailboxReference.unspecified⟩,
        KeypadCommand.ADD_USER, CppString.lit "a" (by decide)⟩) (by decide)
  exact ⟨by decide, t1, e1, h1, hu, hc.2.1 _ _ _ _ hu⟩

/-- C22: whenever `t.Unpack(e)` has returned, the envelope it leaves has a null buffer pointer
and size 0, and unpacking that envelope again into any typed message, from any heap, ends in the
fatal error of `checkSerializedData`, `"Cannot deserialize data from nullptr!"`: no byte is
decoded. The same holds for every envelope after `releaseRawDataOwnership()`, the first thing
`Unpack` does to it. -/
theorem C22_second_unpack_is_fatal (t t1 : ExtendedDataMailboxMessage)
    (e e1 : BasicDataMailboxMessage) (h h1 : Heap)
    (hu : t.Unpack e h = .ok (t1, e1, h1)) :
    e1.getRawDataPointer = Ptr.null
      ∧ e1.getRawDataSize = 0
      ∧ e1 = e.releaseRawDataOwnership
      ∧ (∀ (u : ExtendedDataMailboxMessage) (h2 : Heap),
          u.Unpack e1 h2 = .error (Fault.fatal "Cannot deserialize data from nullptr!"))
      ∧ (∀ (u : ExtendedDataMailboxMessage) (e0 : BasicDataMailboxMessage) (h2 : Heap),
          u.Unpack e0.releaseRawDataOwnership h2
            = .error (Fault.fatal "Cannot deserialize data from nullptr!")) := by
  obtain ⟨t3, _, _, he1⟩ := Unpack_ok_inv hu
  subst he1
  have hz : toInt (0 : size_t).val = 0 := by decide
  exact ⟨rfl, hz, rfl, fun u h2 => Unpack_released u e h2, fun u e0 h2 => Unpack_released u e0 h2⟩

/-- C22 on a concrete run: after an `RFIDMessage` has unpacked the envelope holding `[5, 65]`,
a `StringMessage` unpacking the same envelope ends in the fatal error. -/
theorem C22_second_unpack_is_fatal_witness :
    ∃ t1 e1 h1,
      (ExtendedDataMailboxMessage.rfid RFIDMessage.create).Unpack
          ⟨⟨MessageDataType.RFIDMessage, Ptr.block 0, 2, ⟨"peer"⟩⟩⟩ [⟨[some 5, some 65], true⟩]
        = .ok (t1, e1, h1)
      ∧ (ExtendedDataMailboxMessage.text StringMessage.create).Unpack e1 h1
        = .error (Fault.fatal "Cannot deserialize data from nullptr!") := by
  have hu : (ExtendedDataMailboxMessage.rfid RFIDMessage.create).Unpack
      ⟨⟨MessageDataType.RFIDMessage, Ptr.block 0, 2, ⟨"peer"⟩⟩⟩ [⟨[some 5, some 65], true⟩]
      = .ok (ExtendedDataMailboxMessage.rfid
              ⟨⟨MessageDataType.RFIDMessage, Ptr.null, 0, ⟨"peer"⟩⟩, ⟨[65], by decide⟩⟩,
            ⟨⟨MessageDataType.RFIDMessage, Ptr.null, 0, ⟨"peer"⟩⟩⟩,
            [⟨[some 5, some 65], false⟩]) := by decide
  exact ⟨_, _, _, hu, (C22_second_unpack_is_fatal _ _ _ _ _ _ hu).2.2.2.1 _ _⟩

/-! ## Short frames and the branches of `receive` -/

/-- C23: for `KeypadMessage_wCommand` and every present frame shorter than its two header
bytes, and for `WatchdogMessage` and every present frame shorter than its fifteen header bytes,
the derived length of the trailing field is negative as an `int` (`n - 2`), respectively wraps
around as a `size_t` (`2^32 - (15 - n)`), `Deserialize` does not return and neither does `Unpack`
of an envelope holding that frame; when the block holds the frame and nothing more, the read of
a fixed field is out of bounds. This is what happens to the one-byte frames `receive` synthesizes
for `TIMED_OUT` and for `EMPTY` with `NONBLOCKING`. -/
theorem C23_short_frame_is_not_decoded :
    (∀ (h : Heap) (f : List Byte) (r : KeypadMessage_wCommand),
        r.frame h = .ok f → f.length < 2 →
        toInt (size_t.sub r.m_sizeOfSerializedData (ofInt 2)).val = (f.length : Int) - 2
          ∧ (∃ x, r.Deserialize h = .error x)
          ∧ (∀ id b, r.m_serialized = Ptr.block id → h[id]? = some b →
              b.cells.length = f.length → r.Deserialize h = .error Fault.outOfBounds))
      ∧ (∀ (h : Heap) (f : List Byte) (r : WatchdogMessage),
        r.frame h = .ok f → f.length < 15 →
        (size_t.sub r.m_sizeOfSerializedData 15).val = 4294967296 - (15 - f.length)
          ∧ (∃ x, r.Deserialize h = .error x)
          ∧ (∀ id b, r.m_serialized = Ptr.block id → h[id]? = some b →
              b.cells.length = f.length → r.Deserialize h = .error Fault.outOfBounds))
      ∧ (∀ (h : Heap) (f : List Byte) (e : BasicDataMailboxMessage), e.frame h = .ok f →
        (f.length < 2 → ∀ m : KeypadMessage_wCommand,
            ∃ x, (ExtendedDataMailboxMessage.keypadCommand m).Unpack e h = .error x)
          ∧ (f.length < 15 → ∀ m : WatchdogMessage,
            ∃ x, (ExtendedDataMailboxMessage.watchdog m).Unpack e h = .error x))
      ∧ (∀ (NONBLOCKING : Nat) (rawMessage : SimpleMailboxMessage) (options : Nat) (h : Heap),
        (rawMessage.m_header.m_type = enuMessageType.TIMED_OUT
          ∨ (rawMessage.m_header.m_type = enuMessageType.EMPTY
              ∧ Nat.land options NONBLOCKING ≠ 0)) →
        ∃ e h1, DataMailbox.receive NONBLOCKING rawMessage options h = .ok (e, h1)
          ∧ e.getRawDataSize = 1
          ∧ (∀ m : KeypadMessage_wCommand,
              (ExtendedDataMailboxMessage.keypadCommand m).Unpack e h1
                = .error Fault.outOfBounds)
          ∧ (∀ m : WatchdogMessage,
              (ExtendedDataMailboxMessage.watchdog m).Unpack e h1
                = .error Fault.outOfBounds)) := by
  refine ⟨?_, ?_, ?_, ?_⟩
  · intro h f r hf hlt
    have hf0 : h.load r.m_serialized 0 r.m_sizeOfSerializedData.val = .ok f := hf
    obtain ⟨_, _, _, _, _, hl⟩ := load_whole hf0
    have e0 : (ofInt 2).val = 2 := by decide
    refine ⟨?_, wCommand_Deserialize_short r h f hf hlt,
      fun id b hp hb hx => wCommand_Deserialize_short_exact r h f id b hf hlt hp hb hx⟩
    rw [sub_val_of_lt (by rw [e0]; omega), e0, hl,
      toInt_wrapped_short _ 2 (by decide) (by omega) (by decide)]
    rfl
  · intro h f r hf hlt
    have hf0 : h.load r.m_serialized 0 r.m_sizeOfSerializedData.val = .ok f := hf
    obtain ⟨_, _, _, _, _, hl⟩ := load_whole hf0
    have e15 : (15 : size_t).val = 15 := rfl
    refine ⟨?_, watchdog_Deserialize_short r h f hf hlt,
      fun id b hp hb hx => watchdog_Deserialize_short_exact r h f id b hf hlt hp hb hx⟩
    rw [sub_val_of_lt (by rw [e15]; omega), e15, hl]
  · intro h f e hf
    constructor
    · intro hlt m
      have hfr : DataMailboxMessage.frame
          ({ m with toDataMailboxMessage :=
              { m.toDataMailboxMessage with m_sizeOfSerializedData := e.m_sizeOfSerializedData,
                                            m_serialized := e.m_serialized } } :
            KeypadMessage_wCommand).toDataMailboxMessage h = .ok f := hf
      obtain ⟨x, hx⟩ := wCommand_Deserialize_short _ h f hfr hlt
      refine ⟨x, Unpack_error_of_Deserialize _ _ _ _ ?_⟩
      exact congrArg (Except.map ExtendedDataMailboxMessage.keypadCommand) hx
    · intro hlt m
      have hfr : DataMailboxMessage.frame
          ({ m with toDataMailboxMessage :=
              { m.toDataMailboxMessage with m_sizeOfSerializedData := e.m_sizeOfSerializedData,
                                            m_serialized := e.m_serialized } } :
            WatchdogMessage).toDataMailboxMessage h = .ok f := hf
      obtain ⟨x, hx⟩ := watchdog_Deserialize_short _ h f hfr hlt
      refine ⟨x, Unpack_error_of_Deserialize _ _ _ _ ?_⟩
      exact congrArg (Except.map ExtendedDataMailboxMessage.watchdog) hx
  · intro NONBLOCKING rawMessage options h hc
    have h1 : toInt (1 : size_t).val = 1 := by decide
    rcases hc with ht | ⟨he, hopt⟩
    · obtain ⟨hA, hB⟩ := Unpack_sentinel h MessageDataType.TimedOut MessageDataType.TimedOut
        MailboxReference.unspecified
      exact ⟨_, _, receive_TIMED_OUT NONBLOCKING rawMessage options h ht, h1, hA, hB⟩
    · obtain ⟨hA, hB⟩ := Unpack_sentinel h MessageDataType.EmptyQueue MessageDataType.EmptyQueue
        MailboxReference.unspecified
      exact ⟨_, _, receive_EMPTY_NONBLOCKING NONBLOCKING rawMessage options h he hopt, h1, hA, hB⟩

/-- C23 on a concrete run: the one-byte frame `[2]` in a one-cell block, given to
`KeypadMessage_wCommand::Deserialize`: the derived length is `-1` and the read of the command
byte is out of bounds. -/
theorem C23_short_frame_is_not_decoded_witness :
    toInt (size_t.sub (1 : size_t) (ofInt 2)).val = -1
      ∧ KeypadMessage_wCommand.Deserialize
          ⟨⟨MessageDataType.KeypadMessage_wCommand, Ptr.block 0, 1, MailboxReference.unspecified⟩,
            KeypadCommand.NONE, CppString.empty⟩ [⟨[some 2], true⟩]
        = .error Fault.outOfBounds := by
  obtain ⟨hlen, _, hx⟩ := C23_short_frame_is_not_decoded.1 [⟨[some 2], true⟩] [2]
    ⟨⟨MessageDataType.KeypadMessage_wCommand, Ptr.block 0, 1, MailboxReference.unspecified⟩,
      KeypadCommand.NONE, CppString.empty⟩ (by decide) (by decide)
  exact ⟨hlen, hx 0 ⟨[some 2], true⟩ rfl rfl rfl⟩

/-- C24: `receive` returns the `EmptyQueue` frame it synthesizes itself (a fresh one-cell block
holding 1, tag `EmptyQueue`, size 1) if and only if the transport reports `EMPTY` and the options
include the `NONBLOCKING` bit. When the transport reports `EMPTY` and the bit is not set,
`receive` is the real-frame branch: pointer and size are those of the raw message, the source is
its sender name, the tag is decoded from the first byte, no block is allocated. A `TIMED_OUT`
report yields the synthesized `TimedOut` frame for every option value. -/
theorem C24_receive_branches (NONBLOCKING : Nat) (rawMessage : SimpleMailboxMessage)
    (options : Nat) (h : Heap) :
    ((∃ e, DataMailbox.receive NONBLOCKING rawMessage options h
            = .ok (e, h ++ [⟨[some MessageDataType.EmptyQueue], true⟩])
          ∧ e.getRawDataPointer = Ptr.block h.length
          ∧ e.getDataType = MessageDataType.EmptyQueue)
        ↔ (rawMessage.m_header.m_type = enuMessageType.EMPTY
            ∧ Nat.land options NONBLOCKING ≠ 0))
      ∧ (rawMessage.m_header.m_type = enuMessageType.EMPTY → Nat.land options NONBLOCKING = 0 →
          DataMailbox.receive NONBLOCKING rawMessage options h
              = (match DataMailboxMessage.decodeMessageDataType
                    ⟨MessageDataType.NONE, rawMessage.m_pData,
                      rawMessage.m_header.m_payloadSize, ⟨rawMessage.m_sourceName⟩⟩ h with
                | .error x => .error x
                | .ok d => .ok (⟨d⟩, h))
            ∧ (∀ e h1, DataMailbox.receive NONBLOCKING rawMessage options h = .ok (e, h1) →
                e.getRawDataPointer = rawMessage.m_pData
                  ∧ e.m_sizeOfSerializedData = rawMessage.m_header.m_payloadSize
                  ∧ e.getSource = ⟨rawMessage.m_sourceName⟩
                  ∧ h.loadByte rawMessage.m_pData 0 = .ok e.getDataType
                  ∧ h1 = h)
            ∧ (∀ b : Byte, h.loadByte rawMessage.m_pData 0 = .ok b → b.val < 8 →
                DataMailbox.receive NONBLOCKING rawMessage options h
                  = .ok (⟨⟨b, rawMessage.m_pData, rawMessage.m_header.m_payloadSize,
                          ⟨rawMessage.m_sourceName⟩⟩⟩, h)))
      ∧ (rawMessage.m_header.m_type = enuMessageType.TIMED_OUT →
          DataMailbox.receive NONBLOCKING rawMessage options h
            = .ok (⟨⟨MessageDataType.TimedOut, Ptr.block h.length, 1,
                      MailboxReference.unspecified⟩⟩,
                h ++ [⟨[some MessageDataType.TimedOut], true⟩])) := by
  refine ⟨⟨?_, ?_⟩, ?_, ?_⟩
  · rintro ⟨e, hr, _, _⟩
    by_cases ht : rawMessage.m_header.m_type = enuMessageType.TIMED_OUT
    · rw [receive_TIMED_OUT NONBLOCKING rawMessage options h ht] at hr
      simp only [Except.ok.injEq, Prod.mk.injEq, List.append_cancel_left_eq, List.cons.injEq,
        Block.mk.injEq, and_true] at hr
      exact absurd hr.2 (by decide)
    · by_cases he : rawMessage.m_header.m_type = enuMessageType.EMPTY
          ∧ Nat.land options NONBLOCKING ≠ 0
      · exact he
      · rw [receive_real_branch NONBLOCKING rawMessage options h ht he] at hr
        split at hr
        · cases hr
        · simp only [Except.ok.injEq, Prod.mk.injEq] at hr
          have := congrArg List.length hr.2
          simp only [List.length_append, List.length_cons, List.length_nil] at this
          omega
  · rintro ⟨he, hopt⟩
    exact ⟨_, receive_EMPTY_NONBLOCKING NONBLOCKING rawMessage options h he hopt, rfl, rfl⟩
  · intro he hopt
    have ht : ¬ rawMessage.m_header.m_type = enuMessageType.TIMED_OUT := by
      rw [he]
      decide
    have hne : ¬ (rawMessage.m_header.m_type = enuMessageType.EMPTY
        ∧ Nat.land options NONBLOCKING ≠ 0) := fun hh => hh.2 hopt
    refine ⟨receive_real_branch NONBLOCKING rawMessage options h ht hne, ?_, ?_⟩
    · intro e h1 hr
      rw [receive_real_branch NONBLOCKING rawMessage options h ht hne] at hr
      split at hr
      · cases hr
      · rename_i d hd
        simp only [Except.ok.injEq, Prod.mk.injEq] at hr
        obtain ⟨hp, hs, hsrc, hb⟩ := decode_ok_inv hd
        obtain ⟨he1, hh1⟩ := hr
        subst he1
        subst hh1
        exact ⟨hp, hs, hsrc, hb, rfl⟩
    · intro b hb hv
      exact receive_frame NONBLOCKING rawMessage options h b ht hne hb hv
  · intro ht
    exact receive_TIMED_OUT NONBLOCKING rawMessage options h ht

/-- C24 on a concrete run: the transport reports `EMPTY`, the `NONBLOCKING` bit (1) is not in
the options (0), and the raw message carries the frame `[5, 1, 2]` from `peer`: `receive` returns
that frame as an RFID-tagged envelope and allocates nothing. -/
theorem C24_receive_branches_witness :
    DataMailbox.receive 1 ⟨⟨enuMessageType.EMPTY, 3⟩, Ptr.block 0, "peer"⟩ 0
        [⟨[some 5, some 1, some 2], true⟩]
      = .ok (⟨⟨MessageDataType.RFIDMessage, Ptr.block 0, 3, ⟨"peer"⟩⟩⟩,
          [⟨[some 5, some 1, some 2], true⟩]) :=
  ((C24_receive_branches 1 ⟨⟨enuMessageType.EMPTY, 3⟩, Ptr.block 0, "peer"⟩ 0
      [⟨[some 5, some 1, some 2], true⟩]).2.1 rfl (by decide)).2.2 5 (by decide) (by decide)

/-! ## Repeated `Serialize` and message class names -/

/-- C25: whenever `Serialize` on a typed message returns, the message has the tag, the source
and the domain fields it had, and holds the frame of its layout; `Serialize` called again at once
returns too, leaves the same tag, source and fields, the same frame bytes and the same size, in a
new block, the block of the first frame having been freed. `Serialize` returns for every typed
message that owns its buffer or has none. Sending such a message whose `getInfo()` returns hands
the transport the bytes of its layout, and sending the message that call leaves, from any heap,
hands it the same bytes and size again; `sendConnectionless` is the same over its own transport
operation. -/
theorem C25_serialize_is_repeatable :
    (∀ (t t1 : ExtendedDataMailboxMessage) (h h1 : Heap), t.Serialize h = .ok (t1, h1) →
        t1 = t.withBase t1.base
          ∧ t1.base.getDataType = t.base.getDataType
          ∧ t1.base.getSource = t.base.getSource
          ∧ t1.base.frame h1 = .ok t.wireLayout
          ∧ ∃ t2 h2, t1.Serialize h1 = .ok (t2, h2)
              ∧ t2 = t.withBase t2.base
              ∧ t2.base.getDataType = t.base.getDataType
              ∧ t2.base.getSource = t.base.getSource
              ∧ t2.base.frame h2 = .ok t.wireLayout
              ∧ t2.base.m_sizeOfSerializedData = t1.base.m_sizeOfSerializedData
              ∧ t2.base.m_serialized ≠ t1.base.m_serialized
              ∧ ∃ id cells, t1.base.m_serialized = Ptr.block id
                  ∧ h1[id]? = some ⟨cells, true⟩ ∧ h2[id]? = some ⟨cells, false⟩)
      ∧ (∀ (t : ExtendedDataMailboxMessage) (h : Heap), t.base.ownsBufferOrNone h = true →
          ∃ t1 h1, t.Serialize h = .ok (t1, h1))
      ∧ (∀ (tr : MailboxReference → Ptr → size_t → Heap → Except Fault Unit)
          (destination : MailboxReference) (t : ExtendedDataMailboxMessage) (h : Heap),
          t.base.ownsBufferOrNone h = true → t.getInfo.isOk = true →
          ∃ p hA hB,
            hA.load p 0 (size_t.wrap (t.headerSize + t.trailingField.length)).val
                = .ok t.wireLayout
              ∧ DataMailbox.send tr destination (AnyDataMailboxMessage.extended t) h
                = (match tr destination p
                      (size_t.wrap (t.headerSize + t.trailingField.length)) hA with
                  | .error x => .error x
                  | .ok _ => .ok (AnyDataMailboxMessage.extended
                      (t.withBase ⟨t.base.m_dataType, Ptr.null, 0, t.base.m_source⟩), hB))
              ∧ ∀ h3 : Heap, ∃ q hC hD,
                  hC.load q 0 (size_t.wrap (t.headerSize + t.trailingField.length)).val
                      = .ok t.wireLayout
                    ∧ DataMailbox.send tr destination (AnyDataMailboxMessage.extended
                        (t.withBase ⟨t.base.m_dataType, Ptr.null, 0, t.base.m_source⟩)) h3
                      = (match tr destination q
                            (size_t.wrap (t.headerSize + t.trailingField.length)) hC with
                        | .error x => .error x
                        | .ok _ => .ok (AnyDataMailboxMessage.extended
                            (t.withBase ⟨t.base.m_dataType, Ptr.null, 0, t.base.m_source⟩),
                            hD)))
      ∧ (∀ (tr : MailboxReference → Ptr → size_t → Heap → Except Fault Unit)
          (destination : MailboxReference) (m : AnyDataMailboxMessage) (h : Heap),
          DataMailbox.sendConnectionless tr destination m h
            = DataMailbox.send tr destination m h) := by
  refine ⟨?_, ?_, ?_, ?_⟩
  · intro t t1 h h1 hr
    have ho := typed_Serialize_ok_owns t h _ hr
    obtain ⟨h0, _, hs, hf⟩ := ExtendedDataMailboxMessage.typed_Serialize_owned_frame t h ho
    rw [hs] at hr
    simp only [Except.ok.injEq, Prod.mk.injEq] at hr
    obtain ⟨ht1, hh1⟩ := hr
    subst ht1
    subst hh1
    have hlen : (size_t.wrap (t.headerSize + t.trailingField.length)).val
        = (t.wireLayout).length := by
      rw [wrap_val_of_lt (ExtendedDataMailboxMessage.wireLayout_lt t),
        ExtendedDataMailboxMessage.wireLayout_length]
    refine ⟨?_, ?_, ?_, ?_, _, _, typed_Serialize_again t h0, ?_, ?_, ?_, ?_, ?_, ?_,
      h0.length, t.wireLayout.map some, ?_, ?_, ?_⟩
    · rw [ExtendedDataMailboxMessage.base_withBase]
    · rw [ExtendedDataMailboxMessage.base_withBase]
      rfl
    · rw [ExtendedDataMailboxMessage.base_withBase]
      rfl
    · rw [ExtendedDataMailboxMessage.base_withBase]
      exact hf
    · rw [ExtendedDataMailboxMessage.base_withBase]
    · rw [ExtendedDataMailboxMessage.base_withBase]
      rfl
    · rw [ExtendedDataMailboxMessage.base_withBase]
      rfl
    · rw [ExtendedDataMailboxMessage.base_withBase]
      have hl1 : (h0 ++ [(⟨t.wireLayout.map some, false⟩ : Block)]).length = h0.length + 1 := by
        rw [List.length_append]
        rfl
      exact frame_concat_written
        ⟨t.base.m_dataType, Ptr.block (h0.length + 1),
          size_t.wrap (t.headerSize + t.trailingField.length), t.base.m_source⟩
        (h0 ++ [⟨t.wireLayout.map some, false⟩]) t.wireLayout hlen
        (by show Ptr.block (h0.length + 1) = _; rw [hl1])
    · rw [ExtendedDataMailboxMessage.base_withBase, ExtendedDataMailboxMessage.base_withBase]
    · rw [ExtendedDataMailboxMessage.base_withBase, ExtendedDataMailboxMessage.base_withBase]
      intro hq
      simp only [Ptr.block.injEq] at hq
      omega
    · rw [ExtendedDataMailboxMessage.base_withBase]
    · exact List.getElem?_concat_length _ _
    · have hl1 : h0.length < (h0 ++ [(⟨t.wireLayout.map some, false⟩ : Block)]).length := by
        rw [List.length_append]
        exact Nat.lt_succ_self _
      rw [List.getElem?_append_left hl1]
      exact List.getElem?_concat_length _ _
  · intro t h ho
    obtain ⟨h0, _, hs⟩ := ExtendedDataMailboxMessage.typed_Serialize_owned t h ho
    exact ⟨_, _, hs⟩
  · intro tr destination t h ho hi
    have hex : ∃ info, t.getInfo = .ok info := by
      cases hg : t.getInfo with
      | error x => rw [hg] at hi; cases hi
      | ok info => exact ⟨info, rfl⟩
    obtain ⟨info, hg⟩ := hex
    obtain ⟨h0, _, hsend⟩ := send_typed tr destination t h info ho hg
    obtain ⟨_, _, _, hfr⟩ := ExtendedDataMailboxMessage.typed_Serialize_owned_frame t h ho
    have hlen : (size_t.wrap (t.headerSize + t.trailingField.length)).val
        = (t.wireLayout).length := by
      rw [wrap_val_of_lt (ExtendedDataMailboxMessage.wireLayout_lt t),
        ExtendedDataMailboxMessage.wireLayout_length]
    have hload : ∀ k : Heap, Heap.load (k ++ [⟨t.wireLayout.map some, true⟩]) (Ptr.block k.length)
        0 (size_t.wrap (t.headerSize + t.trailingField.length)).val = .ok t.wireLayout :=
      fun k => frame_concat_written
        ⟨t.base.m_dataType, Ptr.block k.length,
          size_t.wrap (t.headerSize + t.trailingField.length), t.base.m_source⟩
        k t.wireLayout hlen rfl
    refine ⟨_, _, _, hload h0, hsend, ?_⟩
    intro h3
    have ho3 : (t.withBase ⟨t.base.m_dataType, Ptr.null, 0, t.base.m_source⟩).base.ownsBufferOrNone
        h3 = true := by
      rw [ExtendedDataMailboxMessage.base_withBase]
      exact owns_of_null _ _ rfl
    have hg3 : (t.withBase ⟨t.base.m_dataType, Ptr.null, 0, t.base.m_source⟩).getInfo
        = .ok info := by
      rw [ExtendedDataMailboxMessage.getInfo_withBase, hg]
    obtain ⟨h4, _, hsend3⟩ := send_typed tr destination _ h3 info ho3 hg3
    have hw := ExtendedDataMailboxMessage.wireLayout_withBase t
      ⟨t.base.m_dataType, Ptr.null, 0, t.base.m_source⟩ rfl
    simp only [ExtendedDataMailboxMessage.base_withBase,
      ExtendedDataMailboxMessage.withBase_withBase,
      ExtendedDataMailboxMessage.headerSize_withBase,
      ExtendedDataMailboxMessage.trailingField_withBase, hw] at hsend3
    exact ⟨_, _, _, hload h4, hsend3⟩
  · intro tr destination m h
    rfl

/-- C25 on a concrete run: `KeypadMessage_wPassword("p")` serialized twice from an empty heap
holds `[3, 112]` both times, the second time in a new block. -/
theorem C25_serialize_is_repeatable_witness :
    ∃ t1 h1 t2 h2,
      (ExtendedDataMailboxMessage.keypadPassword
          (KeypadMessage_wPassword.createWith (CppString.lit "p" (by decide)))).Serialize []
        = .ok (t1, h1)
      ∧ t1.Serialize h1 = .ok (t2, h2)
      ∧ t1.base.frame h1 = .ok [3, 112]
      ∧ t2.base.frame h2 = .ok [3, 112]
      ∧ t2.base.m_serialized ≠ t1.base.m_serialized := by
  obtain ⟨t1, h1, hs⟩ := C25_serialize_is_repeatable.2.1
    (ExtendedDataMailboxMessage.keypadPassword
      (KeypadMessage_wPassword.createWith (CppString.lit "p" (by decide)))) [] rfl
  obtain ⟨_, _, _, hf1, t2, h2, hs2, _, _, _, hf2, _, hne, _⟩ :=
    C25_serialize_is_repeatable.1 _ _ _ _ hs
  exact ⟨t1, h1, t2, h2, hs, hs2, hf1, hf2, hne⟩

/-- C26: `getMessageClassName` returns, for each of the fourteen `MessageClass` enumerators,
the text of that enumerator; two codes in 0..13 with the same name are the same code; for every
code outside 0..13 the call ends in `std::out_of_range` and returns no name. -/
theorem C26_getMessageClassName_table :
    WatchdogMessage.getMessageClassName MessageClass.REGISTER_REQUEST = .ok "REGISTER_REQUEST"
      ∧ WatchdogMessage.getMessageClassName MessageClass.REGISTER_REPLY = .ok "REGISTER_REPLY"
      ∧ WatchdogMessage.getMessageClassName MessageClass.UNREGISTER_REQUEST
          = .ok "UNREGISTER_REQUEST"
      ∧ WatchdogMessage.getMessageClassName MessageClass.UNREGISTER_REPLY
          = .ok "UNREGISTER_REPLY"
      ∧ WatchdogMessage.getMessageClassName MessageClass.UPDATE_SETTINGS = .ok "UPDATE_SETTINGS"
      ∧ WatchdogMessage.getMessageClassName MessageClass.KICK = .ok "KICK"
      ∧ WatchdogMessage.getMessageClassName MessageClass.START = .ok "START"
      ∧ WatchdogMessage.getMessageClassName MessageClass.STOP = .ok "STOP"
      ∧ WatchdogMessage.getMessageClassName MessageClass.SYNC_REQUEST = .ok "SYNC_REQUEST"
      ∧ WatchdogMessage.getMessageClassName MessageClass.SYNC_BROADCAST = .ok "SYNC_BROADCAST"
      ∧ WatchdogMessage.getMessageClassName MessageClass.TERMINATE_REQUEST
          = .ok "TERMINATE_REQUEST"
      ∧ WatchdogMessage.getMessageClassName MessageClass.TERMINATE_BROADCAST
          = .ok "TERMINATE_BROADCAST"
      ∧ WatchdogMessage.getMessageClassName MessageClass.ANY = .ok "ANY"
      ∧ WatchdogMessage.getMessageClassName MessageClass.NONE = .ok "NONE"
      ∧ (∀ c : MessageClass, (WatchdogMessage.getMessageClassName c).isOk = decide (c.val < 14))
      ∧ (∀ a b : MessageClass, a.val < 14 → b.val < 14 →
          WatchdogMessage.getMessageClassName a = WatchdogMessage.getMessageClassName b → a = b)
      ∧ (∀ c : MessageClass, 14 ≤ c.val →
          WatchdogMessage.getMessageClassName c = .error Fault.outOfRange) := by
  refine ⟨by decide, by decide, by decide, by decide, by decide, by decide, by decide, by decide,
    by decide, by decide, by decide, by decide, by decide, by decide, getMessageClassName_isOk,
    ?_, ?_⟩
  · intro a b ha hb hab
    rw [getMessageClassName_eq a, getMessageClassName_eq b] at hab
    have hla : a.val < (["REGISTER_REQUEST", "REGISTER_REPLY", "UNREGISTER_REQUEST",
        "UNREGISTER_REPLY", "UPDATE_SETTINGS", "KICK", "START", "STOP", "SYNC_REQUEST",
        "SYNC_BROADCAST", "TERMINATE_REQUEST", "TERMINATE_BROADCAST", "ANY", "NONE"] :
        List String).length := ha
    have hlb : b.val < (["REGISTER_REQUEST", "REGISTER_REPLY", "UNREGISTER_REQUEST",
        "UNREGISTER_REPLY", "UPDATE_SETTINGS", "KICK", "START", "STOP", "SYNC_REQUEST",
        "SYNC_BROADCAST", "TERMINATE_REQUEST", "TERMINATE_BROADCAST", "ANY", "NONE"] :
        List String).length := hb
    rw [List.getElem?_eq_getElem hla, List.getElem?_eq_getElem hlb] at hab
    simp only [Except.ok.injEq] at hab
    exact Fin.ext ((List.Nodup.getElem_inj_iff messageClassNames_nodup).1 hab)
  · intro c hc
    rw [getMessageClassName_eq c]
    have hn : (["REGISTER_REQUEST", "REGISTER_REPLY", "UNREGISTER_REQUEST",
        "UNREGISTER_REPLY", "UPDATE_SETTINGS", "KICK", "START", "STOP", "SYNC_REQUEST",
        "SYNC_BROADCAST", "TERMINATE_REQUEST", "TERMINATE_BROADCAST", "ANY", "NONE"] :
        List String)[c.val]? = none := List.getElem?_eq_none (by exact hc)
    rw [hn]

/-- C26 on concrete codes: `KICK` and `STOP` get different names, and the code 14 gets none. -/
theorem C26_getMessageClassName_table_witness :
    WatchdogMessage.getMessageClassName MessageClass.KICK
        ≠ WatchdogMessage.getMessageClassName MessageClass.STOP
      ∧ WatchdogMessage.getMessageClassName 14 = .error Fault.outOfRange := by
  obtain ⟨_, _, _, _, _, _, _, _, _, _, _, _, _, _, _, hinj, herr⟩ :=
    C26_getMessageClassName_table
  exact ⟨fun hab => absurd (hinj MessageClass.KICK MessageClass.STOP (by decide) (by decide) hab)
    (by decide), herr 14 (by decide)⟩

end DataMailboxLib
